import Mathlib

/-!
Verification of a BLAKE2s implementation: a shallow embedding of the
compression function (portable scalar backend and the two x86 vector
backends), the streaming engine and the keyed wrapper, together with
proofs of the specification claims.

Machine integers are modelled as natural numbers: 32-bit words are
naturals below 2^32, and arithmetic that wraps in the source carries an
explicit reduction modulo 2^32.  The 64-bit byte counter is modelled as
an unbounded natural; it agrees with the source's u64 counter whenever
fewer than 2^64 bytes are absorbed in total, which the top-level
theorems assume.  Fallible operations (assertions in the source) are
modelled with Option: `none` is an assertion failure.
-/

namespace B2s

/-- Wrapping 32-bit addition (`u32::wrapping_add`). -/
def add32 (x y : Nat) : Nat := (x + y) % 2 ^ 32

/-- 32-bit right rotation (`u32::rotate_right`):
`(x >> n) | (x << (32 - n))` on 32-bit words. -/
def rotr (x n : Nat) : Nat := (x >>> n) ||| ((x <<< (32 - n)) % 2 ^ 32)

/-- Recombine four bytes into a 32-bit little-endian word. -/
def wordOfBytes (b0 b1 b2 b3 : Nat) : Nat :=
  b0 + 256 * b1 + 65536 * b2 + 16777216 * b3

/-- Little-endian 32-bit word read at byte offset `j`
(`u32::from_le_bytes` on `block[j..j+4]`). -/
def wordLE (b : List Nat) (j : Nat) : Nat :=
  wordOfBytes (b.getD j 0) (b.getD (j+1) 0) (b.getD (j+2) 0) (b.getD (j+3) 0)

/-- Little-endian serialization of a 32-bit word (`u32::to_le_bytes`). -/
def bytesOfWord (x : Nat) : List Nat :=
  [x % 256, (x >>> 8) % 256, (x >>> 16) % 256, (x >>> 24) % 256]

/-- The BLAKE2s initialization constants (`Blake2s::IV`). -/
def IV : List Nat :=
  [0x6A09E667, 0xBB67AE85, 0x3C6EF372, 0xA54FF53A,
   0x510E527F, 0x9B05688C, 0x1F83D9AB, 0x5BE0CD19]

/-- One mixing operation of the portable backend (the `gg!` macro):
two ARX half-rounds with rotation constants 16, 12, 8, 7, on working
vector entries `a b c d` with message words `x` and `y`. -/
def gg (v : List Nat) (a b c d : Nat) (x y : Nat) : List Nat :=
  let va := add32 (v.getD a 0) (add32 (v.getD b 0) x)
  let vd := rotr (v.getD d 0 ^^^ va) 16
  let vc := add32 (v.getD c 0) vd
  let vb := rotr (v.getD b 0 ^^^ vc) 12
  let va' := add32 va (add32 vb y)
  let vd' := rotr (vd ^^^ va') 8
  let vc' := add32 vc vd'
  let vb' := rotr (vb ^^^ vc') 7
  ((((v.set a va').set b vb').set c vc').set d vd')

/-- One round of the portable backend (the `rr!` macro): four column
mixes followed by four diagonal mixes, message words selected by the
16-entry schedule row `s`. -/
def rrP (m : List Nat) (v : List Nat) (s : List Nat) : List Nat :=
  let v := gg v 0 4 8 12 (m.getD (s.getD 0 0) 0) (m.getD (s.getD 1 0) 0)
  let v := gg v 1 5 9 13 (m.getD (s.getD 2 0) 0) (m.getD (s.getD 3 0) 0)
  let v := gg v 2 6 10 14 (m.getD (s.getD 4 0) 0) (m.getD (s.getD 5 0) 0)
  let v := gg v 3 7 11 15 (m.getD (s.getD 6 0) 0) (m.getD (s.getD 7 0) 0)
  let v := gg v 0 5 10 15 (m.getD (s.getD 8 0) 0) (m.getD (s.getD 9 0) 0)
  let v := gg v 1 6 11 12 (m.getD (s.getD 10 0) 0) (m.getD (s.getD 11 0) 0)
  let v := gg v 2 7 8 13 (m.getD (s.getD 12 0) 0) (m.getD (s.getD 13 0) 0)
  let v := gg v 3 4 9 14 (m.getD (s.getD 14 0) 0) (m.getD (s.getD 15 0) 0)
  v

/-- The ten schedule rows used by the portable backend, transcribed from
the ten `rr!` invocations in `process_block`. -/
def SIGMA : List (List Nat) :=
  [[0, 1, 2, 3, 4, 5, 6, 7, 8, 9, 10, 11, 12, 13, 14, 15],
   [14, 10, 4, 8, 9, 15, 13, 6, 1, 12, 0, 2, 11, 7, 5, 3],
   [11, 8, 12, 0, 5, 2, 15, 13, 10, 14, 3, 6, 7, 1, 9, 4],
   [7, 9, 3, 1, 13, 12, 11, 14, 2, 6, 5, 10, 4, 0, 15, 8],
   [9, 0, 5, 7, 2, 4, 10, 15, 14, 1, 11, 12, 6, 8, 3, 13],
   [2, 12, 6, 10, 0, 11, 8, 3, 4, 13, 7, 5, 15, 14, 1, 9],
   [12, 5, 1, 15, 14, 13, 4, 10, 0, 7, 6, 3, 9, 2, 8, 11],
   [13, 11, 7, 14, 12, 1, 3, 9, 5, 0, 15, 4, 8, 6, 2, 10],
   [6, 15, 14, 9, 11, 3, 0, 8, 12, 2, 13, 7, 1, 4, 10, 5],
   [10, 2, 8, 4, 7, 6, 1, 5, 15, 11, 9, 14, 3, 12, 13, 0]]

/-- The 16 message words of a 64-byte block, read little-endian
(the `m` array of the portable backend). -/
def msgWords (block : List Nat) : List Nat :=
  [wordLE block 0, wordLE block 4, wordLE block 8, wordLE block 12,
   wordLE block 16, wordLE block 20, wordLE block 24, wordLE block 28,
   wordLE block 32, wordLE block 36, wordLE block 40, wordLE block 44,
   wordLE block 48, wordLE block 52, wordLE block 56, wordLE block 60]

/-- The portable `Blake2s::process_block`: build the 16-word working
vector from the state and the IV, fold in the counter and the
finalization flag, run the ten rounds, and fold the working vector back
into the state. -/
def process_block (h : List Nat) (block : List Nat) (ctr : Nat) (last : Bool) :
    List Nat :=
  let v := [h.getD 0 0, h.getD 1 0, h.getD 2 0, h.getD 3 0,
            h.getD 4 0, h.getD 5 0, h.getD 6 0, h.getD 7 0] ++ IV
  let v := v.set 12 (v.getD 12 0 ^^^ (ctr % 2 ^ 32))
  let v := v.set 13 (v.getD 13 0 ^^^ ((ctr >>> 32) % 2 ^ 32))
  let v := if last then v.set 14 (v.getD 14 0 ^^^ 0xFFFFFFFF) else v
  let m := msgWords block
  let v := SIGMA.foldl (rrP m) v
  [h.getD 0 0 ^^^ v.getD 0 0 ^^^ v.getD 8 0,
   h.getD 1 0 ^^^ v.getD 1 0 ^^^ v.getD 9 0,
   h.getD 2 0 ^^^ v.getD 2 0 ^^^ v.getD 10 0,
   h.getD 3 0 ^^^ v.getD 3 0 ^^^ v.getD 11 0,
   h.getD 4 0 ^^^ v.getD 4 0 ^^^ v.getD 12 0,
   h.getD 5 0 ^^^ v.getD 5 0 ^^^ v.getD 13 0,
   h.getD 6 0 ^^^ v.getD 6 0 ^^^ v.getD 14 0,
   h.getD 7 0 ^^^ v.getD 7 0 ^^^ v.getD 15 0]

/-! ## The streaming engine -/

/-- `!0u64`, the poison sentinel marking a finalized context. -/
def U64MAX : Nat := 2 ^ 64 - 1

/-- The `Blake2s` context: 8-word chaining state, 64-byte buffer,
byte counter, configured output length. -/
structure Ctx where
  h : List Nat
  buf : List Nat
  ctr : Nat
  out_len : Nat
deriving Repr, DecidableEq

/-- Overwrite `buf[p..p+d.length]` with `d`
(`copy_from_slice` into a sub-slice of the buffer). -/
def bufWrite (buf : List Nat) (p : Nat) (d : List Nat) : List Nat :=
  buf.take p ++ d ++ buf.drop (p + d.length)

/-- `Blake2s::new`: output length must be in [1,32]; the first state
word folds in the parameter block. -/
def Ctx.new (out_len : Nat) : Option Ctx :=
  if 1 ≤ out_len ∧ out_len ≤ 32 then
    some { h := IV.set 0 (IV.getD 0 0 ^^^ (0x01010000 ^^^ out_len)),
           buf := List.replicate 64 0,
           ctr := 0,
           out_len := out_len }
  else none

/-- The `while` loop of `Blake2s::update`: process full 64-byte blocks
directly from the input, always leaving the final at-most-64 bytes
buffered. -/
def updateLoop (c : Ctx) (rest : List Nat) : Ctx :=
  if rest.length ≤ 64 then
    { c with buf := bufWrite c.buf 0 rest, ctr := c.ctr + rest.length }
  else
    updateLoop
      { c with
        h := process_block c.h (rest.take 64) (c.ctr + 64) false,
        ctr := c.ctr + 64 } (rest.drop 64)
termination_by rest.length
decreasing_by simp [List.length_drop]; omega

/-- `Blake2s::update` after the poison check: complete the current
partial block, process it if a block boundary is crossed, then run the
block loop. -/
def updateGo (c : Ctx) (data : List Nat) : Ctx :=
  if data.length = 0 then c
  else
    if c.ctr = 0 ∨ c.ctr % 64 ≠ 0 then
      if data.length ≤ 64 - c.ctr % 64 then
        { c with
          buf := bufWrite c.buf (c.ctr % 64) data,
          ctr := c.ctr + data.length }
      else
        updateLoop
          { c with
            h := process_block c.h
              (bufWrite c.buf (c.ctr % 64) (data.take (64 - c.ctr % 64)))
              (c.ctr + (64 - c.ctr % 64)) false,
            buf := bufWrite c.buf (c.ctr % 64) (data.take (64 - c.ctr % 64)),
            ctr := c.ctr + (64 - c.ctr % 64) }
          (data.drop (64 - c.ctr % 64))
    else
      updateLoop
        { c with h := process_block c.h c.buf c.ctr false } data

/-- `Blake2s::update`: asserts the context is not poisoned, then absorbs
the data. -/
def Ctx.update (c : Ctx) (data : List Nat) : Option Ctx :=
  if c.ctr = U64MAX then none else some (updateGo c data)

/-- `Blake2s::reset`. -/
def Ctx.reset (c : Ctx) : Ctx :=
  { h := IV.set 0 (IV.getD 0 0 ^^^ (0x01010000 ^^^ c.out_len)),
    buf := List.replicate 64 0,
    ctr := 0,
    out_len := c.out_len }

/-- `Blake2s::inner_finalize`: asserts the context is not poisoned,
zero-pads the pending block, runs the final compression, serializes the
state little-endian, and poisons the context. -/
def finBuf (c : Ctx) : List Nat :=
  if c.ctr = 0 ∨ c.ctr % 64 ≠ 0
    then bufWrite c.buf (c.ctr % 64) (List.replicate (64 - c.ctr % 64) 0)
    else c.buf

def Ctx.inner_finalize (c : Ctx) : Option (List Nat × Ctx) :=
  if c.ctr = U64MAX then none
  else
    some ((((process_block c.h (finBuf c) c.ctr true).map bytesOfWord).flatten),
      { c with
        h := process_block c.h (finBuf c) c.ctr true,
        buf := finBuf c,
        ctr := U64MAX })

/-- `Blake2s::finalize_write`: the digest is the serialization truncated
to the configured output length. -/
def Ctx.finalize_write (c : Ctx) : Option (List Nat × Ctx) :=
  (c.inner_finalize).map (fun rc => ((rc.1.take c.out_len), rc.2))

/-- `Blake2s::inner_finalize_reset`. -/
def Ctx.inner_finalize_reset (c : Ctx) : Option (List Nat × Ctx) :=
  (c.inner_finalize).map (fun rc => (rc.1, rc.2.reset))

/-- `Blake2s::finalize_reset_write`. -/
def Ctx.finalize_reset_write (c : Ctx) : Option (List Nat × Ctx) :=
  (c.finalize_write).map (fun rc => (rc.1, rc.2.reset))

/-! ## The keyed wrapper -/

/-- The `KeyedBlake2s` context. -/
structure KCtx where
  ctx : Ctx
  saved_key : List Nat
  saved_key_len : Nat
deriving Repr, DecidableEq

/-- `KeyedBlake2s::new`: key length at most 32; a non-empty key is
folded into the parameter word and pre-loaded as a first buffered
block. -/
def KCtx.new (out_len : Nat) (key : List Nat) : Option KCtx :=
  if key.length ≤ 32 then
    (Ctx.new out_len).map (fun c =>
      let saved_key := bufWrite (List.replicate 32 0) 0 key
      if key.length ≠ 0 then
        { ctx := { c with
            h := c.h.set 0 (c.h.getD 0 0 ^^^ (key.length <<< 8)),
            buf := bufWrite c.buf 0 key,
            ctr := 64 },
          saved_key := saved_key, saved_key_len := key.length }
      else
        { ctx := c, saved_key := saved_key, saved_key_len := key.length })
  else none

/-- `KeyedBlake2s::reset`: reset the inner context, then re-apply the
key seeding. The key copy is
`self.ctx.buf[..self.saved_key_len].copy_from_slice(&self.saved_key)`:
the destination slice has `saved_key_len` bytes while the source is the
whole 32-byte `saved_key` array, and `copy_from_slice` panics (here:
`none`) unless the two lengths agree. -/
def KCtx.reset (k : KCtx) : Option KCtx :=
  if k.saved_key_len ≠ 0 then
    if k.saved_key.length = k.saved_key_len then
      some { k with ctx := { k.ctx.reset with
          h := (k.ctx.reset.h).set 0
            (k.ctx.reset.h.getD 0 0 ^^^ (k.saved_key_len <<< 8)),
          buf := bufWrite k.ctx.reset.buf 0 k.saved_key,
          ctr := 64 } }
    else none
  else some { k with ctx := k.ctx.reset }

/-- `KeyedBlake2s::update`. -/
def KCtx.update (k : KCtx) (data : List Nat) : Option KCtx :=
  (k.ctx.update data).map (fun c => { k with ctx := c })

/-- `KeyedBlake2s::finalize_write`. -/
def KCtx.finalize_write (k : KCtx) : Option (List Nat × KCtx) :=
  (k.ctx.finalize_write).map (fun rc => (rc.1, { k with ctx := rc.2 }))

/-- `KeyedBlake2s::finalize_reset_write`: finalize, then reset (with key
re-seeding, which can panic: see `KCtx.reset`). -/
def KCtx.finalize_reset_write (k : KCtx) : Option (List Nat × KCtx) :=
  (k.ctx.finalize_write).bind (fun rc =>
    (KCtx.reset { k with ctx := rc.2 }).map (fun k2 => (rc.1, k2)))

/-! ## One-shot wrappers -/

/-- `Blake2s256::hash`: one-shot unkeyed hash with 32-byte output. -/
def hash256 (data : List Nat) : Option (List Nat) :=
  ((Ctx.new 32).bind (fun c => c.update data)).bind
    (fun c => (c.inner_finalize).map (fun rc => rc.1))

/-- Digest of a sequence of `update` calls on a keyed context
(empty key: unkeyed hashing), via `finalize_write`. -/
def keyedDigest (out_len : Nat) (key : List Nat) (pieces : List (List Nat)) :
    Option (List Nat) :=
  (pieces.foldl (fun oc d => oc.bind (fun k => KCtx.update k d))
      (KCtx.new out_len key)).bind
    (fun k => (k.finalize_write).map (fun rc => rc.1))

/-! ## Specification-side description of the compression function.

These definitions follow the specification's words for the Compression
Core ("build a 16-word working vector `v` by concatenating `state` with
the IV constants, XOR the low and high 32 bits of `counter` into `v[12]`
and `v[13]`, and if `last`, bitwise-complement `v[14]` ... 10 rounds ...
rotation constants 16, 12, 8, 7 ... the canonical BLAKE2 message
schedule ... fold `state[i] ^= v[i] ^ v[i+8]`"), to be compared with the
`process_block` definition transcribed from the source. -/

/-- The ARX quarter-round pair of the specification: two sequential
add-rotate-xor applications with rotation constants 16, 12, 8, 7. -/
def specG (a b c d : Nat) (x y : Nat) : Nat × Nat × Nat × Nat :=
  let a := add32 a (add32 b x)
  let d := rotr (d ^^^ a) 16
  let c := add32 c d
  let b := rotr (b ^^^ c) 12
  let a := add32 a (add32 b y)
  let d := rotr (d ^^^ a) 8
  let c := add32 c d
  let b := rotr (b ^^^ c) 7
  (a, b, c, d)

/-- A specification mixing operation applied to working-vector entries
`a b c d`. -/
def specMix (v : List Nat) (a b c d : Nat) (x y : Nat) : List Nat :=
  let r := specG (v.getD a 0) (v.getD b 0) (v.getD c 0) (v.getD d 0) x y
  ((((v.set a r.1).set b r.2.1).set c r.2.2.1).set d r.2.2.2)

/-- The canonical BLAKE2 message schedule (RFC 7693, table of σ). -/
def specSigma : List (List Nat) :=
  [[0, 1, 2, 3, 4, 5, 6, 7, 8, 9, 10, 11, 12, 13, 14, 15],
   [14, 10, 4, 8, 9, 15, 13, 6, 1, 12, 0, 2, 11, 7, 5, 3],
   [11, 8, 12, 0, 5, 2, 15, 13, 10, 14, 3, 6, 7, 1, 9, 4],
   [7, 9, 3, 1, 13, 12, 11, 14, 2, 6, 5, 10, 4, 0, 15, 8],
   [9, 0, 5, 7, 2, 4, 10, 15, 14, 1, 11, 12, 6, 8, 3, 13],
   [2, 12, 6, 10, 0, 11, 8, 3, 4, 13, 7, 5, 15, 14, 1, 9],
   [12, 5, 1, 15, 14, 13, 4, 10, 0, 7, 6, 3, 9, 2, 8, 11],
   [13, 11, 7, 14, 12, 1, 3, 9, 5, 0, 15, 4, 8, 6, 2, 10],
   [6, 15, 14, 9, 11, 3, 0, 8, 12, 2, 13, 7, 1, 4, 10, 5],
   [10, 2, 8, 4, 7, 6, 1, 5, 15, 11, 9, 14, 3, 12, 13, 0]]

/-- A specification round: eight mixing operations over the four column
groupings and the four diagonal groupings, message words selected by the
schedule row `s`. -/
def specRound (v m : List Nat) (s : List Nat) : List Nat :=
  let v := specMix v 0 4 8 12 (m.getD (s.getD 0 0) 0) (m.getD (s.getD 1 0) 0)
  let v := specMix v 1 5 9 13 (m.getD (s.getD 2 0) 0) (m.getD (s.getD 3 0) 0)
  let v := specMix v 2 6 10 14 (m.getD (s.getD 4 0) 0) (m.getD (s.getD 5 0) 0)
  let v := specMix v 3 7 11 15 (m.getD (s.getD 6 0) 0) (m.getD (s.getD 7 0) 0)
  let v := specMix v 0 5 10 15 (m.getD (s.getD 8 0) 0) (m.getD (s.getD 9 0) 0)
  let v := specMix v 1 6 11 12 (m.getD (s.getD 10 0) 0) (m.getD (s.getD 11 0) 0)
  let v := specMix v 2 7 8 13 (m.getD (s.getD 12 0) 0) (m.getD (s.getD 13 0) 0)
  let v := specMix v 3 4 9 14 (m.getD (s.getD 14 0) 0) (m.getD (s.getD 15 0) 0)
  v

/-- The specification's Compression Core. -/
def specCompress (st block : List Nat) (ctr : Nat) (last : Bool) :
    List Nat :=
  let v := st ++ IV
  let v := v.set 12 (v.getD 12 0 ^^^ (ctr % 2 ^ 32))
  let v := v.set 13 (v.getD 13 0 ^^^ (ctr / 2 ^ 32))
  let v := if last then v.set 14 (v.getD 14 0 ^^^ 0xFFFFFFFF) else v
  let m := msgWords block
  let v := specSigma.foldl (fun v s => specRound v m s) v
  [st.getD 0 0 ^^^ v.getD 0 0 ^^^ v.getD 8 0,
   st.getD 1 0 ^^^ v.getD 1 0 ^^^ v.getD 9 0,
   st.getD 2 0 ^^^ v.getD 2 0 ^^^ v.getD 10 0,
   st.getD 3 0 ^^^ v.getD 3 0 ^^^ v.getD 11 0,
   st.getD 4 0 ^^^ v.getD 4 0 ^^^ v.getD 12 0,
   st.getD 5 0 ^^^ v.getD 5 0 ^^^ v.getD 13 0,
   st.getD 6 0 ^^^ v.getD 6 0 ^^^ v.getD 14 0,
   st.getD 7 0 ^^^ v.getD 7 0 ^^^ v.getD 15 0]

/-- The parameter word of claim C7. -/
def paramWord (ol klen : Nat) : Nat :=
  IV.getD 0 0 ^^^ 0x01010000 ^^^ ol ^^^ (klen <<< 8)

/-! ## Instrumented update: same control flow, also counting the
number of `process_block` invocations. -/

/-- `updateLoop` instrumented with the number of compressions. -/
def updateLoopC (c : Ctx) (rest : List Nat) : Ctx × Nat :=
  if rest.length ≤ 64 then
    ({ c with buf := bufWrite c.buf 0 rest, ctr := c.ctr + rest.length }, 0)
  else
    ((updateLoopC
        { c with
          h := process_block c.h (rest.take 64) (c.ctr + 64) false,
          ctr := c.ctr + 64 } (rest.drop 64)).1,
     (updateLoopC
        { c with
          h := process_block c.h (rest.take 64) (c.ctr + 64) false,
          ctr := c.ctr + 64 } (rest.drop 64)).2 + 1)
termination_by rest.length
decreasing_by simp [List.length_drop]; omega

/-- `updateGo` instrumented with the number of compressions. -/
def updateGoC (c : Ctx) (data : List Nat) : Ctx × Nat :=
  if data.length = 0 then (c, 0)
  else
    if c.ctr = 0 ∨ c.ctr % 64 ≠ 0 then
      if data.length ≤ 64 - c.ctr % 64 then
        ({ c with
           buf := bufWrite c.buf (c.ctr % 64) data,
           ctr := c.ctr + data.length }, 0)
      else
        ((updateLoopC
            { c with
              h := process_block c.h
                (bufWrite c.buf (c.ctr % 64) (data.take (64 - c.ctr % 64)))
                (c.ctr + (64 - c.ctr % 64)) false,
              buf := bufWrite c.buf (c.ctr % 64) (data.take (64 - c.ctr % 64)),
              ctr := c.ctr + (64 - c.ctr % 64) }
            (data.drop (64 - c.ctr % 64))).1,
         (updateLoopC
            { c with
              h := process_block c.h
                (bufWrite c.buf (c.ctr % 64) (data.take (64 - c.ctr % 64)))
                (c.ctr + (64 - c.ctr % 64)) false,
              buf := bufWrite c.buf (c.ctr % 64) (data.take (64 - c.ctr % 64)),
              ctr := c.ctr + (64 - c.ctr % 64) }
            (data.drop (64 - c.ctr % 64))).2 + 1)
    else
      ((updateLoopC
          { c with h := process_block c.h c.buf c.ctr false } data).1,
       (updateLoopC
          { c with h := process_block c.h c.buf c.ctr false } data).2 + 1)

/-- `Ctx.update` instrumented with the number of compressions. -/
def Ctx.updateC (c : Ctx) (data : List Nat) : Option (Ctx × Nat) :=
  if c.ctr = U64MAX then none else some (updateGoC c data)

/-- Run a sequence of instrumented updates, accumulating the total
number of compressions performed. -/
def runUpdatesC (c : Ctx) (pieces : List (List Nat)) : Option (Ctx × Nat) :=
  match pieces with
  | [] => some (c, 0)
  | d :: rest =>
      (c.updateC d).bind (fun cn =>
        (runUpdatesC cn.1 rest).map (fun rn => (rn.1, cn.2 + rn.2)))

/-! ## Stream characterization of a context.

A context reached from a fresh state by a sequence of updates is
determined (up to stale buffer bytes past the pending data) by the
total byte stream absorbed so far.  `compCount n` is the number of
compressions performed by `update` after `n` bytes of stream:
`update` always leaves the final (partial or full) block buffered. -/

/-- Number of blocks compressed during update after absorbing `n`
bytes: `ceil(n/64) - 1` for `n > 0`, and `0` for `n = 0`. -/
def compCount (n : Nat) : Nat := if n = 0 then 0 else (n - 1) / 64

/-- Chain `k` block compressions over the stream `rest`, the counter
starting at `ctr`. -/
def streamHAux (h rest : List Nat) (ctr k : Nat) : List Nat :=
  match k with
  | 0 => h
  | Nat.succ k' =>
      streamHAux (process_block h (rest.take 64) (ctr + 64) false)
        (rest.drop 64) (ctr + 64) k'

/-- The chaining state after absorbing the stream `s` from initial
state `h0`. -/
def streamH (h0 s : List Nat) : List Nat := streamHAux h0 s 0 (compCount s.length)

/-- The representation invariant: context `c` represents absorbed
stream `s` started from chaining state `h0`.  The buffer holds the
pending (not yet compressed) suffix of the stream; bytes past it are
stale. -/
def repOK (h0 s : List Nat) (c : Ctx) : Prop :=
  c.h = streamH h0 s ∧ c.ctr = s.length ∧ c.buf.length = 64 ∧
  c.buf.take (s.length - 64 * compCount s.length) =
    s.drop (64 * compCount s.length)

/-- The key pre-loaded as a zero-padded 64-byte block: the first block
of the absorbed stream of a keyed context. -/
def keyBlock (key : List Nat) : List Nat :=
  bufWrite (List.replicate 64 0) 0 key

/-- The final (zero-padded) block compressed at finalization, as a
function of the absorbed stream. -/
def fb (s : List Nat) : List Nat :=
  s.drop (64 * compCount s.length) ++
    List.replicate (64 - (s.length - 64 * compCount s.length)) 0

/-- The digest (untruncated, 32 bytes) as a function of the initial
chaining state and the absorbed stream. -/
def streamDigest (h0 s : List Nat) : List Nat :=
  ((process_block (streamH h0 s) (fb s) s.length true).map bytesOfWord).flatten

end B2s


namespace B2s

/-! ## 128-bit vector model for the x86 backends.

A 128-bit SSE register is four 32-bit lanes, `w0` the lowest.  The
intrinsics used by the two vector backends are modelled lane-wise. -/

structure V128 where
  w0 : Nat
  w1 : Nat
  w2 : Nat
  w3 : Nat
deriving Repr, DecidableEq

/-- Four-vector state (the `xv0 xv1 xv2 xv3` or message quadruple). -/
abbrev V4 := V128 × V128 × V128 × V128

def V128.lane (a : V128) (i : Nat) : Nat :=
  match i with
  | 0 => a.w0
  | 1 => a.w1
  | 2 => a.w2
  | _ => a.w3

def mm_add_epi32 (a b : V128) : V128 :=
  ⟨add32 a.w0 b.w0, add32 a.w1 b.w1, add32 a.w2 b.w2, add32 a.w3 b.w3⟩

def mm_xor_si128 (a b : V128) : V128 :=
  ⟨a.w0 ^^^ b.w0, a.w1 ^^^ b.w1, a.w2 ^^^ b.w2, a.w3 ^^^ b.w3⟩

def mm_or_si128 (a b : V128) : V128 :=
  ⟨a.w0 ||| b.w0, a.w1 ||| b.w1, a.w2 ||| b.w2, a.w3 ||| b.w3⟩

def mm_and_si128 (a b : V128) : V128 :=
  ⟨a.w0 &&& b.w0, a.w1 &&& b.w1, a.w2 &&& b.w2, a.w3 &&& b.w3⟩

def mm_andnot_si128 (a b : V128) : V128 :=
  ⟨(0xFFFFFFFF ^^^ a.w0) &&& b.w0, (0xFFFFFFFF ^^^ a.w1) &&& b.w1,
   (0xFFFFFFFF ^^^ a.w2) &&& b.w2, (0xFFFFFFFF ^^^ a.w3) &&& b.w3⟩

def mm_srli_epi32 (a : V128) (n : Nat) : V128 :=
  ⟨a.w0 >>> n, a.w1 >>> n, a.w2 >>> n, a.w3 >>> n⟩

def mm_slli_epi32 (a : V128) (n : Nat) : V128 :=
  ⟨(a.w0 <<< n) % 2 ^ 32, (a.w1 <<< n) % 2 ^ 32,
   (a.w2 <<< n) % 2 ^ 32, (a.w3 <<< n) % 2 ^ 32⟩

def mm_shuffle_epi32 (a : V128) (imm : Nat) : V128 :=
  ⟨a.lane (imm % 4), a.lane (imm / 4 % 4),
   a.lane (imm / 16 % 4), a.lane (imm / 64 % 4)⟩

def mm_unpacklo_epi64 (a b : V128) : V128 := ⟨a.w0, a.w1, b.w0, b.w1⟩

def mm_unpackhi_epi64 (a b : V128) : V128 := ⟨a.w2, a.w3, b.w2, b.w3⟩

def mm_blend_epi32 (a b : V128) (imm : Nat) : V128 :=
  ⟨if imm % 2 = 1 then b.w0 else a.w0,
   if imm / 2 % 2 = 1 then b.w1 else a.w1,
   if imm / 4 % 2 = 1 then b.w2 else a.w2,
   if imm / 8 % 2 = 1 then b.w3 else a.w3⟩

def mm_setr_epi32 (a b c d : Nat) : V128 := ⟨a, b, c, d⟩

/-- Byte `j` (0..15) of the 128-bit value, little-endian within each
lane. -/
def V128.byte (a : V128) (j : Nat) : Nat :=
  (a.lane (j / 4) >>> (8 * (j % 4))) % 256

/-- `_mm_shuffle_epi8`: byte-level shuffle; a mask byte with its high
bit set produces zero, otherwise its low four bits select a source
byte. -/
def mm_shuffle_epi8 (a : V128) (mask : List Nat) : V128 :=
  ⟨wordOfBytes
      (if 128 ≤ mask.getD 0 0 then 0 else a.byte (mask.getD 0 0 % 16))
      (if 128 ≤ mask.getD 1 0 then 0 else a.byte (mask.getD 1 0 % 16))
      (if 128 ≤ mask.getD 2 0 then 0 else a.byte (mask.getD 2 0 % 16))
      (if 128 ≤ mask.getD 3 0 then 0 else a.byte (mask.getD 3 0 % 16)),
   wordOfBytes
      (if 128 ≤ mask.getD 4 0 then 0 else a.byte (mask.getD 4 0 % 16))
      (if 128 ≤ mask.getD 5 0 then 0 else a.byte (mask.getD 5 0 % 16))
      (if 128 ≤ mask.getD 6 0 then 0 else a.byte (mask.getD 6 0 % 16))
      (if 128 ≤ mask.getD 7 0 then 0 else a.byte (mask.getD 7 0 % 16)),
   wordOfBytes
      (if 128 ≤ mask.getD 8 0 then 0 else a.byte (mask.getD 8 0 % 16))
      (if 128 ≤ mask.getD 9 0 then 0 else a.byte (mask.getD 9 0 % 16))
      (if 128 ≤ mask.getD 10 0 then 0 else a.byte (mask.getD 10 0 % 16))
      (if 128 ≤ mask.getD 11 0 then 0 else a.byte (mask.getD 11 0 % 16)),
   wordOfBytes
      (if 128 ≤ mask.getD 12 0 then 0 else a.byte (mask.getD 12 0 % 16))
      (if 128 ≤ mask.getD 13 0 then 0 else a.byte (mask.getD 13 0 % 16))
      (if 128 ≤ mask.getD 14 0 then 0 else a.byte (mask.getD 14 0 % 16))
      (if 128 ≤ mask.getD 15 0 then 0 else a.byte (mask.getD 15 0 % 16))⟩

/-- The `xror8` byte-rotation mask of the AVX2 backend. -/
def xror8mask : List Nat := [1, 2, 3, 0, 5, 6, 7, 4, 9, 10, 11, 8, 13, 14, 15, 12]

/-- The `xror16` byte-rotation mask of the AVX2 backend. -/
def xror16mask : List Nat := [2, 3, 0, 1, 6, 7, 4, 5, 10, 11, 8, 9, 14, 15, 12, 13]

/-- `_mm_loadu_si128` from a byte slice at offset `off` (words are
little-endian). -/
def loadV128 (b : List Nat) (off : Nat) : V128 :=
  ⟨wordLE b off, wordLE b (off + 4), wordLE b (off + 8), wordLE b (off + 12)⟩

/-- The message load and transposition shared by both vector backends:
after it, the four vectors hold the 16 block words in the column order
of round 0 (lanes 0 2 4 6 / 1 3 5 7 / 8 10 12 14 / 9 11 13 15). -/
def loadMsg (block : List Nat) : V4 :=
  let xm0 := loadV128 block 0
  let xm1 := loadV128 block 16
  let xm2 := loadV128 block 32
  let xm3 := loadV128 block 48
  let xn0 := mm_shuffle_epi32 xm0 0xD8
  let xn1 := mm_shuffle_epi32 xm1 0xD8
  let xn2 := mm_shuffle_epi32 xm2 0xD8
  let xn3 := mm_shuffle_epi32 xm3 0xD8
  (mm_unpacklo_epi64 xn0 xn1, mm_unpackhi_epi64 xn0 xn1,
   mm_unpacklo_epi64 xn2 xn3, mm_unpackhi_epi64 xn2 xn3)

/-- The state vectors at the start of either vector backend: two state
vectors, two IV vectors, the counter and finalization flag folded into
the fourth. -/
def initV4 (h : List Nat) (ctr : Nat) (last : Bool) : V4 :=
  (⟨h.getD 0 0, h.getD 1 0, h.getD 2 0, h.getD 3 0⟩,
   ⟨h.getD 4 0, h.getD 5 0, h.getD 6 0, h.getD 7 0⟩,
   ⟨IV.getD 0 0, IV.getD 1 0, IV.getD 2 0, IV.getD 3 0⟩,
   mm_xor_si128 ⟨IV.getD 4 0, IV.getD 5 0, IV.getD 6 0, IV.getD 7 0⟩
     (mm_setr_epi32 (ctr % 2 ^ 32) ((ctr >>> 32) % 2 ^ 32)
       (if last then 0xFFFFFFFF else 0) 0))

/-- The final fold of either vector backend:
`h ^= (xv0 ^ xv2, xv1 ^ xv3)`. -/
def storeV4 (h : List Nat) (w : V4) : List Nat :=
  [h.getD 0 0 ^^^ (w.1.w0 ^^^ w.2.2.1.w0),
   h.getD 1 0 ^^^ (w.1.w1 ^^^ w.2.2.1.w1),
   h.getD 2 0 ^^^ (w.1.w2 ^^^ w.2.2.1.w2),
   h.getD 3 0 ^^^ (w.1.w3 ^^^ w.2.2.1.w3),
   h.getD 4 0 ^^^ (w.2.1.w0 ^^^ w.2.2.2.w0),
   h.getD 5 0 ^^^ (w.2.1.w1 ^^^ w.2.2.2.w1),
   h.getD 6 0 ^^^ (w.2.1.w2 ^^^ w.2.2.2.w2),
   h.getD 7 0 ^^^ (w.2.1.w3 ^^^ w.2.2.2.w3)]

/-- The AVX2 `g4!` macro: a column quarter-round pair; rotations by 16
and 8 use byte shuffles, rotations by 12 and 7 use shift-or pairs. -/
def g4A (xx xy : V128) (w : V4) : V4 :=
  match w with
  | (v0, v1, v2, v3) =>
    let xv0 := mm_add_epi32 v0 (mm_add_epi32 v1 xx)
    let xv3 := mm_shuffle_epi8 (mm_xor_si128 xv0 v3) xror16mask
    let xv2 := mm_add_epi32 v2 xv3
    let xtg := mm_xor_si128 v1 xv2
    let xv1 := mm_or_si128 (mm_srli_epi32 xtg 12) (mm_slli_epi32 xtg 20)
    let xv0' := mm_add_epi32 xv0 (mm_add_epi32 xv1 xy)
    let xv3' := mm_shuffle_epi8 (mm_xor_si128 xv0' xv3) xror8mask
    let xv2' := mm_add_epi32 xv2 xv3'
    let xtg' := mm_xor_si128 xv1 xv2'
    let xv1' := mm_or_si128 (mm_srli_epi32 xtg' 7) (mm_slli_epi32 xtg' 25)
    (xv0', xv1', xv2', xv3')

/-- The AVX2 `rr!` macro: columns, diagonalize, diagonals,
undiagonalize. -/
def rrA (mi : V4) (w : V4) : V4 :=
  match mi with
  | (xi0, xi1, xi2, xi3) =>
    let w1 := g4A xi0 xi1 w
    let w2 := g4A xi2 xi3
      (w1.1, mm_shuffle_epi32 w1.2.1 0x39,
       mm_shuffle_epi32 w1.2.2.1 0x4E, mm_shuffle_epi32 w1.2.2.2 0x93)
    (w2.1, mm_shuffle_epi32 w2.2.1 0x93,
     mm_shuffle_epi32 w2.2.2.1 0x4E, mm_shuffle_epi32 w2.2.2.2 0x39)

def schedA1 (m : V4) : V4 :=
  match m with
  | (xm0, xm1, xm2, xm3) =>
    let xt0 := mm_shuffle_epi32 xm0 0x00
    let xt1 := mm_shuffle_epi32 xm0 0xC8
    let xt2 := mm_shuffle_epi32 xm1 0x70
    let xt3 := mm_shuffle_epi32 xm1 0x80
    let xt4 := mm_shuffle_epi32 xm2 0x01
    let xt5 := mm_shuffle_epi32 xm2 0x02
    let xt6 := mm_shuffle_epi32 xm2 0x03
    let xt7 := mm_shuffle_epi32 xm3 0x80
    let xt8 := mm_shuffle_epi32 xm3 0x10
    let xt9 := mm_shuffle_epi32 xm3 0x30
    let xn0 := mm_blend_epi32 (mm_blend_epi32 xt6 xt1 0x02) xt7 0x0C
    let xn1 := mm_blend_epi32 (mm_blend_epi32 xt4 xt9 0x04) xt1 0x08
    let xn2 := mm_blend_epi32 (mm_blend_epi32 xt3 xt0 0x02) xt8 0x04
    let xn3 := mm_blend_epi32 (mm_blend_epi32 xt5 xm0 0x02) xt2 0x0C
    (xn0, xn1, xn2, xn3)

def schedA2 (m : V4) : V4 :=
  match m with
  | (xn0, xn1, xn2, xn3) =>
    let xt0 := mm_shuffle_epi32 xn0 0x40
    let xt1 := mm_shuffle_epi32 xn0 0x80
    let xt2 := mm_shuffle_epi32 xn1 0x80
    let xt3 := mm_shuffle_epi32 xn1 0x0D
    let xt4 := mm_shuffle_epi32 xn2 0x04
    let xt5 := mm_shuffle_epi32 xn2 0x32
    let xt6 := mm_shuffle_epi32 xn3 0x10
    let xt7 := mm_shuffle_epi32 xn3 0x2C
    let xm0 := mm_blend_epi32 (mm_blend_epi32 xt5 xt6 0x02) xt2 0x08
    let xm1 := mm_blend_epi32 (mm_blend_epi32 xt3 xt4 0x02) (mm_blend_epi32 xt6 xn0 0x08) 0x0C
    let xm2 := mm_blend_epi32 (mm_blend_epi32 xt2 xt7 0x06) xt1 0x08
    let xm3 := mm_blend_epi32 (mm_blend_epi32 xt0 xt3 0x02) xt4 0x04
    (xm0, xm1, xm2, xm3)

def schedA3 (m : V4) : V4 :=
  match m with
  | (xm0, xm1, xm2, xm3) =>
    let xt0 := mm_shuffle_epi32 xm0 0x10
    let xt1 := mm_shuffle_epi32 xm0 0xC8
    let xt2 := mm_shuffle_epi32 xm1 0x10
    let xt3 := mm_shuffle_epi32 xm1 0x32
    let xt4 := mm_shuffle_epi32 xm2 0x03
    let xt5 := mm_shuffle_epi32 xm2 0x06
    let xt6 := mm_shuffle_epi32 xm3 0x39
    let xn0 := mm_blend_epi32 (mm_blend_epi32 xt5 xt3 0x04) xt0 0x08
    let xn1 := mm_blend_epi32 (mm_blend_epi32 xt4 xt6 0x0A) xt0 0x04
    let xn2 := mm_blend_epi32 (mm_blend_epi32 xt3 xt1 0x0A) xt6 0x04
    let xn3 := mm_blend_epi32 (mm_blend_epi32 xt6 xt4 0x02) xt2 0x0C
    (xn0, xn1, xn2, xn3)

def schedA4 (m : V4) : V4 :=
  match m with
  | (xn0, xn1, xn2, xn3) =>
    let xt0 := mm_shuffle_epi32 xn0 0x80
    let xt1 := mm_shuffle_epi32 xn0 0x4C
    let xt2 := mm_shuffle_epi32 xn1 0x09
    let xt3 := mm_shuffle_epi32 xn1 0x03
    let xt4 := mm_shuffle_epi32 xn2 0x04
    let xt5 := mm_shuffle_epi32 xn3 0x40
    let xt6 := mm_shuffle_epi32 xn3 0x32
    let xm0 := mm_blend_epi32 (mm_blend_epi32 xn1 xt4 0x06) xt5 0x08
    let xm1 := mm_blend_epi32 (mm_blend_epi32 xt6 xt0 0x02) xn2 0x0C
    let xm2 := mm_blend_epi32 (mm_blend_epi32 xt3 xt1 0x0A) xt5 0x04
    let xm3 := mm_blend_epi32 (mm_blend_epi32 xt2 xt6 0x04) xt0 0x08
    (xm0, xm1, xm2, xm3)

def schedA5 (m : V4) : V4 :=
  match m with
  | (xm0, xm1, xm2, xm3) =>
    let xt0 := mm_shuffle_epi32 xm0 0x04
    let xt1 := mm_shuffle_epi32 xm0 0x0E
    let xt2 := mm_shuffle_epi32 xm1 0x04
    let xt3 := mm_shuffle_epi32 xm1 0x32
    let xt4 := mm_shuffle_epi32 xm2 0x08
    let xt5 := mm_shuffle_epi32 xm2 0xD0
    let xt6 := mm_shuffle_epi32 xm3 0x01
    let xt7 := mm_shuffle_epi32 xm3 0x83
    let xn0 := mm_blend_epi32 (mm_blend_epi32 xt1 xt4 0x02) (mm_blend_epi32 xt2 xt7 0x08) 0x0C
    let xn1 := mm_blend_epi32 (mm_blend_epi32 xt6 xt1 0x02) xt5 0x0C
    let xn2 := mm_blend_epi32 (mm_blend_epi32 xt3 xt2 0x02) xt6 0x08
    let xn3 := mm_blend_epi32 (mm_blend_epi32 xt7 xt0 0x0A) xt4 0x04
    (xn0, xn1, xn2, xn3)

def schedA6 (m : V4) : V4 :=
  match m with
  | (xn0, xn1, xn2, xn3) =>
    let xt0 := mm_shuffle_epi32 xn0 0xC6
    let xt1 := mm_shuffle_epi32 xn1 0x40
    let xt2 := mm_shuffle_epi32 xn1 0x8C
    let xt3 := mm_shuffle_epi32 xn2 0x09
    let xt4 := mm_shuffle_epi32 xn2 0x0C
    let xt5 := mm_shuffle_epi32 xn3 0x01
    let xt6 := mm_shuffle_epi32 xn3 0x30
    let xm0 := mm_blend_epi32 (mm_blend_epi32 xt1 xt4 0x0A) xn3 0x04
    let xm1 := mm_blend_epi32 (mm_blend_epi32 xt5 xt3 0x02) xt1 0x08
    let xm2 := mm_blend_epi32 xt0 xt6 0x04
    let xm3 := mm_blend_epi32 (mm_blend_epi32 xt3 xt2 0x0A) xt0 0x04
    (xm0, xm1, xm2, xm3)

def schedA7 (m : V4) : V4 :=
  match m with
  | (xm0, xm1, xm2, xm3) =>
    let xt0 := mm_shuffle_epi32 xm0 0x0C
    let xt1 := mm_shuffle_epi32 xm0 0x18
    let xt2 := mm_shuffle_epi32 xm1 0xC2
    let xt3 := mm_shuffle_epi32 xm2 0x10
    let xt4 := mm_shuffle_epi32 xm2 0xB0
    let xt5 := mm_shuffle_epi32 xm3 0x40
    let xt6 := mm_shuffle_epi32 xm3 0x83
    let xn0 := mm_blend_epi32 (mm_blend_epi32 xt2 xt5 0x0A) xt0 0x04
    let xn1 := mm_blend_epi32 (mm_blend_epi32 xt6 xt1 0x06) xt4 0x08
    let xn2 := mm_blend_epi32 (mm_blend_epi32 xm1 xt4 0x04) xt6 0x08
    let xn3 := mm_blend_epi32 (mm_blend_epi32 xt3 xt0 0x02) xt2 0x08
    (xn0, xn1, xn2, xn3)

def schedA8 (m : V4) : V4 :=
  match m with
  | (xn0, xn1, xn2, xn3) =>
    let xt0 := mm_shuffle_epi32 xn0 0x02
    let xt1 := mm_shuffle_epi32 xn0 0x34
    let xt2 := mm_shuffle_epi32 xn1 0x0C
    let xt3 := mm_shuffle_epi32 xn2 0x03
    let xt4 := mm_shuffle_epi32 xn2 0x81
    let xt5 := mm_shuffle_epi32 xn3 0x02
    let xt6 := mm_shuffle_epi32 xn3 0xD0
    let xm0 := mm_blend_epi32 (mm_blend_epi32 xt5 xn1 0x02) xt2 0x04
    let xm1 := mm_blend_epi32 (mm_blend_epi32 xt4 xt2 0x02) xt1 0x04
    let xm2 := mm_blend_epi32 (mm_blend_epi32 xt0 xn1 0x04) xt6 0x08
    let xm3 := mm_blend_epi32 (mm_blend_epi32 xt3 xt1 0x02) xt6 0x04
    (xm0, xm1, xm2, xm3)

def schedA9 (m : V4) : V4 :=
  match m with
  | (xm0, xm1, xm2, xm3) =>
    let xt0 := mm_shuffle_epi32 xm0 0xC6
    let xt1 := mm_shuffle_epi32 xm1 0x2C
    let xt2 := mm_shuffle_epi32 xm2 0x40
    let xt3 := mm_shuffle_epi32 xm2 0x83
    let xt4 := mm_shuffle_epi32 xm3 0xD8
    let xn0 := mm_blend_epi32 (mm_blend_epi32 xt3 xt1 0x02) xt4 0x04
    let xn1 := mm_blend_epi32 xt4 xt0 0x04
    let xn2 := mm_blend_epi32 (mm_blend_epi32 xm1 xt1 0x04) xt2 0x08
    let xn3 := mm_blend_epi32 xt0 xt2 0x04
    (xn0, xn1, xn2, xn3)

/-- The ten per-round message-vector quadruples of the AVX2 backend:
the transposed load followed by the nine shuffle/blend schedule
derivations. -/
def msgsA (block : List Nat) : List V4 :=
  let m0 := loadMsg block
  let m1 := schedA1 m0
  let m2 := schedA2 m1
  let m3 := schedA3 m2
  let m4 := schedA4 m3
  let m5 := schedA5 m4
  let m6 := schedA6 m5
  let m7 := schedA7 m6
  let m8 := schedA8 m7
  let m9 := schedA9 m8
  [m0, m1, m2, m3, m4, m5, m6, m7, m8, m9]

/-- A zero message quadruple (placeholder for out-of-range access). -/
def mzero : V4 := (⟨0, 0, 0, 0⟩, ⟨0, 0, 0, 0⟩, ⟨0, 0, 0, 0⟩, ⟨0, 0, 0, 0⟩)

/-- The AVX2 `process_block`: message load and transpose, ten rounds
with the per-round shuffled/blended message schedule, final fold. -/
def avx2_process_block (h block : List Nat) (ctr : Nat) (last : Bool) :
    List Nat :=
  let ms := msgsA block
  let w := rrA (ms.getD 0 mzero) (initV4 h ctr last)
  let w := rrA (ms.getD 1 mzero) w
  let w := rrA (ms.getD 2 mzero) w
  let w := rrA (ms.getD 3 mzero) w
  let w := rrA (ms.getD 4 mzero) w
  let w := rrA (ms.getD 5 mzero) w
  let w := rrA (ms.getD 6 mzero) w
  let w := rrA (ms.getD 7 mzero) w
  let w := rrA (ms.getD 8 mzero) w
  let w := rrA (ms.getD 9 mzero) w
  storeV4 h w

def xz1 : V128 := ⟨0xFFFFFFFF, 0, 0, 0⟩

def xz2 : V128 := ⟨0, 0xFFFFFFFF, 0, 0⟩

def xz3 : V128 := ⟨0xFFFFFFFF, 0xFFFFFFFF, 0, 0⟩

def xz4 : V128 := ⟨0, 0, 0xFFFFFFFF, 0⟩

def xz5 : V128 := ⟨0xFFFFFFFF, 0, 0xFFFFFFFF, 0⟩

def xz6 : V128 := ⟨0, 0xFFFFFFFF, 0xFFFFFFFF, 0⟩

def xz7 : V128 := ⟨0xFFFFFFFF, 0xFFFFFFFF, 0xFFFFFFFF, 0⟩

/-- The SSE2 `g4!` macro: all four rotations via shift-or pairs. -/
def g4S (xx xy : V128) (w : V4) : V4 :=
  match w with
  | (v0, v1, v2, v3) =>
    let xv0 := mm_add_epi32 v0 (mm_add_epi32 v1 xx)
    let xtg := mm_xor_si128 xv0 v3
    let xv3 := mm_or_si128 (mm_srli_epi32 xtg 16) (mm_slli_epi32 xtg 16)
    let xv2 := mm_add_epi32 v2 xv3
    let xtg2 := mm_xor_si128 v1 xv2
    let xv1 := mm_or_si128 (mm_srli_epi32 xtg2 12) (mm_slli_epi32 xtg2 20)
    let xv0' := mm_add_epi32 xv0 (mm_add_epi32 xv1 xy)
    let xtg3 := mm_xor_si128 xv0' xv3
    let xv3' := mm_or_si128 (mm_srli_epi32 xtg3 8) (mm_slli_epi32 xtg3 24)
    let xv2' := mm_add_epi32 xv2 xv3'
    let xtg4 := mm_xor_si128 xv1 xv2'
    let xv1' := mm_or_si128 (mm_srli_epi32 xtg4 7) (mm_slli_epi32 xtg4 25)
    (xv0', xv1', xv2', xv3')

/-- The SSE2 `rr!` macro. -/
def rrS (mi : V4) (w : V4) : V4 :=
  match mi with
  | (xi0, xi1, xi2, xi3) =>
    let w1 := g4S xi0 xi1 w
    let w2 := g4S xi2 xi3
      (w1.1, mm_shuffle_epi32 w1.2.1 0x39,
       mm_shuffle_epi32 w1.2.2.1 0x4E, mm_shuffle_epi32 w1.2.2.2 0x93)
    (w2.1, mm_shuffle_epi32 w2.2.1 0x93,
     mm_shuffle_epi32 w2.2.2.1 0x4E, mm_shuffle_epi32 w2.2.2.2 0x39)

def schedS1 (m : V4) : V4 :=
  match m with
  | (xm0, xm1, xm2, xm3) =>
    let xt0 := mm_shuffle_epi32 xm0 0x00
    let xt1 := mm_shuffle_epi32 xm0 0xC8
    let xt2 := mm_shuffle_epi32 xm1 0x70
    let xt3 := mm_shuffle_epi32 xm1 0x80
    let xt4 := mm_shuffle_epi32 xm2 0x01
    let xt5 := mm_shuffle_epi32 xm2 0x02
    let xt6 := mm_shuffle_epi32 xm2 0x03
    let xt7 := mm_shuffle_epi32 xm3 0x80
    let xt8 := mm_shuffle_epi32 xm3 0x10
    let xt9 := mm_shuffle_epi32 xm3 0x30
    let xn0 := mm_or_si128 (mm_or_si128 (mm_and_si128 xz1 xt6) (mm_and_si128 xz2 xt1)) (mm_andnot_si128 xz3 xt7)
    let xn1 := mm_or_si128 (mm_or_si128 (mm_and_si128 xz3 xt4) (mm_and_si128 xz4 xt9)) (mm_andnot_si128 xz7 xt1)
    let xn2 := mm_or_si128 (mm_or_si128 (mm_andnot_si128 xz6 xt3) (mm_and_si128 xz2 xt0)) (mm_and_si128 xz4 xt8)
    let xn3 := mm_or_si128 (mm_or_si128 (mm_and_si128 xz1 xt5) (mm_and_si128 xz2 xm0)) (mm_andnot_si128 xz3 xt2)
    (xn0, xn1, xn2, xn3)

def schedS2 (m : V4) : V4 :=
  match m with
  | (xn0, xn1, xn2, xn3) =>
    let xt0 := mm_shuffle_epi32 xn0 0x40
    let xt1 := mm_shuffle_epi32 xn0 0x80
    let xt2 := mm_shuffle_epi32 xn1 0x80
    let xt3 := mm_shuffle_epi32 xn1 0x0D
    let xt4 := mm_shuffle_epi32 xn2 0x04
    let xt5 := mm_shuffle_epi32 xn2 0x32
    let xt6 := mm_shuffle_epi32 xn3 0x10
    let xt7 := mm_shuffle_epi32 xn3 0x2C
    let xm0 := mm_or_si128 (mm_or_si128 (mm_and_si128 xz5 xt5) (mm_and_si128 xz2 xt6)) (mm_andnot_si128 xz7 xt2)
    let xm1 := mm_or_si128 (mm_or_si128 (mm_and_si128 xz1 xt3) (mm_and_si128 xz2 xt4)) (mm_or_si128 (mm_and_si128 xz4 xt6) (mm_andnot_si128 xz7 xn0))
    let xm2 := mm_or_si128 (mm_or_si128 (mm_and_si128 xz1 xt2) (mm_and_si128 xz6 xt7)) (mm_andnot_si128 xz7 xt1)
    let xm3 := mm_or_si128 (mm_or_si128 (mm_andnot_si128 xz6 xt0) (mm_and_si128 xz2 xt3)) (mm_and_si128 xz4 xt4)
    (xm0, xm1, xm2, xm3)

def schedS3 (m : V4) : V4 :=
  match m with
  | (xm0, xm1, xm2, xm3) =>
    let xt0 := mm_shuffle_epi32 xm0 0x10
    let xt1 := mm_shuffle_epi32 xm0 0xC8
    let xt2 := mm_shuffle_epi32 xm1 0x10
    let xt3 := mm_shuffle_epi32 xm1 0x32
    let xt4 := mm_shuffle_epi32 xm2 0x03
    let xt5 := mm_shuffle_epi32 xm2 0x06
    let xt6 := mm_shuffle_epi32 xm3 0x39
    let xn0 := mm_or_si128 (mm_or_si128 (mm_and_si128 xz3 xt5) (mm_and_si128 xz4 xt3)) (mm_andnot_si128 xz7 xt0)
    let xn1 := mm_or_si128 (mm_or_si128 (mm_and_si128 xz1 xt4) (mm_andnot_si128 xz5 xt6)) (mm_and_si128 xz4 xt0)
    let xn2 := mm_or_si128 (mm_or_si128 (mm_and_si128 xz1 xt3) (mm_andnot_si128 xz5 xt1)) (mm_and_si128 xz4 xt6)
    let xn3 := mm_or_si128 (mm_or_si128 (mm_and_si128 xz1 xt6) (mm_and_si128 xz2 xt4)) (mm_andnot_si128 xz3 xt2)
    (xn0, xn1, xn2, xn3)

def schedS4 (m : V4) : V4 :=
  match m with
  | (xn0, xn1, xn2, xn3) =>
    let xt0 := mm_shuffle_epi32 xn0 0x80
    let xt1 := mm_shuffle_epi32 xn0 0x4C
    let xt2 := mm_shuffle_epi32 xn1 0x09
    let xt3 := mm_shuffle_epi32 xn1 0x03
    let xt4 := mm_shuffle_epi32 xn2 0x04
    let xt5 := mm_shuffle_epi32 xn3 0x40
    let xt6 := mm_shuffle_epi32 xn3 0x32
    let xm0 := mm_or_si128 (mm_or_si128 (mm_and_si128 xz1 xn1) (mm_and_si128 xz6 xt4)) (mm_andnot_si128 xz7 xt5)
    let xm1 := mm_or_si128 (mm_or_si128 (mm_and_si128 xz1 xt6) (mm_and_si128 xz2 xt0)) (mm_andnot_si128 xz3 xn2)
    let xm2 := mm_or_si128 (mm_or_si128 (mm_and_si128 xz1 xt3) (mm_andnot_si128 xz5 xt1)) (mm_and_si128 xz4 xt5)
    let xm3 := mm_or_si128 (mm_or_si128 (mm_and_si128 xz3 xt2) (mm_and_si128 xz4 xt6)) (mm_andnot_si128 xz7 xt0)
    (xm0, xm1, xm2, xm3)

def schedS5 (m : V4) : V4 :=
  match m with
  | (xm0, xm1, xm2, xm3) =>
    let xt0 := mm_shuffle_epi32 xm0 0x04
    let xt1 := mm_shuffle_epi32 xm0 0x0E
    let xt2 := mm_shuffle_epi32 xm1 0x04
    let xt3 := mm_shuffle_epi32 xm1 0x32
    let xt4 := mm_shuffle_epi32 xm2 0x08
    let xt5 := mm_shuffle_epi32 xm2 0xD0
    let xt6 := mm_shuffle_epi32 xm3 0x01
    let xt7 := mm_shuffle_epi32 xm3 0x83
    let xn0 := mm_or_si128 (mm_or_si128 (mm_and_si128 xz1 xt1) (mm_and_si128 xz2 xt4)) (mm_or_si128 (mm_and_si128 xz4 xt2) (mm_andnot_si128 xz7 xt7))
    let xn1 := mm_or_si128 (mm_or_si128 (mm_and_si128 xz1 xt6) (mm_and_si128 xz2 xt1)) (mm_andnot_si128 xz3 xt5)
    let xn2 := mm_or_si128 (mm_or_si128 (mm_and_si128 xz5 xt3) (mm_and_si128 xz2 xt2)) (mm_andnot_si128 xz7 xt6)
    let xn3 := mm_or_si128 (mm_or_si128 (mm_and_si128 xz1 xt7) (mm_andnot_si128 xz5 xt0)) (mm_and_si128 xz4 xt4)
    (xn0, xn1, xn2, xn3)

def schedS6 (m : V4) : V4 :=
  match m with
  | (xn0, xn1, xn2, xn3) =>
    let xt0 := mm_shuffle_epi32 xn0 0xC6
    let xt1 := mm_shuffle_epi32 xn1 0x40
    let xt2 := mm_shuffle_epi32 xn1 0x8C
    let xt3 := mm_shuffle_epi32 xn2 0x09
    let xt4 := mm_shuffle_epi32 xn2 0x0C
    let xt5 := mm_shuffle_epi32 xn3 0x01
    let xt6 := mm_shuffle_epi32 xn3 0x30
    let xm0 := mm_or_si128 (mm_or_si128 (mm_and_si128 xz1 xt1) (mm_andnot_si128 xz5 xt4)) (mm_and_si128 xz4 xn3)
    let xm1 := mm_or_si128 (mm_or_si128 (mm_and_si128 xz5 xt5) (mm_and_si128 xz2 xt3)) (mm_andnot_si128 xz7 xt1)
    let xm2 := mm_or_si128 (mm_andnot_si128 xz4 xt0) (mm_and_si128 xz4 xt6)
    let xm3 := mm_or_si128 (mm_or_si128 (mm_and_si128 xz1 xt3) (mm_andnot_si128 xz5 xt2)) (mm_and_si128 xz4 xt0)
    (xm0, xm1, xm2, xm3)

def schedS7 (m : V4) : V4 :=
  match m with
  | (xm0, xm1, xm2, xm3) =>
    let xt0 := mm_shuffle_epi32 xm0 0x0C
    let xt1 := mm_shuffle_epi32 xm0 0x18
    let xt2 := mm_shuffle_epi32 xm1 0xC2
    let xt3 := mm_shuffle_epi32 xm2 0x10
    let xt4 := mm_shuffle_epi32 xm2 0xB0
    let xt5 := mm_shuffle_epi32 xm3 0x40
    let xt6 := mm_shuffle_epi32 xm3 0x83
    let xn0 := mm_or_si128 (mm_or_si128 (mm_and_si128 xz1 xt2) (mm_andnot_si128 xz5 xt5)) (mm_and_si128 xz4 xt0)
    let xn1 := mm_or_si128 (mm_or_si128 (mm_and_si128 xz1 xt6) (mm_and_si128 xz6 xt1)) (mm_andnot_si128 xz7 xt4)
    let xn2 := mm_or_si128 (mm_or_si128 (mm_and_si128 xz3 xm1) (mm_and_si128 xz4 xt4)) (mm_andnot_si128 xz7 xt6)
    let xn3 := mm_or_si128 (mm_or_si128 (mm_and_si128 xz5 xt3) (mm_and_si128 xz2 xt0)) (mm_andnot_si128 xz7 xt2)
    (xn0, xn1, xn2, xn3)

def schedS8 (m : V4) : V4 :=
  match m with
  | (xn0, xn1, xn2, xn3) =>
    let xt0 := mm_shuffle_epi32 xn0 0x02
    let xt1 := mm_shuffle_epi32 xn0 0x34
    let xt2 := mm_shuffle_epi32 xn1 0x0C
    let xt3 := mm_shuffle_epi32 xn2 0x03
    let xt4 := mm_shuffle_epi32 xn2 0x81
    let xt5 := mm_shuffle_epi32 xn3 0x02
    let xt6 := mm_shuffle_epi32 xn3 0xD0
    let xm0 := mm_or_si128 (mm_or_si128 (mm_andnot_si128 xz6 xt5) (mm_and_si128 xz2 xn1)) (mm_and_si128 xz4 xt2)
    let xm1 := mm_or_si128 (mm_or_si128 (mm_andnot_si128 xz6 xt4) (mm_and_si128 xz2 xt2)) (mm_and_si128 xz4 xt1)
    let xm2 := mm_or_si128 (mm_or_si128 (mm_and_si128 xz3 xt0) (mm_and_si128 xz4 xn1)) (mm_andnot_si128 xz7 xt6)
    let xm3 := mm_or_si128 (mm_or_si128 (mm_andnot_si128 xz6 xt3) (mm_and_si128 xz2 xt1)) (mm_and_si128 xz4 xt6)
    (xm0, xm1, xm2, xm3)

def schedS9 (m : V4) : V4 :=
  match m with
  | (xm0, xm1, xm2, xm3) =>
    let xt0 := mm_shuffle_epi32 xm0 0xC6
    let xt1 := mm_shuffle_epi32 xm1 0x2C
    let xt2 := mm_shuffle_epi32 xm2 0x40
    let xt3 := mm_shuffle_epi32 xm2 0x83
    let xt4 := mm_shuffle_epi32 xm3 0xD8
    let xn0 := mm_or_si128 (mm_or_si128 (mm_andnot_si128 xz6 xt3) (mm_and_si128 xz2 xt1)) (mm_and_si128 xz4 xt4)
    let xn1 := mm_or_si128 (mm_andnot_si128 xz4 xt4) (mm_and_si128 xz4 xt0)
    let xn2 := mm_or_si128 (mm_or_si128 (mm_and_si128 xz3 xm1) (mm_and_si128 xz4 xt1)) (mm_andnot_si128 xz7 xt2)
    let xn3 := mm_or_si128 (mm_andnot_si128 xz4 xt0) (mm_and_si128 xz4 xt2)
    (xn0, xn1, xn2, xn3)

/-- The ten per-round message-vector quadruples of the SSE2 backend:
the transposed load followed by the nine mask-based schedule
derivations. -/
def msgsS (block : List Nat) : List V4 :=
  let m0 := loadMsg block
  let m1 := schedS1 m0
  let m2 := schedS2 m1
  let m3 := schedS3 m2
  let m4 := schedS4 m3
  let m5 := schedS5 m4
  let m6 := schedS6 m5
  let m7 := schedS7 m6
  let m8 := schedS8 m7
  let m9 := schedS9 m8
  [m0, m1, m2, m3, m4, m5, m6, m7, m8, m9]

/-- The SSE2 `process_block`: identical structure to the AVX2 one, the
schedule realized with and/andnot/or masking. -/
def sse2_process_block (h block : List Nat) (ctr : Nat) (last : Bool) :
    List Nat :=
  let ms := msgsS block
  let w := rrS (ms.getD 0 mzero) (initV4 h ctr last)
  let w := rrS (ms.getD 1 mzero) w
  let w := rrS (ms.getD 2 mzero) w
  let w := rrS (ms.getD 3 mzero) w
  let w := rrS (ms.getD 4 mzero) w
  let w := rrS (ms.getD 5 mzero) w
  let w := rrS (ms.getD 6 mzero) w
  let w := rrS (ms.getD 7 mzero) w
  let w := rrS (ms.getD 8 mzero) w
  let w := rrS (ms.getD 9 mzero) w
  storeV4 h w

/-! ## Bridging the vector backends to the portable one -/

/-- All four lanes are 32-bit values. -/
def boundedV (a : V128) : Prop :=
  a.w0 < 2 ^ 32 ∧ a.w1 < 2 ^ 32 ∧ a.w2 < 2 ^ 32 ∧ a.w3 < 2 ^ 32

/-- Pack a 16-word working vector into the four-register form. -/
def toV4 (l : List Nat) : V4 :=
  (⟨l.getD 0 0, l.getD 1 0, l.getD 2 0, l.getD 3 0⟩,
   ⟨l.getD 4 0, l.getD 5 0, l.getD 6 0, l.getD 7 0⟩,
   ⟨l.getD 8 0, l.getD 9 0, l.getD 10 0, l.getD 11 0⟩,
   ⟨l.getD 12 0, l.getD 13 0, l.getD 14 0, l.getD 15 0⟩)

/-- The final state fold of `process_block`, over the working vector
`v`. -/
def outList (h v : List Nat) : List Nat :=
  [h.getD 0 0 ^^^ v.getD 0 0 ^^^ v.getD 8 0,
   h.getD 1 0 ^^^ v.getD 1 0 ^^^ v.getD 9 0,
   h.getD 2 0 ^^^ v.getD 2 0 ^^^ v.getD 10 0,
   h.getD 3 0 ^^^ v.getD 3 0 ^^^ v.getD 11 0,
   h.getD 4 0 ^^^ v.getD 4 0 ^^^ v.getD 12 0,
   h.getD 5 0 ^^^ v.getD 5 0 ^^^ v.getD 13 0,
   h.getD 6 0 ^^^ v.getD 6 0 ^^^ v.getD 14 0,
   h.getD 7 0 ^^^ v.getD 7 0 ^^^ v.getD 15 0]

end B2s

/-! # Supporting lemmas -/

namespace B2s

theorem gg_eq_specMix (v : List Nat) (a b c d x y : Nat) :
    gg v a b c d x y = specMix v a b c d x y := rfl

theorem rrP_eq_specRound (m v s : List Nat) : rrP m v s = specRound v m s := rfl

theorem foldl_rrP_eq (m v : List Nat) :
    List.foldl (rrP m) v SIGMA =
      List.foldl (fun v s => specRound v m s) v specSigma := by
  have h : rrP m = fun v s => specRound v m s :=
    funext fun v => funext fun s => rrP_eq_specRound m v s
  rw [h]
  rfl

theorem shiftRight32_mod (ctr : Nat) (hc : ctr < 2 ^ 64) :
    (ctr >>> 32) % 2 ^ 32 = ctr / 2 ^ 32 := by
  rw [Nat.shiftRight_eq_div_pow]
  exact Nat.mod_eq_of_lt (by omega)

end B2s
namespace B2s

theorem streamHAux_congr (k : Nat) (h r1 r2 : List Nat) (ctr : Nat)
    (he : r1.take (64 * k) = r2.take (64 * k)) :
    streamHAux h r1 ctr k = streamHAux h r2 ctr k := by
  induction k generalizing h r1 r2 ctr with
  | zero => rfl
  | succ k' ih =>
      have h64 : (64 : Nat) ≤ 64 * (k' + 1) := by omega
      have ht : r1.take 64 = r2.take 64 := by
        have h' := congrArg (List.take 64) he
        rwa [List.take_take, List.take_take, Nat.min_eq_left h64] at h'
      have hd : (r1.drop 64).take (64 * k') = (r2.drop 64).take (64 * k') := by
        rw [List.take_drop, List.take_drop,
          show 64 + 64 * k' = 64 * (k' + 1) by omega, he]
      rw [streamHAux, streamHAux, ht, ih _ _ _ _ hd]

theorem streamHAux_succ (k : Nat) (h rest : List Nat) (ctr : Nat) :
    streamHAux h rest ctr (k + 1) =
      process_block (streamHAux h rest ctr k) ((rest.drop (64 * k)).take 64)
        (ctr + 64 * (k + 1)) false := by
  induction k generalizing h rest ctr with
  | zero => simp [streamHAux]
  | succ k' ih =>
      conv_lhs => rw [streamHAux]
      rw [ih, List.drop_drop,
        show 64 + 64 * k' = 64 * (k' + 1) by omega,
        show ctr + 64 + 64 * (k' + 1) = ctr + 64 * (k' + 1 + 1) by omega]
      conv_rhs => rw [streamHAux]

theorem updateLoopC_rep (n : Nat) (h0 S : List Nat) (K : Nat) (c : Ctx)
    (rest : List Nat) (hn : rest.length ≤ n) (hrest : rest = S.drop (64 * K))
    (hr1 : 1 ≤ rest.length) (hh : c.h = streamHAux h0 S 0 K)
    (hctr : c.ctr = 64 * K) (hbuf : c.buf.length = 64) :
    repOK h0 S (updateLoopC c rest).1 ∧
    (updateLoopC c rest).2 + K = compCount S.length ∧
    (updateLoopC c rest).1.out_len = c.out_len := by
  induction n generalizing K c rest with
  | zero => omega
  | succ n ih =>
    have hlen : rest.length = S.length - 64 * K := by
      rw [hrest, List.length_drop]
    have hSK : 64 * K + 1 ≤ S.length := by omega
    by_cases hle : rest.length ≤ 64
    · rw [updateLoopC, if_pos hle]
      have hcc : compCount S.length = K := by
        simp only [compCount]
        rw [if_neg (by omega)]
        omega
      have hpend : S.length - 64 * compCount S.length = rest.length := by
        rw [hcc]; omega
      refine ⟨⟨?_, ?_, ?_, ?_⟩, ?_, rfl⟩
      · simpa [streamH, hcc] using hh
      · simp [hctr]; omega
      · simp [bufWrite, List.length_take, List.length_drop, hbuf]
        omega
      · rw [hpend, hcc, ← hrest]
        simp [bufWrite]
      · simp [hcc]
    · rw [updateLoopC, if_neg hle]
      obtain ⟨c', hc'⟩ : ∃ c' : Ctx,
          c' = { c with
            h := process_block c.h (rest.take 64) (c.ctr + 64) false,
            ctr := c.ctr + 64 } := ⟨_, rfl⟩
      rw [← hc']
      have hstep : c'.h = streamHAux h0 S 0 (K + 1) := by
        rw [hc', streamHAux_succ]
        simp only [hh, hctr, hrest]
        congr 1
        omega
      have hres := ih (K + 1) c' (rest.drop 64)
        (by simp [List.length_drop]; omega)
        (by rw [hrest, List.drop_drop]; congr 1)
        (by simp [List.length_drop]; omega)
        hstep
        (by rw [hc']; simp; omega)
        (by rw [hc']; simpa using hbuf)
      refine ⟨hres.1, ?_, ?_⟩
      · have := hres.2.1
        omega
      · rw [hres.2.2, hc']

end B2s
namespace B2s

theorem compCount_facts (n : Nat) :
    (n = 0 → compCount n = 0) ∧ 64 * compCount n ≤ n ∧
    (n ≠ 0 → 64 * compCount n + 1 ≤ n ∧ n ≤ 64 * compCount n + 64) := by
  simp only [compCount]
  split_ifs with h <;> omega

theorem updateGoC_rep (h0 s : List Nat) (c : Ctx) (d : List Nat)
    (hr : repOK h0 s c) :
    repOK h0 (s ++ d) (updateGoC c d).1 ∧
    (updateGoC c d).2 + compCount s.length = compCount (s.length + d.length) ∧
    (updateGoC c d).1.out_len = c.out_len := by
  obtain ⟨hh, hctr, hbuf, hpend⟩ := hr
  obtain ⟨hcf0, hcf1, hcf2⟩ := compCount_facts s.length
  have hcongr : streamHAux h0 (s ++ d) 0 (compCount s.length) =
      streamHAux h0 s 0 (compCount s.length) :=
    streamHAux_congr _ _ _ _ _
      (List.take_append_of_le_length (by omega))
  by_cases hd0 : d.length = 0
  · rw [updateGoC, if_pos hd0]
    rw [List.length_eq_zero.mp hd0]
    refine ⟨⟨?_, ?_, hbuf, ?_⟩, by simp, rfl⟩
    · simpa using hh
    · simpa using hctr
    · simpa using hpend
  · rw [updateGoC, if_neg hd0]
    by_cases hb : c.ctr = 0 ∨ c.ctr % 64 ≠ 0
    · rw [if_pos hb]
      have hb' : s.length = 0 ∨ s.length % 64 ≠ 0 := by
        rcases hb with h | h
        · left; omega
        · right; rwa [hctr] at h
      have F1 : s.length - 64 * compCount s.length = s.length % 64 := by
        rcases hb' with h | h
        · simp [h, compCount]
        · simp only [compCount]
          split_ifs with h0 <;> omega
      have F2 : s.length = 64 * compCount s.length + s.length % 64 := by
        omega
      by_cases hfit : d.length ≤ 64 - c.ctr % 64
      · rw [if_pos hfit]
        rw [hctr] at hfit
        have hkk : compCount (s ++ d).length = compCount s.length := by
          rw [List.length_append]
          rcases hb' with h | h
          · simp only [compCount]
            split_ifs <;> omega
          · simp only [compCount]
            split_ifs <;> omega
        have hpendlen : (s ++ d).length - 64 * compCount (s ++ d).length =
            s.length % 64 + d.length := by
          rw [hkk, List.length_append]
          omega
        refine ⟨⟨?_, ?_, ?_, ?_⟩, ?_, rfl⟩
        · rw [streamH, hkk, hcongr, ← streamH, hh]
        · simp [hctr, List.length_append]
        · simp only [bufWrite, List.length_append, List.length_take,
            List.length_drop, hbuf, hctr]
          omega
        · rw [hpendlen, hkk]
          rw [List.drop_append_of_le_length (by omega)]
          simp only [bufWrite, hctr]
          rw [List.take_left' (by
            simp only [List.length_append, List.length_take, hbuf]
            omega)]
          rw [← F1, hpend]
        · show 0 + compCount s.length = compCount (s.length + d.length)
          rw [← List.length_append, hkk]
          omega
      · rw [if_neg hfit]
        rw [hctr] at hfit
        have hSd : (s ++ d).drop (64 * (compCount s.length + 1)) =
            d.drop (64 - c.ctr % 64) := by
          rw [List.drop_append_eq_append_drop,
            List.drop_eq_nil_of_le (by omega), List.nil_append, hctr]
          congr 1
          omega
        have hclen : (d.take (64 - s.length % 64)).length =
            64 - s.length % 64 := by
          rw [List.length_take]
          omega
        have hblock : bufWrite c.buf (c.ctr % 64) (d.take (64 - c.ctr % 64)) =
            ((s ++ d).drop (64 * compCount s.length)).take 64 := by
          rw [hctr]
          conv_rhs =>
            rw [List.drop_append_of_le_length (by omega),
              List.take_append_eq_append_take,
              List.take_of_length_le (by rw [List.length_drop]; omega),
              List.length_drop]
          simp only [bufWrite]
          rw [hclen, List.drop_eq_nil_of_le (by omega), List.append_nil,
            ← F1, hpend, F1]
        have hctr2 : c.ctr + (64 - c.ctr % 64) =
            0 + 64 * (compCount s.length + 1) := by
          rw [hctr]
          omega
        have hres := updateLoopC_rep (d.drop (64 - c.ctr % 64)).length h0
          (s ++ d) (compCount s.length + 1)
          { c with
            h := process_block c.h
              (bufWrite c.buf (c.ctr % 64) (d.take (64 - c.ctr % 64)))
              (c.ctr + (64 - c.ctr % 64)) false,
            buf := bufWrite c.buf (c.ctr % 64) (d.take (64 - c.ctr % 64)),
            ctr := c.ctr + (64 - c.ctr % 64) }
          (d.drop (64 - c.ctr % 64))
          le_rfl hSd.symm
          (by rw [List.length_drop, hctr]; omega)
          (by
            show process_block c.h
              (bufWrite c.buf (c.ctr % 64) (d.take (64 - c.ctr % 64)))
              (c.ctr + (64 - c.ctr % 64)) false =
              streamHAux h0 (s ++ d) 0 (compCount s.length + 1)
            rw [streamHAux_succ, hcongr, ← streamH, ← hh, ← hblock, ← hctr2])
          (by
            show c.ctr + (64 - c.ctr % 64) = 64 * (compCount s.length + 1)
            rw [hctr]
            omega)
          (by
            show (bufWrite c.buf (c.ctr % 64)
              (d.take (64 - c.ctr % 64))).length = 64
            simp only [bufWrite, List.length_append, List.length_take,
              List.length_drop, hbuf, hctr]
            omega)
        refine ⟨hres.1, ?_, ?_⟩
        · have h2 := hres.2.1
          rw [List.length_append] at h2
          omega
        · rw [hres.2.2]
    · rw [if_neg hb]
      push_neg at hb
      obtain ⟨hb1, hb2⟩ := hb
      have hn0 : s.length ≠ 0 := by omega
      obtain ⟨hc1, hc2⟩ := hcf2 hn0
      have hmod : s.length % 64 = 0 := by rwa [hctr] at hb2
      have hn64 : s.length = 64 * (compCount s.length + 1) := by omega
      have hbufeq : c.buf = s.drop (64 * compCount s.length) := by
        rw [← hpend, show s.length - 64 * compCount s.length = 64 by omega]
        exact (List.take_of_length_le (by omega)).symm
      have hblock : c.buf = ((s ++ d).drop (64 * compCount s.length)).take 64 := by
        rw [List.drop_append_of_le_length (by omega),
          List.take_append_eq_append_take,
          List.take_of_length_le (by rw [List.length_drop]; omega),
          List.length_drop,
          show 64 - (s.length - 64 * compCount s.length) = 0 by omega,
          List.take_zero, List.append_nil]
        exact hbufeq
      have hctr2 : c.ctr = 0 + 64 * (compCount s.length + 1) := by
        rw [hctr]
        omega
      have hres := updateLoopC_rep d.length h0 (s ++ d)
        (compCount s.length + 1)
        { c with h := process_block c.h c.buf c.ctr false } d
        le_rfl (List.drop_left' hn64).symm
        (by omega)
        (by
          show process_block c.h c.buf c.ctr false =
            streamHAux h0 (s ++ d) 0 (compCount s.length + 1)
          rw [streamHAux_succ, hcongr, ← streamH, ← hh, ← hblock, ← hctr2])
        (by
          show c.ctr = 64 * (compCount s.length + 1)
          omega)
        (by show c.buf.length = 64; exact hbuf)
      refine ⟨hres.1, ?_, ?_⟩
      · have h2 := hres.2.1
        rw [List.length_append] at h2
        omega
      · rw [hres.2.2]

end B2s
namespace B2s

theorem updateLoopC_fst (n : Nat) (c : Ctx) (rest : List Nat)
    (hn : rest.length ≤ n) :
    (updateLoopC c rest).1 = updateLoop c rest := by
  induction n generalizing c rest with
  | zero => rw [updateLoopC, updateLoop, if_pos (by omega), if_pos (by omega)]
  | succ n ih =>
    by_cases h : rest.length ≤ 64
    · rw [updateLoopC, updateLoop, if_pos h, if_pos h]
    · rw [updateLoopC, updateLoop, if_neg h, if_neg h]
      exact ih _ _ (by rw [List.length_drop]; omega)

theorem updateGoC_fst (c : Ctx) (d : List Nat) :
    (updateGoC c d).1 = updateGo c d := by
  rw [updateGoC, updateGo]
  by_cases h0 : d.length = 0
  · rw [if_pos h0, if_pos h0]
  · rw [if_neg h0, if_neg h0]
    by_cases hb : c.ctr = 0 ∨ c.ctr % 64 ≠ 0
    · rw [if_pos hb, if_pos hb]
      by_cases hfit : d.length ≤ 64 - c.ctr % 64
      · rw [if_pos hfit, if_pos hfit]
      · rw [if_neg hfit, if_neg hfit]
        exact updateLoopC_fst _ _ _ le_rfl
    · rw [if_neg hb, if_neg hb]
      exact updateLoopC_fst _ _ _ le_rfl

theorem repOK_nil (c : Ctx) (hbuf : c.buf.length = 64) (hctr : c.ctr = 0) :
    repOK c.h [] c := by
  refine ⟨rfl, by simpa using hctr, hbuf, by simp⟩

theorem Ctx_new_elim (out_len : Nat) (c : Ctx)
    (hc : Ctx.new out_len = some c) :
    c = { h := IV.set 0 (IV.getD 0 0 ^^^ (0x01010000 ^^^ out_len)),
          buf := List.replicate 64 0, ctr := 0, out_len := out_len } ∧
    1 ≤ out_len ∧ out_len ≤ 32 := by
  rw [Ctx.new] at hc
  split_ifs at hc with h
  · exact ⟨(Option.some_inj.mp hc).symm, h⟩

theorem repOK_new (out_len : Nat) (c : Ctx) (hc : Ctx.new out_len = some c) :
    repOK c.h [] c ∧ c.out_len = out_len ∧ c.ctr = 0 := by
  obtain ⟨hc, h1, h2⟩ := Ctx_new_elim out_len c hc
  subst hc
  exact ⟨repOK_nil _ (by simp) rfl, rfl, rfl⟩

theorem keyBlock_length (key : List Nat) (hk : key.length ≤ 32) :
    (keyBlock key).length = 64 := by
  simp [keyBlock, bufWrite]
  omega

theorem compCount_64 : compCount 64 = 0 := by decide

end B2s
namespace B2s

theorem pend_facts (s : List Nat) :
    (s.length = 0 ∨ s.length % 64 ≠ 0 →
      s.length - 64 * compCount s.length = s.length % 64) ∧
    (s.length ≠ 0 → s.length % 64 = 0 →
      s.length - 64 * compCount s.length = 64) := by
  simp only [compCount]
  constructor
  · rintro (h | h) <;> split_ifs with h0 <;> omega
  · intro h1 h2
    split_ifs <;> omega

theorem hU64 : U64MAX = 18446744073709551615 := by norm_num [U64MAX]

theorem repOK_keyed (out_len : Nat) (key : List Nat) (k : KCtx)
    (hkk : KCtx.new out_len key = some k) :
    (key.length = 0 → repOK k.ctx.h [] k.ctx) ∧
    (key.length ≠ 0 → repOK k.ctx.h (keyBlock key) k.ctx) ∧
    k.ctx.out_len = out_len ∧ 1 ≤ out_len ∧ out_len ≤ 32 ∧
    key.length ≤ 32 := by
  rw [KCtx.new] at hkk
  by_cases hk : key.length ≤ 32
  · rw [if_pos hk] at hkk
    cases hcn : Ctx.new out_len with
    | none => rw [hcn] at hkk; simp at hkk
    | some c =>
      rw [hcn] at hkk
      simp only [Option.map_some] at hkk
      obtain ⟨hc', h1, h2⟩ := Ctx_new_elim out_len c hcn
      injection hkk with hkk
      beta_reduce at hkk
      by_cases hne : key.length = 0
      · rw [if_neg (by simp [hne])] at hkk
        subst hkk
        refine ⟨fun _ => ?_, fun h => absurd hne h, ?_, h1, h2, hk⟩
        · exact repOK_nil c (by rw [hc']; simp) (by rw [hc'])
        · rw [hc']
      · rw [if_pos (by simp [hne])] at hkk
        subst hkk
        have hkb : (keyBlock key).length = 64 := keyBlock_length key hk
        refine ⟨fun h => absurd h hne, fun _ => ⟨?_, ?_, ?_, ?_⟩,
          by rw [hc'], h1, h2, hk⟩
        · rw [streamH, hkb, compCount_64]
          rfl
        · simp [hkb]
        · show (bufWrite c.buf 0 key).length = 64
          rw [hc']
          simp [bufWrite]
          omega
        · show (bufWrite c.buf 0 key).take
              ((keyBlock key).length - 64 * compCount (keyBlock key).length) =
            (keyBlock key).drop (64 * compCount (keyBlock key).length)
          rw [hkb, compCount_64]
          simp only [Nat.mul_zero, Nat.sub_zero, List.drop_zero]
          rw [hc']
          show (keyBlock key).take 64 = keyBlock key
          exact List.take_of_length_le (by omega)
  · rw [if_neg hk] at hkk
    simp at hkk

theorem keyedFold_rep (pieces : List (List Nat)) (h0 s : List Nat) (k : KCtx)
    (hr : repOK h0 s k.ctx)
    (hb : s.length + (pieces.map List.length).sum < U64MAX) :
    ∃ k', (pieces.foldl (fun oc d => oc.bind (fun kk => KCtx.update kk d))
        (some k)) = some k' ∧
      repOK h0 (s ++ pieces.flatten) k'.ctx ∧
      k'.ctx.out_len = k.ctx.out_len ∧
      k'.saved_key = k.saved_key ∧ k'.saved_key_len = k.saved_key_len := by
  induction pieces generalizing s k with
  | nil => exact ⟨k, rfl, by simpa using hr, rfl, rfl, rfl⟩
  | cons d rest ih =>
    have hs : k.ctx.ctr ≠ U64MAX := by
      have h2 := hr.2.1
      simp only [List.map_cons, List.sum_cons] at hb
      rw [hU64] at hb
      rw [h2, hU64]
      omega
    have hstep : KCtx.update k d = some { k with ctx := updateGo k.ctx d } := by
      rw [KCtx.update, Ctx.update, if_neg hs]
      rfl
    have hg := updateGoC_rep h0 s k.ctx d hr
    rw [updateGoC_fst] at hg
    have hb' : (s ++ d).length + (rest.map List.length).sum < U64MAX := by
      simp only [List.map_cons, List.sum_cons] at hb
      rw [List.length_append]
      omega
    obtain ⟨k', hk1, hk2, hk3, hk4, hk5⟩ :=
      ih (s ++ d) { k with ctx := updateGo k.ctx d } hg.1 hb'
    refine ⟨k', ?_, ?_, ?_, hk4, hk5⟩
    · rw [List.foldl_cons]
      show (rest.foldl (fun oc d => oc.bind (fun kk => KCtx.update kk d))
        ((some k).bind (fun kk => KCtx.update kk d))) = some k'
      rw [Option.some_bind, hstep]
      exact hk1
    · rw [List.flatten_cons, ← List.append_assoc]
      exact hk2
    · rw [hk3]
      exact hg.2.2

end B2s
namespace B2s

theorem finBuf_rep (h0 s : List Nat) (c : Ctx) (hr : repOK h0 s c) :
    finBuf c = fb s := by
  obtain ⟨hh, hctr, hbuf, hpend⟩ := hr
  obtain ⟨hcf0, hcf1, hcf2⟩ := compCount_facts s.length
  obtain ⟨hpf1, hpf2⟩ := pend_facts s
  rw [finBuf]
  by_cases hcase : c.ctr = 0 ∨ c.ctr % 64 ≠ 0
  · rw [if_pos hcase]
    have hb' : s.length = 0 ∨ s.length % 64 ≠ 0 := by
      rcases hcase with h | h
      · left; omega
      · right; rwa [hctr] at h
    have F1 := hpf1 hb'
    rw [hctr]
    simp only [bufWrite, fb, List.length_replicate]
    rw [List.drop_eq_nil_of_le (by omega), List.append_nil, ← F1, hpend, F1]
  · rw [if_neg hcase]
    push_neg at hcase
    obtain ⟨h1, h2⟩ := hcase
    have hn0 : s.length ≠ 0 := by omega
    have hmod : s.length % 64 = 0 := by rwa [hctr] at h2
    have F2 := hpf2 hn0 hmod
    rw [fb, show 64 - (s.length - 64 * compCount s.length) = 0 by omega]
    rw [List.replicate_zero, List.append_nil, ← hpend,
      show s.length - 64 * compCount s.length = 64 by omega]
    exact (List.take_of_length_le (by omega)).symm

theorem inner_finalize_rep (h0 s : List Nat) (c : Ctx) (hr : repOK h0 s c)
    (hs : s.length ≠ U64MAX) :
    c.inner_finalize = some (streamDigest h0 s,
      { c with
        h := process_block c.h (finBuf c) c.ctr true,
        buf := finBuf c,
        ctr := U64MAX }) := by
  rw [Ctx.inner_finalize, if_neg (by rw [hr.2.1]; exact hs)]
  rw [streamDigest, ← hr.1, ← hr.2.1, ← finBuf_rep h0 s c hr]

end B2s
namespace B2s

theorem compCount_mono (m n : Nat) (h : m ≤ n) : compCount m ≤ compCount n := by
  simp only [compCount]
  split_ifs <;> omega

theorem runUpdatesC_rep (pieces : List (List Nat)) (h0 s : List Nat) (c : Ctx)
    (hr : repOK h0 s c)
    (hb : s.length + (pieces.map List.length).sum < U64MAX) :
    ∃ c', runUpdatesC c pieces =
        some (c', compCount (s ++ pieces.flatten).length - compCount s.length) ∧
      repOK h0 (s ++ pieces.flatten) c' := by
  induction pieces generalizing s c with
  | nil =>
    refine ⟨c, ?_, by simpa using hr⟩
    simp [runUpdatesC]
  | cons d rest ih =>
    have hs : c.ctr ≠ U64MAX := by
      have h2 := hr.2.1
      simp only [List.map_cons, List.sum_cons] at hb
      rw [hU64] at hb
      rw [h2, hU64]
      omega
    have hg := updateGoC_rep h0 s c d hr
    have hb' : (s ++ d).length + (rest.map List.length).sum < U64MAX := by
      simp only [List.map_cons, List.sum_cons] at hb
      rw [List.length_append]
      omega
    obtain ⟨c', h1, h2⟩ := ih (s ++ d) (updateGoC c d).1 hg.1 hb'
    refine ⟨c', ?_, ?_⟩
    · rw [runUpdatesC, Ctx.updateC, if_neg hs, Option.some_bind, h1]
      simp only [Option.map_some']
      congr 1
      refine Prod.ext rfl ?_
      show (updateGoC c d).2 +
          (compCount (s ++ d ++ rest.flatten).length -
            compCount (s ++ d).length) =
        compCount (s ++ (d :: rest).flatten).length - compCount s.length
      have hcnt := hg.2.1
      have hm1 : compCount s.length ≤ compCount (s.length + d.length) :=
        compCount_mono _ _ (by omega)
      have hm2 : compCount (s.length + d.length) ≤
          compCount (s.length + d.length + rest.flatten.length) :=
        compCount_mono _ _ (by omega)
      simp only [List.flatten_cons, List.length_append, Nat.add_assoc] at hcnt hm1 hm2 ⊢
      omega
    · rw [List.flatten_cons, ← List.append_assoc]
      exact h2

end B2s
namespace B2s

theorem KCtx_new_some (out_len : Nat) (key : List Nat)
    (h1 : 1 ≤ out_len) (h2 : out_len ≤ 32) (hk : key.length ≤ 32) :
    ∃ k0, KCtx.new out_len key = some k0 := by
  rw [KCtx.new, if_pos hk, Ctx.new, if_pos ⟨h1, h2⟩]
  exact ⟨_, rfl⟩

theorem repOK_keyed_init (out_len : Nat) (key : List Nat) (k0 : KCtx)
    (hkk : KCtx.new out_len key = some k0) :
    repOK k0.ctx.h (if key.length = 0 then [] else keyBlock key) k0.ctx ∧
    (if key.length = 0 then ([] : List Nat) else keyBlock key).length ≤ 64 ∧
    k0.ctx.out_len = out_len := by
  have hrk := repOK_keyed out_len key k0 hkk
  by_cases hne : key.length = 0
  · rw [if_pos hne]
    exact ⟨hrk.1 hne, by simp, hrk.2.2.1⟩
  · rw [if_neg hne]
    refine ⟨hrk.2.1 hne, ?_, hrk.2.2.1⟩
    rw [keyBlock_length key hrk.2.2.2.2.2]

theorem keyedDigest_eq (out_len : Nat) (key : List Nat)
    (pieces : List (List Nat))
    (h1 : 1 ≤ out_len) (h2 : out_len ≤ 32) (hk : key.length ≤ 32)
    (hb : (pieces.map List.length).sum + 65 < U64MAX) :
    ∃ k0, KCtx.new out_len key = some k0 ∧
      keyedDigest out_len key pieces =
        some ((streamDigest k0.ctx.h
          ((if key.length = 0 then [] else keyBlock key) ++
            pieces.flatten)).take out_len) := by
  obtain ⟨k0, hkk⟩ := KCtx_new_some out_len key h1 h2 hk
  obtain ⟨hr0, hs0len, hol⟩ := repOK_keyed_init out_len key k0 hkk
  have hfold := keyedFold_rep pieces k0.ctx.h
    (if key.length = 0 then [] else keyBlock key) k0 hr0
    (by rw [hU64] at hb ⊢; omega)
  obtain ⟨k', hk1, hk2, hk3, _, _⟩ := hfold
  have hfin := inner_finalize_rep k0.ctx.h _ k'.ctx hk2
    (by
      simp only [List.length_append]
      rw [hU64] at hb ⊢
      have hflat : pieces.flatten.length = (pieces.map List.length).sum := by
        simp [List.length_flatten]
      omega)
  refine ⟨k0, hkk, ?_⟩
  rw [keyedDigest, hkk, hk1, Option.some_bind, KCtx.finalize_write,
    Ctx.finalize_write, hfin]
  simp only [Option.map_some']
  rw [hk3, hol]

/-- Claim C3: streaming equivalence.  Feeding `data` through any split
into consecutive `update` calls produces the same digest as a single
`update` call on the whole data, for unkeyed and keyed contexts. -/
theorem c3_streaming_equivalence (out_len : Nat) (key : List Nat) (pieces : List (List Nat))
    (h1 : 1 ≤ out_len) (h2 : out_len ≤ 32) (hk : key.length ≤ 32)
    (hb : (pieces.map List.length).sum + 65 < U64MAX) :
    keyedDigest out_len key pieces =
      keyedDigest out_len key [pieces.flatten] := by
  obtain ⟨k0, hkk, he⟩ := keyedDigest_eq out_len key pieces h1 h2 hk hb
  obtain ⟨k0', hkk', he'⟩ := keyedDigest_eq out_len key [pieces.flatten] h1 h2 hk
    (by simpa [List.length_flatten] using hb)
  rw [he, he']
  rw [hkk] at hkk'
  injection hkk' with hkk'
  rw [hkk']
  simp

end B2s
namespace B2s

/-- Claim C4: after `new` (unkeyed or keyed) and any sequence of update
calls, the number of compressions equals 0 for counter 0 and
ceil(ctr/64) - 1 otherwise, and the uncompressed tail of the stream has
length in [1,64]. -/
theorem c4_compression_count (out_len : Nat) (key : List Nat) (pieces : List (List Nat))
    (k0 : KCtx) (hkk : KCtx.new out_len key = some k0)
    (hb : (pieces.map List.length).sum + 65 < U64MAX)
    (c' : Ctx) (cnt : Nat)
    (hrun : runUpdatesC k0.ctx pieces = some (c', cnt)) :
    cnt = (if c'.ctr = 0 then 0 else (c'.ctr + 63) / 64 - 1) ∧
    (c'.ctr ≠ 0 →
      1 ≤ c'.ctr - 64 * cnt ∧ c'.ctr - 64 * cnt ≤ 64) := by
  obtain ⟨hr0, hs0len, hol⟩ := repOK_keyed_init out_len key k0 hkk
  have hcc0 : compCount
      (if key.length = 0 then ([] : List Nat) else keyBlock key).length = 0 := by
    by_cases hne : key.length = 0
    · rw [if_pos hne]
      decide
    · rw [if_neg hne]
      have := repOK_keyed out_len key k0 hkk
      rw [keyBlock_length key this.2.2.2.2.2]
      decide
  obtain ⟨c'', hrun', hrep'⟩ := runUpdatesC_rep pieces k0.ctx.h _ k0.ctx hr0
    (by rw [hU64] at hb ⊢; omega)
  rw [hrun'] at hrun
  injection hrun with hrun
  injection hrun with hc' hcnt
  rw [hcc0, Nat.sub_zero] at hcnt
  have hctr : c'.ctr =
      ((if key.length = 0 then [] else keyBlock key) ++ pieces.flatten).length := by
    rw [← hc']
    exact hrep'.2.1
  obtain ⟨hf0, hf1, hf2⟩ := compCount_facts
    ((if key.length = 0 then [] else keyBlock key) ++ pieces.flatten).length
  constructor
  · rw [← hcnt, hctr]
    simp only [compCount]
    split_ifs <;> omega
  · intro hne
    rw [hctr] at hne
    rw [← hcnt, hctr]
    have := hf2 (by omega)
    omega

/-- Claim C5, counterexample: a 64-byte input is NOT compressed during
`update` (zero compressions, not one), and a 65-byte input causes one
compression during `update` (not two). -/
theorem c5_counterexample :
    (Ctx.new 32).map (fun c0 => (updateGoC c0 (List.replicate 64 0)).2)
      = some 0 ∧
    (Ctx.new 32).map (fun c0 => (updateGoC c0 (List.replicate 64 0)).2)
      ≠ some 1 ∧
    (Ctx.new 32).map (fun c0 => (updateGoC c0 (List.replicate 65 0)).2)
      = some 1 ∧
    (Ctx.new 32).map (fun c0 => (updateGoC c0 (List.replicate 65 0)).2)
      ≠ some 2 := by
  have h65 : (Ctx.new 32).map
      (fun c0 => (updateGoC c0 (List.replicate 65 0)).2) = some 1 := by
    rw [Ctx.new, if_pos (by omega)]
    simp only [Option.map_some']
    rw [updateGoC, if_neg (by simp), if_pos (by simp), if_neg (by simp)]
    rw [updateLoopC, if_pos (by simp)]
  refine ⟨by decide, by decide, h65, by rw [h65]; decide⟩

/-- Claim C5 as amended: 0, 63 and 64 byte inputs perform no
compression during `update`; 65 bytes perform exactly one; in each case
finalization then performs its single compression of the pending
(padded) block and produces the stream digest. -/
theorem c5_amended (data : List Nat) (c0 : Ctx)
    (hc : Ctx.new 32 = some c0) (hlen : data.length ≤ 65) :
    ((data.length = 0 ∨ data.length = 63 ∨ data.length = 64) →
      (updateGoC c0 data).2 = 0) ∧
    (data.length = 65 → (updateGoC c0 data).2 = 1) ∧
    (∃ cf, (updateGoC c0 data).1.inner_finalize =
      some (streamDigest c0.h data, cf) ∧ cf.ctr = U64MAX) := by
  obtain ⟨hr0, hol, hctr0⟩ := repOK_new 32 c0 hc
  have hg := updateGoC_rep c0.h [] c0 data hr0
  have hcnt : (updateGoC c0 data).2 = compCount data.length := by
    have := hg.2.1
    simp only [List.length_nil, compCount] at this ⊢
    split_ifs at this ⊢ <;> omega
  refine ⟨?_, ?_, ?_⟩
  · intro hl
    rw [hcnt]
    rcases hl with h | h | h <;> rw [h] <;> decide
  · intro hl
    rw [hcnt, hl]
    decide
  · have hrep : repOK c0.h data (updateGoC c0 data).1 := by
      have := hg.1
      rwa [List.nil_append] at this
    have hfin := inner_finalize_rep c0.h data (updateGoC c0 data).1 hrep
      (by rw [hU64]; omega)
    exact ⟨_, hfin, rfl⟩

end B2s
namespace B2s

theorem updateLoop_out_len (n : Nat) (c : Ctx) (rest : List Nat)
    (hn : rest.length ≤ n) : (updateLoop c rest).out_len = c.out_len := by
  induction n generalizing c rest with
  | zero => rw [updateLoop, if_pos (by omega)]
  | succ n ih =>
    by_cases h : rest.length ≤ 64
    · rw [updateLoop, if_pos h]
    · rw [updateLoop, if_neg h]
      exact ih _ _ (by rw [List.length_drop]; omega)

theorem updateGo_out_len (c : Ctx) (d : List Nat) :
    (updateGo c d).out_len = c.out_len := by
  rw [updateGo]
  by_cases h0 : d.length = 0
  · rw [if_pos h0]
  · rw [if_neg h0]
    by_cases hb : c.ctr = 0 ∨ c.ctr % 64 ≠ 0
    · rw [if_pos hb]
      by_cases hfit : d.length ≤ 64 - c.ctr % 64
      · rw [if_pos hfit]
      · rw [if_neg hfit]
        exact updateLoop_out_len _ _ _ le_rfl
    · rw [if_neg hb]
      exact updateLoop_out_len _ _ _ le_rfl

theorem finalize_write_out_len (c : Ctx) (r : List Nat × Ctx)
    (h : c.finalize_write = some r) : r.2.out_len = c.out_len := by
  rw [Ctx.finalize_write] at h
  obtain ⟨rc, hrc, hmap⟩ := Option.map_eq_some'.mp h
  rw [Ctx.inner_finalize] at hrc
  split_ifs at hrc
  injection hrc with hrc
  rw [← hmap]
  show rc.2.out_len = c.out_len
  rw [← hrc]

end B2s
namespace B2s

theorem Ctx_reset_eq_new (out_len : Nat) (c0 : Ctx)
    (hc : Ctx.new out_len = some c0) (x : Ctx) (holx : x.out_len = out_len) :
    x.reset = c0 := by
  obtain ⟨hc', h1, h2⟩ := Ctx_new_elim out_len c0 hc
  rw [Ctx.reset, holx, hc']

theorem KCtx_reset_h (k : KCtx) (k2 : KCtx) (hr : KCtx.reset k = some k2) :
    k2.ctx.h = if k.saved_key_len ≠ 0 then
        (Ctx.reset k.ctx).h.set 0
          ((Ctx.reset k.ctx).h.getD 0 0 ^^^ (k.saved_key_len <<< 8))
      else (Ctx.reset k.ctx).h := by
  rw [KCtx.reset] at hr
  split_ifs at hr with h1 h2
  all_goals first
    | (injection hr with hr
       rw [← hr]
       simp [h1])
    | exact absurd hr (by simp)

set_option maxRecDepth 1000000 in
/-- Claim C6: refuted by the code. `KeyedBlake2s::reset` re-applies the
key seeding by copying the whole 32-byte `saved_key` array into the
`saved_key_len`-byte buffer prefix, and `copy_from_slice` aborts on the
length mismatch, so for every key length from 1 to 31 a keyed context
can never be reused: `reset` — and therefore `finalize_reset_write` —
fails instead of producing a re-seeded context. With the key `[1, 2]`,
construction and `update` succeed, yet both reset paths fail; the
unkeyed engine and a full 32-byte key still reset successfully. -/
theorem c6_reset_panics :
    ((KCtx.new 32 [1, 2]).isSome = true ∧
      ((KCtx.new 32 [1, 2]).bind (fun k => KCtx.update k [])).isSome = true) ∧
    (KCtx.new 32 [1, 2]).bind KCtx.reset = none ∧
    ((KCtx.new 32 [1, 2]).bind (fun k => KCtx.update k [])).bind
        KCtx.finalize_reset_write = none ∧
    ((Ctx.new 32).bind Ctx.finalize_reset_write).isSome = true ∧
    ((KCtx.new 32 (List.replicate 32 9)).bind KCtx.reset).isSome = true := by
  decide


/-! # Claim theorems for C1 and C7 to C10, with witnesses -/

/-- Claim C1: the portable `process_block` implements the specified
algorithm: working vector built from the state and the IV, counter
words folded into `v[12]`/`v[13]`, `v[14]` complemented for the last
block, 16 little-endian message words, ten rounds of eight ARX mixing
operations with rotation constants 16, 12, 8, 7 under the canonical
BLAKE2s message schedule, and the final fold
`state[i] ^= v[i] ^ v[i+8]`. -/
theorem c1_portable_matches_spec (st block : List Nat) (ctr : Nat)
    (last : Bool) (hl : st.length = 8) (hc : ctr < 2 ^ 64) :
    process_block st block ctr last = specCompress st block ctr last := by
  rcases st with _ | ⟨a0, _ | ⟨a1, _ | ⟨a2, _ | ⟨a3, _ | ⟨a4, _ | ⟨a5, _ |
    ⟨a6, _ | ⟨a7, rest⟩⟩⟩⟩⟩⟩⟩⟩ <;>
    simp only [List.length] at hl <;> try omega
  rcases rest with _ | ⟨x, t⟩
  · have h32 := shiftRight32_mod ctr hc
    simp only [process_block, specCompress, h32, foldl_rrP_eq,
      List.getD_cons_zero, List.getD_cons_succ]
  · simp at hl

set_option maxRecDepth 1000000 in
theorem c1_witness :
    (IV.length = 8 ∧ (3 : Nat) < 2 ^ 64) ∧
    process_block IV (List.range 64) 3 true =
      specCompress IV (List.range 64) 3 true :=
  ⟨⟨by decide, by decide⟩,
   c1_portable_matches_spec IV (List.range 64) 3 true (by decide) (by decide)⟩

/-- Claim C7: immediately after construction, the first chaining word
is `IV[0] XOR 0x01010000 XOR out_len XOR (key_len << 8)` (key_len 0 for
unkeyed contexts and empty keys) and the remaining words equal the IV;
the same holds after an unkeyed reset, and after a keyed reset whenever
the reset completes (for key lengths 1 to 31, `KeyedBlake2s::reset`
aborts in the key copy and never produces a state: see C6). -/
theorem c7_parameter_word (out_len : Nat) (key : List Nat)
    (h1 : 1 ≤ out_len) (h2 : out_len ≤ 32) (hk : key.length ≤ 32)
    (c : Ctx) (k : KCtx)
    (hc : Ctx.new out_len = some c) (hkk : KCtx.new out_len key = some k) :
    (c.h.getD 0 0 = paramWord out_len 0 ∧ c.h.drop 1 = IV.drop 1) ∧
    (c.reset.h.getD 0 0 = paramWord out_len 0 ∧
      c.reset.h.drop 1 = IV.drop 1) ∧
    (k.ctx.h.getD 0 0 = paramWord out_len key.length ∧
      k.ctx.h.drop 1 = IV.drop 1) ∧
    (∀ k2, KCtx.reset k = some k2 →
      k2.ctx.h.getD 0 0 = paramWord out_len key.length ∧
      k2.ctx.h.drop 1 = IV.drop 1) := by
  rw [KCtx.new, if_pos hk] at hkk
  rw [Ctx.new, if_pos ⟨h1, h2⟩] at hc hkk
  simp only [Option.map_some] at hkk
  injection hc with hc
  subst hc
  injection hkk with hkk
  subst hkk
  by_cases hkl : key.length = 0
  · refine ⟨?_, ?_, ?_, ?_⟩
    · simp [paramWord, IV, hkl, ← Nat.xor_assoc]
    · simp [Ctx.reset, paramWord, IV, hkl, ← Nat.xor_assoc]
    · simp [paramWord, IV, hkl, ← Nat.xor_assoc]
    · intro k2 hk2
      rw [KCtx_reset_h _ _ hk2]
      simp [Ctx.reset, paramWord, IV, hkl, ← Nat.xor_assoc]
  · refine ⟨?_, ?_, ?_, ?_⟩
    · simp [paramWord, IV, hkl, ← Nat.xor_assoc]
    · simp [Ctx.reset, paramWord, IV, hkl, ← Nat.xor_assoc]
    · simp [paramWord, IV, hkl, ← Nat.xor_assoc]
    · intro k2 hk2
      rw [KCtx_reset_h _ _ hk2]
      simp [Ctx.reset, paramWord, IV, hkl, ← Nat.xor_assoc]

set_option maxRecDepth 1000000 in
theorem c7_witness :
    ((1 : Nat) ≤ 17 ∧ (17 : Nat) ≤ 32 ∧
      (List.replicate 32 (9 : Nat)).length ≤ 32 ∧
      Ctx.new 17 = some ((Ctx.new 17).getD ⟨[], [], 0, 0⟩) ∧
      KCtx.new 17 (List.replicate 32 9) = some ((KCtx.new 17 (List.replicate 32 9)).getD ⟨⟨[], [], 0, 0⟩, [], 0⟩) ∧
      KCtx.reset ((KCtx.new 17 (List.replicate 32 9)).getD ⟨⟨[], [], 0, 0⟩, [], 0⟩) = some ((KCtx.reset ((KCtx.new 17 (List.replicate 32 9)).getD ⟨⟨[], [], 0, 0⟩, [], 0⟩)).getD ⟨⟨[], [], 0, 0⟩, [], 0⟩)) ∧
    (((Ctx.new 17).getD ⟨[], [], 0, 0⟩).h.getD 0 0 = paramWord 17 0 ∧
      ((KCtx.new 17 (List.replicate 32 9)).getD ⟨⟨[], [], 0, 0⟩, [], 0⟩).ctx.h.getD 0 0 = paramWord 17 (List.replicate 32 (9 : Nat)).length ∧
      ((KCtx.reset ((KCtx.new 17 (List.replicate 32 9)).getD ⟨⟨[], [], 0, 0⟩, [], 0⟩)).getD ⟨⟨[], [], 0, 0⟩, [], 0⟩).ctx.h.getD 0 0 = paramWord 17 (List.replicate 32 (9 : Nat)).length) := by
  have happ := c7_parameter_word 17 (List.replicate 32 9) (by decide)
    (by decide) (by decide)
    ((Ctx.new 17).getD ⟨[], [], 0, 0⟩)
    ((KCtx.new 17 (List.replicate 32 9)).getD ⟨⟨[], [], 0, 0⟩, [], 0⟩)
    (by decide) (by decide)
  exact ⟨⟨by decide, by decide, by decide, by decide, by decide, by decide⟩,
    happ.1.1, happ.2.2.1.1,
    (happ.2.2.2 ((KCtx.reset ((KCtx.new 17 (List.replicate 32 9)).getD ⟨⟨[], [], 0, 0⟩, [], 0⟩)).getD ⟨⟨[], [], 0, 0⟩, [], 0⟩) (by decide)).1⟩

/-- Claim C8: a poisoned context (counter equal to the all-ones
sentinel) rejects `update` and `finalize` with no state produced, and
a non-poisoned context always succeeds. -/
theorem c8_use_after_finalize (c : Ctx) (data : List Nat) :
    (c.ctr = U64MAX → c.update data = none ∧ c.inner_finalize = none) ∧
    (c.ctr ≠ U64MAX →
      (c.update data).isSome ∧ (c.inner_finalize).isSome) := by
  constructor
  · intro h
    rw [Ctx.update, if_pos h, Ctx.inner_finalize, if_pos h]
    exact ⟨rfl, rfl⟩
  · intro h
    rw [Ctx.update, if_neg h, Ctx.inner_finalize, if_neg h]
    exact ⟨rfl, rfl⟩

set_option maxRecDepth 1000000 in
theorem c8_witness :
    ((Ctx.mk [] [] U64MAX 32).update [1] = none ∧
     (Ctx.mk [] [] U64MAX 32).inner_finalize = none) ∧
    (((Ctx.mk [] [] 0 32).update [1]).isSome ∧
     ((Ctx.mk [] [] 0 32).inner_finalize).isSome) :=
  ⟨(c8_use_after_finalize (Ctx.mk [] [] U64MAX 32) [1]).1 rfl,
   (c8_use_after_finalize (Ctx.mk [] [] 0 32) [1]).2 (by decide)⟩

set_option maxRecDepth 1000000 in
/-- Claim C9: the one-shot unkeyed 32-byte hash of "abc" equals the
RFC 7693 test vector. -/
theorem c9_kat_abc : hash256 [0x61, 0x62, 0x63] =
    some [0x50, 0x8c, 0x5e, 0x8c, 0x32, 0x7c, 0x14, 0xe2,
          0xe1, 0xa7, 0x2b, 0xa3, 0x4e, 0xeb, 0x45, 0x2f,
          0x37, 0x45, 0x8b, 0x20, 0x9e, 0xd6, 0x3a, 0x29,
          0x4d, 0x99, 0x9b, 0x4c, 0x86, 0x67, 0x59, 0x82] := by
  rfl

/-- Claim C10: the poison check precedes the empty-input early return:
an empty `update` on a poisoned context fails, and is a no-op exactly
on non-poisoned contexts. -/
theorem c10_empty_update_poison (c : Ctx) :
    (c.ctr = U64MAX → c.update [] = none) ∧
    (c.ctr ≠ U64MAX → c.update [] = some c) := by
  constructor
  · intro h
    rw [Ctx.update, if_pos h]
  · intro h
    rw [Ctx.update, if_neg h, updateGo]
    simp

set_option maxRecDepth 1000000 in
theorem c10_witness :
    ((Ctx.mk [] [] U64MAX 32).update [] = none) ∧
    ((Ctx.mk [] [] 0 32).update [] = some (Ctx.mk [] [] 0 32)) :=
  ⟨(c10_empty_update_poison (Ctx.mk [] [] U64MAX 32)).1 rfl,
   (c10_empty_update_poison (Ctx.mk [] [] 0 32)).2 (by decide)⟩

/-! Witnesses for the streaming claims C3 to C6. -/

set_option maxRecDepth 1000000 in
theorem c3_witness :
    ((1 : Nat) ≤ 32 ∧ (32 : Nat) ≤ 32 ∧ ([] : List Nat).length ≤ 32 ∧
      (([[1], [2, 3]] : List (List Nat)).map List.length).sum + 65 < U64MAX) ∧
    keyedDigest 32 [] [[1], [2, 3]] =
      keyedDigest 32 [] [([[1], [2, 3]] : List (List Nat)).flatten] :=
  ⟨⟨by decide, by decide, by decide, by decide⟩,
   c3_streaming_equivalence 32 [] [[1], [2, 3]]
     (by decide) (by decide) (by decide) (by decide)⟩

set_option maxRecDepth 1000000 in
theorem c4_witness :
    (KCtx.new 32 [] = some ((KCtx.new 32 []).getD ⟨⟨[], [], 0, 0⟩, [], 0⟩) ∧
     (([[5], [6]] : List (List Nat)).map List.length).sum + 65 < U64MAX ∧
     runUpdatesC ((KCtx.new 32 []).getD ⟨⟨[], [], 0, 0⟩, [], 0⟩).ctx
         [[5], [6]] =
       some (((runUpdatesC ((KCtx.new 32 []).getD ⟨⟨[], [], 0, 0⟩, [], 0⟩).ctx
        [[5], [6]]).getD (⟨[], [], 0, 0⟩, 0)).1, ((runUpdatesC ((KCtx.new 32 []).getD ⟨⟨[], [], 0, 0⟩, [], 0⟩).ctx
        [[5], [6]]).getD (⟨[], [], 0, 0⟩, 0)).2)) ∧
    ((runUpdatesC ((KCtx.new 32 []).getD ⟨⟨[], [], 0, 0⟩, [], 0⟩).ctx
        [[5], [6]]).getD (⟨[], [], 0, 0⟩, 0)).2 =
      (if ((runUpdatesC ((KCtx.new 32 []).getD ⟨⟨[], [], 0, 0⟩, [], 0⟩).ctx
        [[5], [6]]).getD (⟨[], [], 0, 0⟩, 0)).1.ctr = 0 then 0
       else (((runUpdatesC ((KCtx.new 32 []).getD ⟨⟨[], [], 0, 0⟩, [], 0⟩).ctx
        [[5], [6]]).getD (⟨[], [], 0, 0⟩, 0)).1.ctr + 63) / 64 - 1) := by
  refine ⟨⟨by decide, by decide, by decide⟩, ?_⟩
  exact (c4_compression_count 32 [] [[5], [6]]
    ((KCtx.new 32 []).getD ⟨⟨[], [], 0, 0⟩, [], 0⟩) (by decide) (by decide)
    ((runUpdatesC ((KCtx.new 32 []).getD ⟨⟨[], [], 0, 0⟩, [], 0⟩).ctx
        [[5], [6]]).getD (⟨[], [], 0, 0⟩, 0)).1 ((runUpdatesC ((KCtx.new 32 []).getD ⟨⟨[], [], 0, 0⟩, [], 0⟩).ctx
        [[5], [6]]).getD (⟨[], [], 0, 0⟩, 0)).2 (by decide)).1

set_option maxRecDepth 1000000 in
theorem c5_witness :
    (Ctx.new 32 = some ((Ctx.new 32).getD ⟨[], [], 0, 0⟩) ∧
      (List.replicate 64 (7 : Nat)).length ≤ 65) ∧
    (updateGoC ((Ctx.new 32).getD ⟨[], [], 0, 0⟩)
      (List.replicate 64 7)).2 = 0 :=
  ⟨⟨by decide, by decide⟩,
   (c5_amended (List.replicate 64 7) ((Ctx.new 32).getD ⟨[], [], 0, 0⟩)
     (by decide) (by decide)).1 (Or.inr (Or.inr (by decide)))⟩

end B2s


/-! # Backend equivalence (C2) -/

namespace B2s

theorem V128.extLanes (a b : V128) (e0 : a.w0 = b.w0) (e1 : a.w1 = b.w1)
    (e2 : a.w2 = b.w2) (e3 : a.w3 = b.w3) : a = b := by
  cases a; cases b; simp_all

theorem shiftRight_le_self (x n : Nat) : x >>> n ≤ x := by
  rw [Nat.shiftRight_eq_div_pow]; exact Nat.div_le_self _ _

theorem byteRot16 (x : Nat) (hx : x < 2 ^ 32) :
    wordOfBytes ((x >>> 16) % 256) ((x >>> 24) % 256) (x % 256) ((x >>> 8) % 256)
      = (x >>> 16) ||| ((x <<< 16) % 2 ^ 32) := by
  have d8 : x >>> 8 = x / 256 := by rw [Nat.shiftRight_eq_div_pow]
  have d16 : x >>> 16 = x / 65536 := by rw [Nat.shiftRight_eq_div_pow]
  have d24 : x >>> 24 = x / 16777216 := by
    rw [Nat.shiftRight_eq_div_pow]
  have hsl : (x <<< 16) % 2 ^ 32 = x % 65536 * 65536 := by
    rw [Nat.shiftLeft_eq,
      show (2 : Nat) ^ 32 = 65536 * 65536 from by norm_num,
      show (2 : Nat) ^ 16 = 65536 from by norm_num,
      Nat.mul_mod_mul_right]
  have hor : (x >>> 16) ||| ((x <<< 16) % 2 ^ 32)
      = 65536 * (x % 65536) + x / 65536 := by
    rw [hsl, d16, Nat.lor_comm,
      show x % 65536 * 65536 = 2 ^ 16 * (x % 65536) from by ring]
    rw [← Nat.mul_add_lt_is_or (show x / 65536 < 2 ^ 16 from by omega) (x % 65536)]
  rw [hor, wordOfBytes, d8, d16, d24]
  clear hor hsl d8 d16 d24
  omega

theorem byteRot8 (x : Nat) (hx : x < 2 ^ 32) :
    wordOfBytes ((x >>> 8) % 256) ((x >>> 16) % 256) ((x >>> 24) % 256) (x % 256)
      = (x >>> 8) ||| ((x <<< 24) % 2 ^ 32) := by
  have d8 : x >>> 8 = x / 256 := by rw [Nat.shiftRight_eq_div_pow]
  have d16 : x >>> 16 = x / 65536 := by rw [Nat.shiftRight_eq_div_pow]
  have d24 : x >>> 24 = x / 16777216 := by
    rw [Nat.shiftRight_eq_div_pow]
  have hsl : (x <<< 24) % 2 ^ 32 = x % 256 * 16777216 := by
    rw [Nat.shiftLeft_eq,
      show (2 : Nat) ^ 32 = 256 * 16777216 from by norm_num,
      show (2 : Nat) ^ 24 = 16777216 from by norm_num,
      Nat.mul_mod_mul_right]
  have hor : (x >>> 8) ||| ((x <<< 24) % 2 ^ 32)
      = 16777216 * (x % 256) + x / 256 := by
    rw [hsl, d8, Nat.lor_comm,
      show x % 256 * 16777216 = 2 ^ 24 * (x % 256) from by ring]
    rw [← Nat.mul_add_lt_is_or (show x / 256 < 2 ^ 24 from by omega) (x % 256)]
  rw [hor, wordOfBytes, d8, d16, d24]
  clear hor hsl d8 d16 d24
  omega

theorem shuffle16_eq (a : V128) (h : boundedV a) :
    mm_shuffle_epi8 a xror16mask
      = mm_or_si128 (mm_srli_epi32 a 16) (mm_slli_epi32 a 16) :=
  V128.extLanes _ _ (byteRot16 a.w0 h.1) (byteRot16 a.w1 h.2.1)
    (byteRot16 a.w2 h.2.2.1) (byteRot16 a.w3 h.2.2.2)

theorem shuffle8_eq (a : V128) (h : boundedV a) :
    mm_shuffle_epi8 a xror8mask
      = mm_or_si128 (mm_srli_epi32 a 8) (mm_slli_epi32 a 24) :=
  V128.extLanes _ _ (byteRot8 a.w0 h.1) (byteRot8 a.w1 h.2.1)
    (byteRot8 a.w2 h.2.2.1) (byteRot8 a.w3 h.2.2.2)

theorem wordOfBytes_lt (b0 b1 b2 b3 : Nat) (h0 : b0 < 256) (h1 : b1 < 256)
    (h2 : b2 < 256) (h3 : b3 < 256) : wordOfBytes b0 b1 b2 b3 < 2 ^ 32 := by
  simp only [wordOfBytes]; omega

theorem if_byte_lt (p : Prop) [Decidable p] (a : V128) (j : Nat) :
    (if p then 0 else a.byte j) < 256 := by
  split
  · norm_num
  · exact Nat.mod_lt _ (by norm_num)

theorem bounded_shuffle8 (a : V128) (mask : List Nat) :
    boundedV (mm_shuffle_epi8 a mask) := by
  refine ⟨?_, ?_, ?_, ?_⟩ <;>
    exact wordOfBytes_lt _ _ _ _ (if_byte_lt _ _ _) (if_byte_lt _ _ _)
      (if_byte_lt _ _ _) (if_byte_lt _ _ _)

theorem lane_lt (a : V128) (h : boundedV a) (i : Nat) : a.lane i < 2 ^ 32 := by
  rcases i with _ | _ | _ | i
  · exact h.1
  · exact h.2.1
  · exact h.2.2.1
  · exact h.2.2.2

theorem bounded_shuffle32 (a : V128) (h : boundedV a) (imm : Nat) :
    boundedV (mm_shuffle_epi32 a imm) :=
  ⟨lane_lt a h _, lane_lt a h _, lane_lt a h _, lane_lt a h _⟩

theorem bounded_add (a b : V128) : boundedV (mm_add_epi32 a b) :=
  ⟨Nat.mod_lt _ (by norm_num), Nat.mod_lt _ (by norm_num),
   Nat.mod_lt _ (by norm_num), Nat.mod_lt _ (by norm_num)⟩

theorem bounded_xor (a b : V128) (ha : boundedV a) (hb : boundedV b) :
    boundedV (mm_xor_si128 a b) :=
  ⟨Nat.xor_lt_two_pow ha.1 hb.1, Nat.xor_lt_two_pow ha.2.1 hb.2.1,
   Nat.xor_lt_two_pow ha.2.2.1 hb.2.2.1, Nat.xor_lt_two_pow ha.2.2.2 hb.2.2.2⟩

theorem bounded_orshift (a : V128) (m n : Nat) (h : boundedV a) :
    boundedV (mm_or_si128 (mm_srli_epi32 a m) (mm_slli_epi32 a n)) :=
  ⟨Nat.or_lt_two_pow (lt_of_le_of_lt (shiftRight_le_self _ _) h.1)
      (Nat.mod_lt _ (by norm_num)),
   Nat.or_lt_two_pow (lt_of_le_of_lt (shiftRight_le_self _ _) h.2.1)
      (Nat.mod_lt _ (by norm_num)),
   Nat.or_lt_two_pow (lt_of_le_of_lt (shiftRight_le_self _ _) h.2.2.1)
      (Nat.mod_lt _ (by norm_num)),
   Nat.or_lt_two_pow (lt_of_le_of_lt (shiftRight_le_self _ _) h.2.2.2)
      (Nat.mod_lt _ (by norm_num))⟩

theorem toV4_lit (v0 v1 v2 v3 v4 v5 v6 v7 v8 v9 v10 v11 v12 v13 v14 v15 : Nat) :
    toV4 [v0, v1, v2, v3, v4, v5, v6, v7, v8, v9, v10, v11, v12, v13, v14, v15] =
      (⟨v0, v1, v2, v3⟩, ⟨v4, v5, v6, v7⟩, ⟨v8, v9, v10, v11⟩, ⟨v12, v13, v14, v15⟩) := rfl

theorem shuf39 (a0 a1 a2 a3 : Nat) :
    mm_shuffle_epi32 ⟨a0, a1, a2, a3⟩ 0x39 = ⟨a1, a2, a3, a0⟩ := rfl

theorem shuf4E (a0 a1 a2 a3 : Nat) :
    mm_shuffle_epi32 ⟨a0, a1, a2, a3⟩ 0x4E = ⟨a2, a3, a0, a1⟩ := rfl

theorem shuf93 (a0 a1 a2 a3 : Nat) :
    mm_shuffle_epi32 ⟨a0, a1, a2, a3⟩ 0x93 = ⟨a3, a0, a1, a2⟩ := rfl

theorem g4S_scalar (xx0 xx1 xx2 xx3 xy0 xy1 xy2 xy3
    a0 a1 a2 a3 b0 b1 b2 b3 c0 c1 c2 c3 d0 d1 d2 d3 : Nat) :
    g4S ⟨xx0, xx1, xx2, xx3⟩ ⟨xy0, xy1, xy2, xy3⟩
        (⟨a0, a1, a2, a3⟩, ⟨b0, b1, b2, b3⟩, ⟨c0, c1, c2, c3⟩, ⟨d0, d1, d2, d3⟩) =
      (⟨(add32 (add32 a0 (add32 b0 xx0)) (add32 (rotr (b0 ^^^ (add32 c0 (rotr ((add32 a0 (add32 b0 xx0)) ^^^ d0) 16))) 12) xy0)), (add32 (add32 a1 (add32 b1 xx1)) (add32 (rotr (b1 ^^^ (add32 c1 (rotr ((add32 a1 (add32 b1 xx1)) ^^^ d1) 16))) 12) xy1)), (add32 (add32 a2 (add32 b2 xx2)) (add32 (rotr (b2 ^^^ (add32 c2 (rotr ((add32 a2 (add32 b2 xx2)) ^^^ d2) 16))) 12) xy2)), (add32 (add32 a3 (add32 b3 xx3)) (add32 (rotr (b3 ^^^ (add32 c3 (rotr ((add32 a3 (add32 b3 xx3)) ^^^ d3) 16))) 12) xy3))⟩,
       ⟨(rotr ((rotr (b0 ^^^ (add32 c0 (rotr ((add32 a0 (add32 b0 xx0)) ^^^ d0) 16))) 12) ^^^ (add32 (add32 c0 (rotr ((add32 a0 (add32 b0 xx0)) ^^^ d0) 16)) (rotr ((add32 (add32 a0 (add32 b0 xx0)) (add32 (rotr (b0 ^^^ (add32 c0 (rotr ((add32 a0 (add32 b0 xx0)) ^^^ d0) 16))) 12) xy0)) ^^^ (rotr ((add32 a0 (add32 b0 xx0)) ^^^ d0) 16)) 8))) 7), (rotr ((rotr (b1 ^^^ (add32 c1 (rotr ((add32 a1 (add32 b1 xx1)) ^^^ d1) 16))) 12) ^^^ (add32 (add32 c1 (rotr ((add32 a1 (add32 b1 xx1)) ^^^ d1) 16)) (rotr ((add32 (add32 a1 (add32 b1 xx1)) (add32 (rotr (b1 ^^^ (add32 c1 (rotr ((add32 a1 (add32 b1 xx1)) ^^^ d1) 16))) 12) xy1)) ^^^ (rotr ((add32 a1 (add32 b1 xx1)) ^^^ d1) 16)) 8))) 7), (rotr ((rotr (b2 ^^^ (add32 c2 (rotr ((add32 a2 (add32 b2 xx2)) ^^^ d2) 16))) 12) ^^^ (add32 (add32 c2 (rotr ((add32 a2 (add32 b2 xx2)) ^^^ d2) 16)) (rotr ((add32 (add32 a2 (add32 b2 xx2)) (add32 (rotr (b2 ^^^ (add32 c2 (rotr ((add32 a2 (add32 b2 xx2)) ^^^ d2) 16))) 12) xy2)) ^^^ (rotr ((add32 a2 (add32 b2 xx2)) ^^^ d2) 16)) 8))) 7), (rotr ((rotr (b3 ^^^ (add32 c3 (rotr ((add32 a3 (add32 b3 xx3)) ^^^ d3) 16))) 12) ^^^ (add32 (add32 c3 (rotr ((add32 a3 (add32 b3 xx3)) ^^^ d3) 16)) (rotr ((add32 (add32 a3 (add32 b3 xx3)) (add32 (rotr (b3 ^^^ (add32 c3 (rotr ((add32 a3 (add32 b3 xx3)) ^^^ d3) 16))) 12) xy3)) ^^^ (rotr ((add32 a3 (add32 b3 xx3)) ^^^ d3) 16)) 8))) 7)⟩,
       ⟨(add32 (add32 c0 (rotr ((add32 a0 (add32 b0 xx0)) ^^^ d0) 16)) (rotr ((add32 (add32 a0 (add32 b0 xx0)) (add32 (rotr (b0 ^^^ (add32 c0 (rotr ((add32 a0 (add32 b0 xx0)) ^^^ d0) 16))) 12) xy0)) ^^^ (rotr ((add32 a0 (add32 b0 xx0)) ^^^ d0) 16)) 8)), (add32 (add32 c1 (rotr ((add32 a1 (add32 b1 xx1)) ^^^ d1) 16)) (rotr ((add32 (add32 a1 (add32 b1 xx1)) (add32 (rotr (b1 ^^^ (add32 c1 (rotr ((add32 a1 (add32 b1 xx1)) ^^^ d1) 16))) 12) xy1)) ^^^ (rotr ((add32 a1 (add32 b1 xx1)) ^^^ d1) 16)) 8)), (add32 (add32 c2 (rotr ((add32 a2 (add32 b2 xx2)) ^^^ d2) 16)) (rotr ((add32 (add32 a2 (add32 b2 xx2)) (add32 (rotr (b2 ^^^ (add32 c2 (rotr ((add32 a2 (add32 b2 xx2)) ^^^ d2) 16))) 12) xy2)) ^^^ (rotr ((add32 a2 (add32 b2 xx2)) ^^^ d2) 16)) 8)), (add32 (add32 c3 (rotr ((add32 a3 (add32 b3 xx3)) ^^^ d3) 16)) (rotr ((add32 (add32 a3 (add32 b3 xx3)) (add32 (rotr (b3 ^^^ (add32 c3 (rotr ((add32 a3 (add32 b3 xx3)) ^^^ d3) 16))) 12) xy3)) ^^^ (rotr ((add32 a3 (add32 b3 xx3)) ^^^ d3) 16)) 8))⟩,
       ⟨(rotr ((add32 (add32 a0 (add32 b0 xx0)) (add32 (rotr (b0 ^^^ (add32 c0 (rotr ((add32 a0 (add32 b0 xx0)) ^^^ d0) 16))) 12) xy0)) ^^^ (rotr ((add32 a0 (add32 b0 xx0)) ^^^ d0) 16)) 8), (rotr ((add32 (add32 a1 (add32 b1 xx1)) (add32 (rotr (b1 ^^^ (add32 c1 (rotr ((add32 a1 (add32 b1 xx1)) ^^^ d1) 16))) 12) xy1)) ^^^ (rotr ((add32 a1 (add32 b1 xx1)) ^^^ d1) 16)) 8), (rotr ((add32 (add32 a2 (add32 b2 xx2)) (add32 (rotr (b2 ^^^ (add32 c2 (rotr ((add32 a2 (add32 b2 xx2)) ^^^ d2) 16))) 12) xy2)) ^^^ (rotr ((add32 a2 (add32 b2 xx2)) ^^^ d2) 16)) 8), (rotr ((add32 (add32 a3 (add32 b3 xx3)) (add32 (rotr (b3 ^^^ (add32 c3 (rotr ((add32 a3 (add32 b3 xx3)) ^^^ d3) 16))) 12) xy3)) ^^^ (rotr ((add32 a3 (add32 b3 xx3)) ^^^ d3) 16)) 8)⟩) := rfl

theorem rrS_split (a b c d : V128) (w : V4) :
    rrS (a, b, c, d) w =
      ((g4S c d
      ((g4S a b w).1, mm_shuffle_epi32 (g4S a b w).2.1 0x39,
       mm_shuffle_epi32 (g4S a b w).2.2.1 0x4E, mm_shuffle_epi32 (g4S a b w).2.2.2 0x93)).1,
       mm_shuffle_epi32 (g4S c d
      ((g4S a b w).1, mm_shuffle_epi32 (g4S a b w).2.1 0x39,
       mm_shuffle_epi32 (g4S a b w).2.2.1 0x4E, mm_shuffle_epi32 (g4S a b w).2.2.2 0x93)).2.1 0x93,
       mm_shuffle_epi32 (g4S c d
      ((g4S a b w).1, mm_shuffle_epi32 (g4S a b w).2.1 0x39,
       mm_shuffle_epi32 (g4S a b w).2.2.1 0x4E, mm_shuffle_epi32 (g4S a b w).2.2.2 0x93)).2.2.1 0x4E,
       mm_shuffle_epi32 (g4S c d
      ((g4S a b w).1, mm_shuffle_epi32 (g4S a b w).2.1 0x39,
       mm_shuffle_epi32 (g4S a b w).2.2.1 0x4E, mm_shuffle_epi32 (g4S a b w).2.2.2 0x93)).2.2.2 0x39) := rfl

theorem ggSP0 (x y v0 v1 v2 v3 v4 v5 v6 v7 v8 v9 v10 v11 v12 v13 v14 v15 : Nat) :
    gg [v0, v1, v2, v3, v4, v5, v6, v7, v8, v9, v10, v11, v12, v13, v14, v15] 0 4 8 12 x y =
      [(add32 (add32 v0 (add32 v4 x)) (add32 (rotr (v4 ^^^ (add32 v8 (rotr (v12 ^^^ (add32 v0 (add32 v4 x))) 16))) 12) y)),
       v1,
       v2,
       v3,
       (rotr ((rotr (v4 ^^^ (add32 v8 (rotr (v12 ^^^ (add32 v0 (add32 v4 x))) 16))) 12) ^^^ (add32 (add32 v8 (rotr (v12 ^^^ (add32 v0 (add32 v4 x))) 16)) (rotr ((rotr (v12 ^^^ (add32 v0 (add32 v4 x))) 16) ^^^ (add32 (add32 v0 (add32 v4 x)) (add32 (rotr (v4 ^^^ (add32 v8 (rotr (v12 ^^^ (add32 v0 (add32 v4 x))) 16))) 12) y))) 8))) 7),
       v5,
       v6,
       v7,
       (add32 (add32 v8 (rotr (v12 ^^^ (add32 v0 (add32 v4 x))) 16)) (rotr ((rotr (v12 ^^^ (add32 v0 (add32 v4 x))) 16) ^^^ (add32 (add32 v0 (add32 v4 x)) (add32 (rotr (v4 ^^^ (add32 v8 (rotr (v12 ^^^ (add32 v0 (add32 v4 x))) 16))) 12) y))) 8)),
       v9,
       v10,
       v11,
       (rotr ((rotr (v12 ^^^ (add32 v0 (add32 v4 x))) 16) ^^^ (add32 (add32 v0 (add32 v4 x)) (add32 (rotr (v4 ^^^ (add32 v8 (rotr (v12 ^^^ (add32 v0 (add32 v4 x))) 16))) 12) y))) 8),
       v13,
       v14,
       v15] := rfl

theorem ggSV0 (x y v0 v1 v2 v3 v4 v5 v6 v7 v8 v9 v10 v11 v12 v13 v14 v15 : Nat) :
    gg [v0, v1, v2, v3, v4, v5, v6, v7, v8, v9, v10, v11, v12, v13, v14, v15] 0 4 8 12 x y =
      [(add32 (add32 v0 (add32 v4 x)) (add32 (rotr (v4 ^^^ (add32 v8 (rotr ((add32 v0 (add32 v4 x)) ^^^ v12) 16))) 12) y)),
       v1,
       v2,
       v3,
       (rotr ((rotr (v4 ^^^ (add32 v8 (rotr ((add32 v0 (add32 v4 x)) ^^^ v12) 16))) 12) ^^^ (add32 (add32 v8 (rotr ((add32 v0 (add32 v4 x)) ^^^ v12) 16)) (rotr ((add32 (add32 v0 (add32 v4 x)) (add32 (rotr (v4 ^^^ (add32 v8 (rotr ((add32 v0 (add32 v4 x)) ^^^ v12) 16))) 12) y)) ^^^ (rotr ((add32 v0 (add32 v4 x)) ^^^ v12) 16)) 8))) 7),
       v5,
       v6,
       v7,
       (add32 (add32 v8 (rotr ((add32 v0 (add32 v4 x)) ^^^ v12) 16)) (rotr ((add32 (add32 v0 (add32 v4 x)) (add32 (rotr (v4 ^^^ (add32 v8 (rotr ((add32 v0 (add32 v4 x)) ^^^ v12) 16))) 12) y)) ^^^ (rotr ((add32 v0 (add32 v4 x)) ^^^ v12) 16)) 8)),
       v9,
       v10,
       v11,
       (rotr ((add32 (add32 v0 (add32 v4 x)) (add32 (rotr (v4 ^^^ (add32 v8 (rotr ((add32 v0 (add32 v4 x)) ^^^ v12) 16))) 12) y)) ^^^ (rotr ((add32 v0 (add32 v4 x)) ^^^ v12) 16)) 8),
       v13,
       v14,
       v15] := by
  rw [ggSP0]
  simp only [Nat.xor_comm]

theorem ggSP1 (x y v0 v1 v2 v3 v4 v5 v6 v7 v8 v9 v10 v11 v12 v13 v14 v15 : Nat) :
    gg [v0, v1, v2, v3, v4, v5, v6, v7, v8, v9, v10, v11, v12, v13, v14, v15] 1 5 9 13 x y =
      [v0,
       (add32 (add32 v1 (add32 v5 x)) (add32 (rotr (v5 ^^^ (add32 v9 (rotr (v13 ^^^ (add32 v1 (add32 v5 x))) 16))) 12) y)),
       v2,
       v3,
       v4,
       (rotr ((rotr (v5 ^^^ (add32 v9 (rotr (v13 ^^^ (add32 v1 (add32 v5 x))) 16))) 12) ^^^ (add32 (add32 v9 (rotr (v13 ^^^ (add32 v1 (add32 v5 x))) 16)) (rotr ((rotr (v13 ^^^ (add32 v1 (add32 v5 x))) 16) ^^^ (add32 (add32 v1 (add32 v5 x)) (add32 (rotr (v5 ^^^ (add32 v9 (rotr (v13 ^^^ (add32 v1 (add32 v5 x))) 16))) 12) y))) 8))) 7),
       v6,
       v7,
       v8,
       (add32 (add32 v9 (rotr (v13 ^^^ (add32 v1 (add32 v5 x))) 16)) (rotr ((rotr (v13 ^^^ (add32 v1 (add32 v5 x))) 16) ^^^ (add32 (add32 v1 (add32 v5 x)) (add32 (rotr (v5 ^^^ (add32 v9 (rotr (v13 ^^^ (add32 v1 (add32 v5 x))) 16))) 12) y))) 8)),
       v10,
       v11,
       v12,
       (rotr ((rotr (v13 ^^^ (add32 v1 (add32 v5 x))) 16) ^^^ (add32 (add32 v1 (add32 v5 x)) (add32 (rotr (v5 ^^^ (add32 v9 (rotr (v13 ^^^ (add32 v1 (add32 v5 x))) 16))) 12) y))) 8),
       v14,
       v15] := rfl

theorem ggSV1 (x y v0 v1 v2 v3 v4 v5 v6 v7 v8 v9 v10 v11 v12 v13 v14 v15 : Nat) :
    gg [v0, v1, v2, v3, v4, v5, v6, v7, v8, v9, v10, v11, v12, v13, v14, v15] 1 5 9 13 x y =
      [v0,
       (add32 (add32 v1 (add32 v5 x)) (add32 (rotr (v5 ^^^ (add32 v9 (rotr ((add32 v1 (add32 v5 x)) ^^^ v13) 16))) 12) y)),
       v2,
       v3,
       v4,
       (rotr ((rotr (v5 ^^^ (add32 v9 (rotr ((add32 v1 (add32 v5 x)) ^^^ v13) 16))) 12) ^^^ (add32 (add32 v9 (rotr ((add32 v1 (add32 v5 x)) ^^^ v13) 16)) (rotr ((add32 (add32 v1 (add32 v5 x)) (add32 (rotr (v5 ^^^ (add32 v9 (rotr ((add32 v1 (add32 v5 x)) ^^^ v13) 16))) 12) y)) ^^^ (rotr ((add32 v1 (add32 v5 x)) ^^^ v13) 16)) 8))) 7),
       v6,
       v7,
       v8,
       (add32 (add32 v9 (rotr ((add32 v1 (add32 v5 x)) ^^^ v13) 16)) (rotr ((add32 (add32 v1 (add32 v5 x)) (add32 (rotr (v5 ^^^ (add32 v9 (rotr ((add32 v1 (add32 v5 x)) ^^^ v13) 16))) 12) y)) ^^^ (rotr ((add32 v1 (add32 v5 x)) ^^^ v13) 16)) 8)),
       v10,
       v11,
       v12,
       (rotr ((add32 (add32 v1 (add32 v5 x)) (add32 (rotr (v5 ^^^ (add32 v9 (rotr ((add32 v1 (add32 v5 x)) ^^^ v13) 16))) 12) y)) ^^^ (rotr ((add32 v1 (add32 v5 x)) ^^^ v13) 16)) 8),
       v14,
       v15] := by
  rw [ggSP1]
  simp only [Nat.xor_comm]

theorem ggSP2 (x y v0 v1 v2 v3 v4 v5 v6 v7 v8 v9 v10 v11 v12 v13 v14 v15 : Nat) :
    gg [v0, v1, v2, v3, v4, v5, v6, v7, v8, v9, v10, v11, v12, v13, v14, v15] 2 6 10 14 x y =
      [v0,
       v1,
       (add32 (add32 v2 (add32 v6 x)) (add32 (rotr (v6 ^^^ (add32 v10 (rotr (v14 ^^^ (add32 v2 (add32 v6 x))) 16))) 12) y)),
       v3,
       v4,
       v5,
       (rotr ((rotr (v6 ^^^ (add32 v10 (rotr (v14 ^^^ (add32 v2 (add32 v6 x))) 16))) 12) ^^^ (add32 (add32 v10 (rotr (v14 ^^^ (add32 v2 (add32 v6 x))) 16)) (rotr ((rotr (v14 ^^^ (add32 v2 (add32 v6 x))) 16) ^^^ (add32 (add32 v2 (add32 v6 x)) (add32 (rotr (v6 ^^^ (add32 v10 (rotr (v14 ^^^ (add32 v2 (add32 v6 x))) 16))) 12) y))) 8))) 7),
       v7,
       v8,
       v9,
       (add32 (add32 v10 (rotr (v14 ^^^ (add32 v2 (add32 v6 x))) 16)) (rotr ((rotr (v14 ^^^ (add32 v2 (add32 v6 x))) 16) ^^^ (add32 (add32 v2 (add32 v6 x)) (add32 (rotr (v6 ^^^ (add32 v10 (rotr (v14 ^^^ (add32 v2 (add32 v6 x))) 16))) 12) y))) 8)),
       v11,
       v12,
       v13,
       (rotr ((rotr (v14 ^^^ (add32 v2 (add32 v6 x))) 16) ^^^ (add32 (add32 v2 (add32 v6 x)) (add32 (rotr (v6 ^^^ (add32 v10 (rotr (v14 ^^^ (add32 v2 (add32 v6 x))) 16))) 12) y))) 8),
       v15] := rfl

theorem ggSV2 (x y v0 v1 v2 v3 v4 v5 v6 v7 v8 v9 v10 v11 v12 v13 v14 v15 : Nat) :
    gg [v0, v1, v2, v3, v4, v5, v6, v7, v8, v9, v10, v11, v12, v13, v14, v15] 2 6 10 14 x y =
      [v0,
       v1,
       (add32 (add32 v2 (add32 v6 x)) (add32 (rotr (v6 ^^^ (add32 v10 (rotr ((add32 v2 (add32 v6 x)) ^^^ v14) 16))) 12) y)),
       v3,
       v4,
       v5,
       (rotr ((rotr (v6 ^^^ (add32 v10 (rotr ((add32 v2 (add32 v6 x)) ^^^ v14) 16))) 12) ^^^ (add32 (add32 v10 (rotr ((add32 v2 (add32 v6 x)) ^^^ v14) 16)) (rotr ((add32 (add32 v2 (add32 v6 x)) (add32 (rotr (v6 ^^^ (add32 v10 (rotr ((add32 v2 (add32 v6 x)) ^^^ v14) 16))) 12) y)) ^^^ (rotr ((add32 v2 (add32 v6 x)) ^^^ v14) 16)) 8))) 7),
       v7,
       v8,
       v9,
       (add32 (add32 v10 (rotr ((add32 v2 (add32 v6 x)) ^^^ v14) 16)) (rotr ((add32 (add32 v2 (add32 v6 x)) (add32 (rotr (v6 ^^^ (add32 v10 (rotr ((add32 v2 (add32 v6 x)) ^^^ v14) 16))) 12) y)) ^^^ (rotr ((add32 v2 (add32 v6 x)) ^^^ v14) 16)) 8)),
       v11,
       v12,
       v13,
       (rotr ((add32 (add32 v2 (add32 v6 x)) (add32 (rotr (v6 ^^^ (add32 v10 (rotr ((add32 v2 (add32 v6 x)) ^^^ v14) 16))) 12) y)) ^^^ (rotr ((add32 v2 (add32 v6 x)) ^^^ v14) 16)) 8),
       v15] := by
  rw [ggSP2]
  simp only [Nat.xor_comm]

theorem ggSP3 (x y v0 v1 v2 v3 v4 v5 v6 v7 v8 v9 v10 v11 v12 v13 v14 v15 : Nat) :
    gg [v0, v1, v2, v3, v4, v5, v6, v7, v8, v9, v10, v11, v12, v13, v14, v15] 3 7 11 15 x y =
      [v0,
       v1,
       v2,
       (add32 (add32 v3 (add32 v7 x)) (add32 (rotr (v7 ^^^ (add32 v11 (rotr (v15 ^^^ (add32 v3 (add32 v7 x))) 16))) 12) y)),
       v4,
       v5,
       v6,
       (rotr ((rotr (v7 ^^^ (add32 v11 (rotr (v15 ^^^ (add32 v3 (add32 v7 x))) 16))) 12) ^^^ (add32 (add32 v11 (rotr (v15 ^^^ (add32 v3 (add32 v7 x))) 16)) (rotr ((rotr (v15 ^^^ (add32 v3 (add32 v7 x))) 16) ^^^ (add32 (add32 v3 (add32 v7 x)) (add32 (rotr (v7 ^^^ (add32 v11 (rotr (v15 ^^^ (add32 v3 (add32 v7 x))) 16))) 12) y))) 8))) 7),
       v8,
       v9,
       v10,
       (add32 (add32 v11 (rotr (v15 ^^^ (add32 v3 (add32 v7 x))) 16)) (rotr ((rotr (v15 ^^^ (add32 v3 (add32 v7 x))) 16) ^^^ (add32 (add32 v3 (add32 v7 x)) (add32 (rotr (v7 ^^^ (add32 v11 (rotr (v15 ^^^ (add32 v3 (add32 v7 x))) 16))) 12) y))) 8)),
       v12,
       v13,
       v14,
       (rotr ((rotr (v15 ^^^ (add32 v3 (add32 v7 x))) 16) ^^^ (add32 (add32 v3 (add32 v7 x)) (add32 (rotr (v7 ^^^ (add32 v11 (rotr (v15 ^^^ (add32 v3 (add32 v7 x))) 16))) 12) y))) 8)] := rfl

theorem ggSV3 (x y v0 v1 v2 v3 v4 v5 v6 v7 v8 v9 v10 v11 v12 v13 v14 v15 : Nat) :
    gg [v0, v1, v2, v3, v4, v5, v6, v7, v8, v9, v10, v11, v12, v13, v14, v15] 3 7 11 15 x y =
      [v0,
       v1,
       v2,
       (add32 (add32 v3 (add32 v7 x)) (add32 (rotr (v7 ^^^ (add32 v11 (rotr ((add32 v3 (add32 v7 x)) ^^^ v15) 16))) 12) y)),
       v4,
       v5,
       v6,
       (rotr ((rotr (v7 ^^^ (add32 v11 (rotr ((add32 v3 (add32 v7 x)) ^^^ v15) 16))) 12) ^^^ (add32 (add32 v11 (rotr ((add32 v3 (add32 v7 x)) ^^^ v15) 16)) (rotr ((add32 (add32 v3 (add32 v7 x)) (add32 (rotr (v7 ^^^ (add32 v11 (rotr ((add32 v3 (add32 v7 x)) ^^^ v15) 16))) 12) y)) ^^^ (rotr ((add32 v3 (add32 v7 x)) ^^^ v15) 16)) 8))) 7),
       v8,
       v9,
       v10,
       (add32 (add32 v11 (rotr ((add32 v3 (add32 v7 x)) ^^^ v15) 16)) (rotr ((add32 (add32 v3 (add32 v7 x)) (add32 (rotr (v7 ^^^ (add32 v11 (rotr ((add32 v3 (add32 v7 x)) ^^^ v15) 16))) 12) y)) ^^^ (rotr ((add32 v3 (add32 v7 x)) ^^^ v15) 16)) 8)),
       v12,
       v13,
       v14,
       (rotr ((add32 (add32 v3 (add32 v7 x)) (add32 (rotr (v7 ^^^ (add32 v11 (rotr ((add32 v3 (add32 v7 x)) ^^^ v15) 16))) 12) y)) ^^^ (rotr ((add32 v3 (add32 v7 x)) ^^^ v15) 16)) 8)] := by
  rw [ggSP3]
  simp only [Nat.xor_comm]

theorem ggSP4 (x y v0 v1 v2 v3 v4 v5 v6 v7 v8 v9 v10 v11 v12 v13 v14 v15 : Nat) :
    gg [v0, v1, v2, v3, v4, v5, v6, v7, v8, v9, v10, v11, v12, v13, v14, v15] 0 5 10 15 x y =
      [(add32 (add32 v0 (add32 v5 x)) (add32 (rotr (v5 ^^^ (add32 v10 (rotr (v15 ^^^ (add32 v0 (add32 v5 x))) 16))) 12) y)),
       v1,
       v2,
       v3,
       v4,
       (rotr ((rotr (v5 ^^^ (add32 v10 (rotr (v15 ^^^ (add32 v0 (add32 v5 x))) 16))) 12) ^^^ (add32 (add32 v10 (rotr (v15 ^^^ (add32 v0 (add32 v5 x))) 16)) (rotr ((rotr (v15 ^^^ (add32 v0 (add32 v5 x))) 16) ^^^ (add32 (add32 v0 (add32 v5 x)) (add32 (rotr (v5 ^^^ (add32 v10 (rotr (v15 ^^^ (add32 v0 (add32 v5 x))) 16))) 12) y))) 8))) 7),
       v6,
       v7,
       v8,
       v9,
       (add32 (add32 v10 (rotr (v15 ^^^ (add32 v0 (add32 v5 x))) 16)) (rotr ((rotr (v15 ^^^ (add32 v0 (add32 v5 x))) 16) ^^^ (add32 (add32 v0 (add32 v5 x)) (add32 (rotr (v5 ^^^ (add32 v10 (rotr (v15 ^^^ (add32 v0 (add32 v5 x))) 16))) 12) y))) 8)),
       v11,
       v12,
       v13,
       v14,
       (rotr ((rotr (v15 ^^^ (add32 v0 (add32 v5 x))) 16) ^^^ (add32 (add32 v0 (add32 v5 x)) (add32 (rotr (v5 ^^^ (add32 v10 (rotr (v15 ^^^ (add32 v0 (add32 v5 x))) 16))) 12) y))) 8)] := rfl

theorem ggSV4 (x y v0 v1 v2 v3 v4 v5 v6 v7 v8 v9 v10 v11 v12 v13 v14 v15 : Nat) :
    gg [v0, v1, v2, v3, v4, v5, v6, v7, v8, v9, v10, v11, v12, v13, v14, v15] 0 5 10 15 x y =
      [(add32 (add32 v0 (add32 v5 x)) (add32 (rotr (v5 ^^^ (add32 v10 (rotr ((add32 v0 (add32 v5 x)) ^^^ v15) 16))) 12) y)),
       v1,
       v2,
       v3,
       v4,
       (rotr ((rotr (v5 ^^^ (add32 v10 (rotr ((add32 v0 (add32 v5 x)) ^^^ v15) 16))) 12) ^^^ (add32 (add32 v10 (rotr ((add32 v0 (add32 v5 x)) ^^^ v15) 16)) (rotr ((add32 (add32 v0 (add32 v5 x)) (add32 (rotr (v5 ^^^ (add32 v10 (rotr ((add32 v0 (add32 v5 x)) ^^^ v15) 16))) 12) y)) ^^^ (rotr ((add32 v0 (add32 v5 x)) ^^^ v15) 16)) 8))) 7),
       v6,
       v7,
       v8,
       v9,
       (add32 (add32 v10 (rotr ((add32 v0 (add32 v5 x)) ^^^ v15) 16)) (rotr ((add32 (add32 v0 (add32 v5 x)) (add32 (rotr (v5 ^^^ (add32 v10 (rotr ((add32 v0 (add32 v5 x)) ^^^ v15) 16))) 12) y)) ^^^ (rotr ((add32 v0 (add32 v5 x)) ^^^ v15) 16)) 8)),
       v11,
       v12,
       v13,
       v14,
       (rotr ((add32 (add32 v0 (add32 v5 x)) (add32 (rotr (v5 ^^^ (add32 v10 (rotr ((add32 v0 (add32 v5 x)) ^^^ v15) 16))) 12) y)) ^^^ (rotr ((add32 v0 (add32 v5 x)) ^^^ v15) 16)) 8)] := by
  rw [ggSP4]
  simp only [Nat.xor_comm]

theorem ggSP5 (x y v0 v1 v2 v3 v4 v5 v6 v7 v8 v9 v10 v11 v12 v13 v14 v15 : Nat) :
    gg [v0, v1, v2, v3, v4, v5, v6, v7, v8, v9, v10, v11, v12, v13, v14, v15] 1 6 11 12 x y =
      [v0,
       (add32 (add32 v1 (add32 v6 x)) (add32 (rotr (v6 ^^^ (add32 v11 (rotr (v12 ^^^ (add32 v1 (add32 v6 x))) 16))) 12) y)),
       v2,
       v3,
       v4,
       v5,
       (rotr ((rotr (v6 ^^^ (add32 v11 (rotr (v12 ^^^ (add32 v1 (add32 v6 x))) 16))) 12) ^^^ (add32 (add32 v11 (rotr (v12 ^^^ (add32 v1 (add32 v6 x))) 16)) (rotr ((rotr (v12 ^^^ (add32 v1 (add32 v6 x))) 16) ^^^ (add32 (add32 v1 (add32 v6 x)) (add32 (rotr (v6 ^^^ (add32 v11 (rotr (v12 ^^^ (add32 v1 (add32 v6 x))) 16))) 12) y))) 8))) 7),
       v7,
       v8,
       v9,
       v10,
       (add32 (add32 v11 (rotr (v12 ^^^ (add32 v1 (add32 v6 x))) 16)) (rotr ((rotr (v12 ^^^ (add32 v1 (add32 v6 x))) 16) ^^^ (add32 (add32 v1 (add32 v6 x)) (add32 (rotr (v6 ^^^ (add32 v11 (rotr (v12 ^^^ (add32 v1 (add32 v6 x))) 16))) 12) y))) 8)),
       (rotr ((rotr (v12 ^^^ (add32 v1 (add32 v6 x))) 16) ^^^ (add32 (add32 v1 (add32 v6 x)) (add32 (rotr (v6 ^^^ (add32 v11 (rotr (v12 ^^^ (add32 v1 (add32 v6 x))) 16))) 12) y))) 8),
       v13,
       v14,
       v15] := rfl

theorem ggSV5 (x y v0 v1 v2 v3 v4 v5 v6 v7 v8 v9 v10 v11 v12 v13 v14 v15 : Nat) :
    gg [v0, v1, v2, v3, v4, v5, v6, v7, v8, v9, v10, v11, v12, v13, v14, v15] 1 6 11 12 x y =
      [v0,
       (add32 (add32 v1 (add32 v6 x)) (add32 (rotr (v6 ^^^ (add32 v11 (rotr ((add32 v1 (add32 v6 x)) ^^^ v12) 16))) 12) y)),
       v2,
       v3,
       v4,
       v5,
       (rotr ((rotr (v6 ^^^ (add32 v11 (rotr ((add32 v1 (add32 v6 x)) ^^^ v12) 16))) 12) ^^^ (add32 (add32 v11 (rotr ((add32 v1 (add32 v6 x)) ^^^ v12) 16)) (rotr ((add32 (add32 v1 (add32 v6 x)) (add32 (rotr (v6 ^^^ (add32 v11 (rotr ((add32 v1 (add32 v6 x)) ^^^ v12) 16))) 12) y)) ^^^ (rotr ((add32 v1 (add32 v6 x)) ^^^ v12) 16)) 8))) 7),
       v7,
       v8,
       v9,
       v10,
       (add32 (add32 v11 (rotr ((add32 v1 (add32 v6 x)) ^^^ v12) 16)) (rotr ((add32 (add32 v1 (add32 v6 x)) (add32 (rotr (v6 ^^^ (add32 v11 (rotr ((add32 v1 (add32 v6 x)) ^^^ v12) 16))) 12) y)) ^^^ (rotr ((add32 v1 (add32 v6 x)) ^^^ v12) 16)) 8)),
       (rotr ((add32 (add32 v1 (add32 v6 x)) (add32 (rotr (v6 ^^^ (add32 v11 (rotr ((add32 v1 (add32 v6 x)) ^^^ v12) 16))) 12) y)) ^^^ (rotr ((add32 v1 (add32 v6 x)) ^^^ v12) 16)) 8),
       v13,
       v14,
       v15] := by
  rw [ggSP5]
  simp only [Nat.xor_comm]

theorem ggSP6 (x y v0 v1 v2 v3 v4 v5 v6 v7 v8 v9 v10 v11 v12 v13 v14 v15 : Nat) :
    gg [v0, v1, v2, v3, v4, v5, v6, v7, v8, v9, v10, v11, v12, v13, v14, v15] 2 7 8 13 x y =
      [v0,
       v1,
       (add32 (add32 v2 (add32 v7 x)) (add32 (rotr (v7 ^^^ (add32 v8 (rotr (v13 ^^^ (add32 v2 (add32 v7 x))) 16))) 12) y)),
       v3,
       v4,
       v5,
       v6,
       (rotr ((rotr (v7 ^^^ (add32 v8 (rotr (v13 ^^^ (add32 v2 (add32 v7 x))) 16))) 12) ^^^ (add32 (add32 v8 (rotr (v13 ^^^ (add32 v2 (add32 v7 x))) 16)) (rotr ((rotr (v13 ^^^ (add32 v2 (add32 v7 x))) 16) ^^^ (add32 (add32 v2 (add32 v7 x)) (add32 (rotr (v7 ^^^ (add32 v8 (rotr (v13 ^^^ (add32 v2 (add32 v7 x))) 16))) 12) y))) 8))) 7),
       (add32 (add32 v8 (rotr (v13 ^^^ (add32 v2 (add32 v7 x))) 16)) (rotr ((rotr (v13 ^^^ (add32 v2 (add32 v7 x))) 16) ^^^ (add32 (add32 v2 (add32 v7 x)) (add32 (rotr (v7 ^^^ (add32 v8 (rotr (v13 ^^^ (add32 v2 (add32 v7 x))) 16))) 12) y))) 8)),
       v9,
       v10,
       v11,
       v12,
       (rotr ((rotr (v13 ^^^ (add32 v2 (add32 v7 x))) 16) ^^^ (add32 (add32 v2 (add32 v7 x)) (add32 (rotr (v7 ^^^ (add32 v8 (rotr (v13 ^^^ (add32 v2 (add32 v7 x))) 16))) 12) y))) 8),
       v14,
       v15] := rfl

theorem ggSV6 (x y v0 v1 v2 v3 v4 v5 v6 v7 v8 v9 v10 v11 v12 v13 v14 v15 : Nat) :
    gg [v0, v1, v2, v3, v4, v5, v6, v7, v8, v9, v10, v11, v12, v13, v14, v15] 2 7 8 13 x y =
      [v0,
       v1,
       (add32 (add32 v2 (add32 v7 x)) (add32 (rotr (v7 ^^^ (add32 v8 (rotr ((add32 v2 (add32 v7 x)) ^^^ v13) 16))) 12) y)),
       v3,
       v4,
       v5,
       v6,
       (rotr ((rotr (v7 ^^^ (add32 v8 (rotr ((add32 v2 (add32 v7 x)) ^^^ v13) 16))) 12) ^^^ (add32 (add32 v8 (rotr ((add32 v2 (add32 v7 x)) ^^^ v13) 16)) (rotr ((add32 (add32 v2 (add32 v7 x)) (add32 (rotr (v7 ^^^ (add32 v8 (rotr ((add32 v2 (add32 v7 x)) ^^^ v13) 16))) 12) y)) ^^^ (rotr ((add32 v2 (add32 v7 x)) ^^^ v13) 16)) 8))) 7),
       (add32 (add32 v8 (rotr ((add32 v2 (add32 v7 x)) ^^^ v13) 16)) (rotr ((add32 (add32 v2 (add32 v7 x)) (add32 (rotr (v7 ^^^ (add32 v8 (rotr ((add32 v2 (add32 v7 x)) ^^^ v13) 16))) 12) y)) ^^^ (rotr ((add32 v2 (add32 v7 x)) ^^^ v13) 16)) 8)),
       v9,
       v10,
       v11,
       v12,
       (rotr ((add32 (add32 v2 (add32 v7 x)) (add32 (rotr (v7 ^^^ (add32 v8 (rotr ((add32 v2 (add32 v7 x)) ^^^ v13) 16))) 12) y)) ^^^ (rotr ((add32 v2 (add32 v7 x)) ^^^ v13) 16)) 8),
       v14,
       v15] := by
  rw [ggSP6]
  simp only [Nat.xor_comm]

theorem ggSP7 (x y v0 v1 v2 v3 v4 v5 v6 v7 v8 v9 v10 v11 v12 v13 v14 v15 : Nat) :
    gg [v0, v1, v2, v3, v4, v5, v6, v7, v8, v9, v10, v11, v12, v13, v14, v15] 3 4 9 14 x y =
      [v0,
       v1,
       v2,
       (add32 (add32 v3 (add32 v4 x)) (add32 (rotr (v4 ^^^ (add32 v9 (rotr (v14 ^^^ (add32 v3 (add32 v4 x))) 16))) 12) y)),
       (rotr ((rotr (v4 ^^^ (add32 v9 (rotr (v14 ^^^ (add32 v3 (add32 v4 x))) 16))) 12) ^^^ (add32 (add32 v9 (rotr (v14 ^^^ (add32 v3 (add32 v4 x))) 16)) (rotr ((rotr (v14 ^^^ (add32 v3 (add32 v4 x))) 16) ^^^ (add32 (add32 v3 (add32 v4 x)) (add32 (rotr (v4 ^^^ (add32 v9 (rotr (v14 ^^^ (add32 v3 (add32 v4 x))) 16))) 12) y))) 8))) 7),
       v5,
       v6,
       v7,
       v8,
       (add32 (add32 v9 (rotr (v14 ^^^ (add32 v3 (add32 v4 x))) 16)) (rotr ((rotr (v14 ^^^ (add32 v3 (add32 v4 x))) 16) ^^^ (add32 (add32 v3 (add32 v4 x)) (add32 (rotr (v4 ^^^ (add32 v9 (rotr (v14 ^^^ (add32 v3 (add32 v4 x))) 16))) 12) y))) 8)),
       v10,
       v11,
       v12,
       v13,
       (rotr ((rotr (v14 ^^^ (add32 v3 (add32 v4 x))) 16) ^^^ (add32 (add32 v3 (add32 v4 x)) (add32 (rotr (v4 ^^^ (add32 v9 (rotr (v14 ^^^ (add32 v3 (add32 v4 x))) 16))) 12) y))) 8),
       v15] := rfl

theorem ggSV7 (x y v0 v1 v2 v3 v4 v5 v6 v7 v8 v9 v10 v11 v12 v13 v14 v15 : Nat) :
    gg [v0, v1, v2, v3, v4, v5, v6, v7, v8, v9, v10, v11, v12, v13, v14, v15] 3 4 9 14 x y =
      [v0,
       v1,
       v2,
       (add32 (add32 v3 (add32 v4 x)) (add32 (rotr (v4 ^^^ (add32 v9 (rotr ((add32 v3 (add32 v4 x)) ^^^ v14) 16))) 12) y)),
       (rotr ((rotr (v4 ^^^ (add32 v9 (rotr ((add32 v3 (add32 v4 x)) ^^^ v14) 16))) 12) ^^^ (add32 (add32 v9 (rotr ((add32 v3 (add32 v4 x)) ^^^ v14) 16)) (rotr ((add32 (add32 v3 (add32 v4 x)) (add32 (rotr (v4 ^^^ (add32 v9 (rotr ((add32 v3 (add32 v4 x)) ^^^ v14) 16))) 12) y)) ^^^ (rotr ((add32 v3 (add32 v4 x)) ^^^ v14) 16)) 8))) 7),
       v5,
       v6,
       v7,
       v8,
       (add32 (add32 v9 (rotr ((add32 v3 (add32 v4 x)) ^^^ v14) 16)) (rotr ((add32 (add32 v3 (add32 v4 x)) (add32 (rotr (v4 ^^^ (add32 v9 (rotr ((add32 v3 (add32 v4 x)) ^^^ v14) 16))) 12) y)) ^^^ (rotr ((add32 v3 (add32 v4 x)) ^^^ v14) 16)) 8)),
       v10,
       v11,
       v12,
       v13,
       (rotr ((add32 (add32 v3 (add32 v4 x)) (add32 (rotr (v4 ^^^ (add32 v9 (rotr ((add32 v3 (add32 v4 x)) ^^^ v14) 16))) 12) y)) ^^^ (rotr ((add32 v3 (add32 v4 x)) ^^^ v14) 16)) 8),
       v15] := by
  rw [ggSP7]
  simp only [Nat.xor_comm]

theorem gg_length (v : List Nat) (a b c d x y : Nat) :
    (gg v a b c d x y).length = v.length := by
  simp [gg, List.length_set]

theorem rrP_length (m v s : List Nat) : (rrP m v s).length = v.length := by
  simp [rrP, gg_length]

theorem list16_eta (l : List Nat) (h : l.length = 16) :
    l = [l.getD 0 0, l.getD 1 0, l.getD 2 0, l.getD 3 0, l.getD 4 0, l.getD 5 0, l.getD 6 0, l.getD 7 0, l.getD 8 0, l.getD 9 0, l.getD 10 0, l.getD 11 0, l.getD 12 0, l.getD 13 0, l.getD 14 0, l.getD 15 0] := by
  rcases l with _ | ⟨a0, l⟩
  · simp at h
  rcases l with _ | ⟨a1, l⟩
  · simp at h
  rcases l with _ | ⟨a2, l⟩
  · simp at h
  rcases l with _ | ⟨a3, l⟩
  · simp at h
  rcases l with _ | ⟨a4, l⟩
  · simp at h
  rcases l with _ | ⟨a5, l⟩
  · simp at h
  rcases l with _ | ⟨a6, l⟩
  · simp at h
  rcases l with _ | ⟨a7, l⟩
  · simp at h
  rcases l with _ | ⟨a8, l⟩
  · simp at h
  rcases l with _ | ⟨a9, l⟩
  · simp at h
  rcases l with _ | ⟨a10, l⟩
  · simp at h
  rcases l with _ | ⟨a11, l⟩
  · simp at h
  rcases l with _ | ⟨a12, l⟩
  · simp at h
  rcases l with _ | ⟨a13, l⟩
  · simp at h
  rcases l with _ | ⟨a14, l⟩
  · simp at h
  rcases l with _ | ⟨a15, l⟩
  · simp at h
  rcases l with _ | ⟨a16, l⟩
  · rfl
  · simp at h

theorem rrP_expand16 (m s : List Nat)
    (v0 v1 v2 v3 v4 v5 v6 v7 v8 v9 v10 v11 v12 v13 v14 v15 : Nat) :
    rrP m [v0, v1, v2, v3, v4, v5, v6, v7, v8, v9, v10, v11, v12, v13, v14, v15] s =
      [(rrP m [v0, v1, v2, v3, v4, v5, v6, v7, v8, v9, v10, v11, v12, v13, v14, v15] s).getD 0 0, (rrP m [v0, v1, v2, v3, v4, v5, v6, v7, v8, v9, v10, v11, v12, v13, v14, v15] s).getD 1 0,
       (rrP m [v0, v1, v2, v3, v4, v5, v6, v7, v8, v9, v10, v11, v12, v13, v14, v15] s).getD 2 0, (rrP m [v0, v1, v2, v3, v4, v5, v6, v7, v8, v9, v10, v11, v12, v13, v14, v15] s).getD 3 0,
       (rrP m [v0, v1, v2, v3, v4, v5, v6, v7, v8, v9, v10, v11, v12, v13, v14, v15] s).getD 4 0, (rrP m [v0, v1, v2, v3, v4, v5, v6, v7, v8, v9, v10, v11, v12, v13, v14, v15] s).getD 5 0,
       (rrP m [v0, v1, v2, v3, v4, v5, v6, v7, v8, v9, v10, v11, v12, v13, v14, v15] s).getD 6 0, (rrP m [v0, v1, v2, v3, v4, v5, v6, v7, v8, v9, v10, v11, v12, v13, v14, v15] s).getD 7 0,
       (rrP m [v0, v1, v2, v3, v4, v5, v6, v7, v8, v9, v10, v11, v12, v13, v14, v15] s).getD 8 0, (rrP m [v0, v1, v2, v3, v4, v5, v6, v7, v8, v9, v10, v11, v12, v13, v14, v15] s).getD 9 0,
       (rrP m [v0, v1, v2, v3, v4, v5, v6, v7, v8, v9, v10, v11, v12, v13, v14, v15] s).getD 10 0, (rrP m [v0, v1, v2, v3, v4, v5, v6, v7, v8, v9, v10, v11, v12, v13, v14, v15] s).getD 11 0,
       (rrP m [v0, v1, v2, v3, v4, v5, v6, v7, v8, v9, v10, v11, v12, v13, v14, v15] s).getD 12 0, (rrP m [v0, v1, v2, v3, v4, v5, v6, v7, v8, v9, v10, v11, v12, v13, v14, v15] s).getD 13 0,
       (rrP m [v0, v1, v2, v3, v4, v5, v6, v7, v8, v9, v10, v11, v12, v13, v14, v15] s).getD 14 0, (rrP m [v0, v1, v2, v3, v4, v5, v6, v7, v8, v9, v10, v11, v12, v13, v14, v15] s).getD 15 0] :=
  list16_eta _ (by rw [rrP_length]; rfl)

theorem rrP_row0 (m0 m1 m2 m3 m4 m5 m6 m7 m8 m9 m10 m11 m12 m13 m14 m15 : Nat)
    (v : List Nat) :
    rrP [m0, m1, m2, m3, m4, m5, m6, m7, m8, m9, m10, m11, m12, m13, m14, m15] v [0, 1, 2, 3, 4, 5, 6, 7, 8, 9, 10, 11, 12, 13, 14, 15] =
      (gg (gg (gg (gg (gg (gg (gg (gg v 0 4 8 12 m0 m1) 1 5 9 13 m2 m3) 2 6 10 14 m4 m5) 3 7 11 15 m6 m7) 0 5 10 15 m8 m9) 1 6 11 12 m10 m11) 2 7 8 13 m12 m13) 3 4 9 14 m14 m15) := rfl

theorem roundS0 (m0 m1 m2 m3 m4 m5 m6 m7 m8 m9 m10 m11 m12 m13 m14 m15
    v0 v1 v2 v3 v4 v5 v6 v7 v8 v9 v10 v11 v12 v13 v14 v15 : Nat) :
    rrS (⟨m0, m2, m4, m6⟩, ⟨m1, m3, m5, m7⟩,
     ⟨m8, m10, m12, m14⟩, ⟨m9, m11, m13, m15⟩)
        (toV4 [v0, v1, v2, v3, v4, v5, v6, v7, v8, v9, v10, v11, v12, v13, v14, v15]) =
      toV4 (rrP [m0, m1, m2, m3, m4, m5, m6, m7, m8, m9, m10, m11, m12, m13, m14, m15] [v0, v1, v2, v3, v4, v5, v6, v7, v8, v9, v10, v11, v12, v13, v14, v15] [0, 1, 2, 3, 4, 5, 6, 7, 8, 9, 10, 11, 12, 13, 14, 15]) := by
  rw [rrS_split]
  rw [toV4_lit]
  rw [g4S_scalar]
  dsimp only
  rw [shuf39, shuf4E, shuf93]
  rw [g4S_scalar]
  dsimp only
  rw [shuf93, shuf4E, shuf39]
  rw [rrP_row0]
  rw [ggSV0, ggSV1, ggSV2, ggSV3, ggSV4, ggSV5, ggSV6, ggSV7]
  rw [toV4_lit]

theorem rrP_row1 (m0 m1 m2 m3 m4 m5 m6 m7 m8 m9 m10 m11 m12 m13 m14 m15 : Nat)
    (v : List Nat) :
    rrP [m0, m1, m2, m3, m4, m5, m6, m7, m8, m9, m10, m11, m12, m13, m14, m15] v [14, 10, 4, 8, 9, 15, 13, 6, 1, 12, 0, 2, 11, 7, 5, 3] =
      (gg (gg (gg (gg (gg (gg (gg (gg v 0 4 8 12 m14 m10) 1 5 9 13 m4 m8) 2 6 10 14 m9 m15) 3 7 11 15 m13 m6) 0 5 10 15 m1 m12) 1 6 11 12 m0 m2) 2 7 8 13 m11 m7) 3 4 9 14 m5 m3) := rfl

theorem roundS1 (m0 m1 m2 m3 m4 m5 m6 m7 m8 m9 m10 m11 m12 m13 m14 m15
    v0 v1 v2 v3 v4 v5 v6 v7 v8 v9 v10 v11 v12 v13 v14 v15 : Nat) :
    rrS (⟨m14, m4, m9, m13⟩, ⟨m10, m8, m15, m6⟩,
     ⟨m1, m0, m11, m5⟩, ⟨m12, m2, m7, m3⟩)
        (toV4 [v0, v1, v2, v3, v4, v5, v6, v7, v8, v9, v10, v11, v12, v13, v14, v15]) =
      toV4 (rrP [m0, m1, m2, m3, m4, m5, m6, m7, m8, m9, m10, m11, m12, m13, m14, m15] [v0, v1, v2, v3, v4, v5, v6, v7, v8, v9, v10, v11, v12, v13, v14, v15] [14, 10, 4, 8, 9, 15, 13, 6, 1, 12, 0, 2, 11, 7, 5, 3]) := by
  rw [rrS_split]
  rw [toV4_lit]
  rw [g4S_scalar]
  dsimp only
  rw [shuf39, shuf4E, shuf93]
  rw [g4S_scalar]
  dsimp only
  rw [shuf93, shuf4E, shuf39]
  rw [rrP_row1]
  rw [ggSV0, ggSV1, ggSV2, ggSV3, ggSV4, ggSV5, ggSV6, ggSV7]
  rw [toV4_lit]

theorem rrP_row2 (m0 m1 m2 m3 m4 m5 m6 m7 m8 m9 m10 m11 m12 m13 m14 m15 : Nat)
    (v : List Nat) :
    rrP [m0, m1, m2, m3, m4, m5, m6, m7, m8, m9, m10, m11, m12, m13, m14, m15] v [11, 8, 12, 0, 5, 2, 15, 13, 10, 14, 3, 6, 7, 1, 9, 4] =
      (gg (gg (gg (gg (gg (gg (gg (gg v 0 4 8 12 m11 m8) 1 5 9 13 m12 m0) 2 6 10 14 m5 m2) 3 7 11 15 m15 m13) 0 5 10 15 m10 m14) 1 6 11 12 m3 m6) 2 7 8 13 m7 m1) 3 4 9 14 m9 m4) := rfl

theorem roundS2 (m0 m1 m2 m3 m4 m5 m6 m7 m8 m9 m10 m11 m12 m13 m14 m15
    v0 v1 v2 v3 v4 v5 v6 v7 v8 v9 v10 v11 v12 v13 v14 v15 : Nat) :
    rrS (⟨m11, m12, m5, m15⟩, ⟨m8, m0, m2, m13⟩,
     ⟨m10, m3, m7, m9⟩, ⟨m14, m6, m1, m4⟩)
        (toV4 [v0, v1, v2, v3, v4, v5, v6, v7, v8, v9, v10, v11, v12, v13, v14, v15]) =
      toV4 (rrP [m0, m1, m2, m3, m4, m5, m6, m7, m8, m9, m10, m11, m12, m13, m14, m15] [v0, v1, v2, v3, v4, v5, v6, v7, v8, v9, v10, v11, v12, v13, v14, v15] [11, 8, 12, 0, 5, 2, 15, 13, 10, 14, 3, 6, 7, 1, 9, 4]) := by
  rw [rrS_split]
  rw [toV4_lit]
  rw [g4S_scalar]
  dsimp only
  rw [shuf39, shuf4E, shuf93]
  rw [g4S_scalar]
  dsimp only
  rw [shuf93, shuf4E, shuf39]
  rw [rrP_row2]
  rw [ggSV0, ggSV1, ggSV2, ggSV3, ggSV4, ggSV5, ggSV6, ggSV7]
  rw [toV4_lit]

theorem rrP_row3 (m0 m1 m2 m3 m4 m5 m6 m7 m8 m9 m10 m11 m12 m13 m14 m15 : Nat)
    (v : List Nat) :
    rrP [m0, m1, m2, m3, m4, m5, m6, m7, m8, m9, m10, m11, m12, m13, m14, m15] v [7, 9, 3, 1, 13, 12, 11, 14, 2, 6, 5, 10, 4, 0, 15, 8] =
      (gg (gg (gg (gg (gg (gg (gg (gg v 0 4 8 12 m7 m9) 1 5 9 13 m3 m1) 2 6 10 14 m13 m12) 3 7 11 15 m11 m14) 0 5 10 15 m2 m6) 1 6 11 12 m5 m10) 2 7 8 13 m4 m0) 3 4 9 14 m15 m8) := rfl

theorem roundS3 (m0 m1 m2 m3 m4 m5 m6 m7 m8 m9 m10 m11 m12 m13 m14 m15
    v0 v1 v2 v3 v4 v5 v6 v7 v8 v9 v10 v11 v12 v13 v14 v15 : Nat) :
    rrS (⟨m7, m3, m13, m11⟩, ⟨m9, m1, m12, m14⟩,
     ⟨m2, m5, m4, m15⟩, ⟨m6, m10, m0, m8⟩)
        (toV4 [v0, v1, v2, v3, v4, v5, v6, v7, v8, v9, v10, v11, v12, v13, v14, v15]) =
      toV4 (rrP [m0, m1, m2, m3, m4, m5, m6, m7, m8, m9, m10, m11, m12, m13, m14, m15] [v0, v1, v2, v3, v4, v5, v6, v7, v8, v9, v10, v11, v12, v13, v14, v15] [7, 9, 3, 1, 13, 12, 11, 14, 2, 6, 5, 10, 4, 0, 15, 8]) := by
  rw [rrS_split]
  rw [toV4_lit]
  rw [g4S_scalar]
  dsimp only
  rw [shuf39, shuf4E, shuf93]
  rw [g4S_scalar]
  dsimp only
  rw [shuf93, shuf4E, shuf39]
  rw [rrP_row3]
  rw [ggSV0, ggSV1, ggSV2, ggSV3, ggSV4, ggSV5, ggSV6, ggSV7]
  rw [toV4_lit]

theorem rrP_row4 (m0 m1 m2 m3 m4 m5 m6 m7 m8 m9 m10 m11 m12 m13 m14 m15 : Nat)
    (v : List Nat) :
    rrP [m0, m1, m2, m3, m4, m5, m6, m7, m8, m9, m10, m11, m12, m13, m14, m15] v [9, 0, 5, 7, 2, 4, 10, 15, 14, 1, 11, 12, 6, 8, 3, 13] =
      (gg (gg (gg (gg (gg (gg (gg (gg v 0 4 8 12 m9 m0) 1 5 9 13 m5 m7) 2 6 10 14 m2 m4) 3 7 11 15 m10 m15) 0 5 10 15 m14 m1) 1 6 11 12 m11 m12) 2 7 8 13 m6 m8) 3 4 9 14 m3 m13) := rfl

theorem roundS4 (m0 m1 m2 m3 m4 m5 m6 m7 m8 m9 m10 m11 m12 m13 m14 m15
    v0 v1 v2 v3 v4 v5 v6 v7 v8 v9 v10 v11 v12 v13 v14 v15 : Nat) :
    rrS (⟨m9, m5, m2, m10⟩, ⟨m0, m7, m4, m15⟩,
     ⟨m14, m11, m6, m3⟩, ⟨m1, m12, m8, m13⟩)
        (toV4 [v0, v1, v2, v3, v4, v5, v6, v7, v8, v9, v10, v11, v12, v13, v14, v15]) =
      toV4 (rrP [m0, m1, m2, m3, m4, m5, m6, m7, m8, m9, m10, m11, m12, m13, m14, m15] [v0, v1, v2, v3, v4, v5, v6, v7, v8, v9, v10, v11, v12, v13, v14, v15] [9, 0, 5, 7, 2, 4, 10, 15, 14, 1, 11, 12, 6, 8, 3, 13]) := by
  rw [rrS_split]
  rw [toV4_lit]
  rw [g4S_scalar]
  dsimp only
  rw [shuf39, shuf4E, shuf93]
  rw [g4S_scalar]
  dsimp only
  rw [shuf93, shuf4E, shuf39]
  rw [rrP_row4]
  rw [ggSV0, ggSV1, ggSV2, ggSV3, ggSV4, ggSV5, ggSV6, ggSV7]
  rw [toV4_lit]

theorem rrP_row5 (m0 m1 m2 m3 m4 m5 m6 m7 m8 m9 m10 m11 m12 m13 m14 m15 : Nat)
    (v : List Nat) :
    rrP [m0, m1, m2, m3, m4, m5, m6, m7, m8, m9, m10, m11, m12, m13, m14, m15] v [2, 12, 6, 10, 0, 11, 8, 3, 4, 13, 7, 5, 15, 14, 1, 9] =
      (gg (gg (gg (gg (gg (gg (gg (gg v 0 4 8 12 m2 m12) 1 5 9 13 m6 m10) 2 6 10 14 m0 m11) 3 7 11 15 m8 m3) 0 5 10 15 m4 m13) 1 6 11 12 m7 m5) 2 7 8 13 m15 m14) 3 4 9 14 m1 m9) := rfl

theorem roundS5 (m0 m1 m2 m3 m4 m5 m6 m7 m8 m9 m10 m11 m12 m13 m14 m15
    v0 v1 v2 v3 v4 v5 v6 v7 v8 v9 v10 v11 v12 v13 v14 v15 : Nat) :
    rrS (⟨m2, m6, m0, m8⟩, ⟨m12, m10, m11, m3⟩,
     ⟨m4, m7, m15, m1⟩, ⟨m13, m5, m14, m9⟩)
        (toV4 [v0, v1, v2, v3, v4, v5, v6, v7, v8, v9, v10, v11, v12, v13, v14, v15]) =
      toV4 (rrP [m0, m1, m2, m3, m4, m5, m6, m7, m8, m9, m10, m11, m12, m13, m14, m15] [v0, v1, v2, v3, v4, v5, v6, v7, v8, v9, v10, v11, v12, v13, v14, v15] [2, 12, 6, 10, 0, 11, 8, 3, 4, 13, 7, 5, 15, 14, 1, 9]) := by
  rw [rrS_split]
  rw [toV4_lit]
  rw [g4S_scalar]
  dsimp only
  rw [shuf39, shuf4E, shuf93]
  rw [g4S_scalar]
  dsimp only
  rw [shuf93, shuf4E, shuf39]
  rw [rrP_row5]
  rw [ggSV0, ggSV1, ggSV2, ggSV3, ggSV4, ggSV5, ggSV6, ggSV7]
  rw [toV4_lit]

theorem rrP_row6 (m0 m1 m2 m3 m4 m5 m6 m7 m8 m9 m10 m11 m12 m13 m14 m15 : Nat)
    (v : List Nat) :
    rrP [m0, m1, m2, m3, m4, m5, m6, m7, m8, m9, m10, m11, m12, m13, m14, m15] v [12, 5, 1, 15, 14, 13, 4, 10, 0, 7, 6, 3, 9, 2, 8, 11] =
      (gg (gg (gg (gg (gg (gg (gg (gg v 0 4 8 12 m12 m5) 1 5 9 13 m1 m15) 2 6 10 14 m14 m13) 3 7 11 15 m4 m10) 0 5 10 15 m0 m7) 1 6 11 12 m6 m3) 2 7 8 13 m9 m2) 3 4 9 14 m8 m11) := rfl

theorem roundS6 (m0 m1 m2 m3 m4 m5 m6 m7 m8 m9 m10 m11 m12 m13 m14 m15
    v0 v1 v2 v3 v4 v5 v6 v7 v8 v9 v10 v11 v12 v13 v14 v15 : Nat) :
    rrS (⟨m12, m1, m14, m4⟩, ⟨m5, m15, m13, m10⟩,
     ⟨m0, m6, m9, m8⟩, ⟨m7, m3, m2, m11⟩)
        (toV4 [v0, v1, v2, v3, v4, v5, v6, v7, v8, v9, v10, v11, v12, v13, v14, v15]) =
      toV4 (rrP [m0, m1, m2, m3, m4, m5, m6, m7, m8, m9, m10, m11, m12, m13, m14, m15] [v0, v1, v2, v3, v4, v5, v6, v7, v8, v9, v10, v11, v12, v13, v14, v15] [12, 5, 1, 15, 14, 13, 4, 10, 0, 7, 6, 3, 9, 2, 8, 11]) := by
  rw [rrS_split]
  rw [toV4_lit]
  rw [g4S_scalar]
  dsimp only
  rw [shuf39, shuf4E, shuf93]
  rw [g4S_scalar]
  dsimp only
  rw [shuf93, shuf4E, shuf39]
  rw [rrP_row6]
  rw [ggSV0, ggSV1, ggSV2, ggSV3, ggSV4, ggSV5, ggSV6, ggSV7]
  rw [toV4_lit]

theorem rrP_row7 (m0 m1 m2 m3 m4 m5 m6 m7 m8 m9 m10 m11 m12 m13 m14 m15 : Nat)
    (v : List Nat) :
    rrP [m0, m1, m2, m3, m4, m5, m6, m7, m8, m9, m10, m11, m12, m13, m14, m15] v [13, 11, 7, 14, 12, 1, 3, 9, 5, 0, 15, 4, 8, 6, 2, 10] =
      (gg (gg (gg (gg (gg (gg (gg (gg v 0 4 8 12 m13 m11) 1 5 9 13 m7 m14) 2 6 10 14 m12 m1) 3 7 11 15 m3 m9) 0 5 10 15 m5 m0) 1 6 11 12 m15 m4) 2 7 8 13 m8 m6) 3 4 9 14 m2 m10) := rfl

theorem roundS7 (m0 m1 m2 m3 m4 m5 m6 m7 m8 m9 m10 m11 m12 m13 m14 m15
    v0 v1 v2 v3 v4 v5 v6 v7 v8 v9 v10 v11 v12 v13 v14 v15 : Nat) :
    rrS (⟨m13, m7, m12, m3⟩, ⟨m11, m14, m1, m9⟩,
     ⟨m5, m15, m8, m2⟩, ⟨m0, m4, m6, m10⟩)
        (toV4 [v0, v1, v2, v3, v4, v5, v6, v7, v8, v9, v10, v11, v12, v13, v14, v15]) =
      toV4 (rrP [m0, m1, m2, m3, m4, m5, m6, m7, m8, m9, m10, m11, m12, m13, m14, m15] [v0, v1, v2, v3, v4, v5, v6, v7, v8, v9, v10, v11, v12, v13, v14, v15] [13, 11, 7, 14, 12, 1, 3, 9, 5, 0, 15, 4, 8, 6, 2, 10]) := by
  rw [rrS_split]
  rw [toV4_lit]
  rw [g4S_scalar]
  dsimp only
  rw [shuf39, shuf4E, shuf93]
  rw [g4S_scalar]
  dsimp only
  rw [shuf93, shuf4E, shuf39]
  rw [rrP_row7]
  rw [ggSV0, ggSV1, ggSV2, ggSV3, ggSV4, ggSV5, ggSV6, ggSV7]
  rw [toV4_lit]

theorem rrP_row8 (m0 m1 m2 m3 m4 m5 m6 m7 m8 m9 m10 m11 m12 m13 m14 m15 : Nat)
    (v : List Nat) :
    rrP [m0, m1, m2, m3, m4, m5, m6, m7, m8, m9, m10, m11, m12, m13, m14, m15] v [6, 15, 14, 9, 11, 3, 0, 8, 12, 2, 13, 7, 1, 4, 10, 5] =
      (gg (gg (gg (gg (gg (gg (gg (gg v 0 4 8 12 m6 m15) 1 5 9 13 m14 m9) 2 6 10 14 m11 m3) 3 7 11 15 m0 m8) 0 5 10 15 m12 m2) 1 6 11 12 m13 m7) 2 7 8 13 m1 m4) 3 4 9 14 m10 m5) := rfl

theorem roundS8 (m0 m1 m2 m3 m4 m5 m6 m7 m8 m9 m10 m11 m12 m13 m14 m15
    v0 v1 v2 v3 v4 v5 v6 v7 v8 v9 v10 v11 v12 v13 v14 v15 : Nat) :
    rrS (⟨m6, m14, m11, m0⟩, ⟨m15, m9, m3, m8⟩,
     ⟨m12, m13, m1, m10⟩, ⟨m2, m7, m4, m5⟩)
        (toV4 [v0, v1, v2, v3, v4, v5, v6, v7, v8, v9, v10, v11, v12, v13, v14, v15]) =
      toV4 (rrP [m0, m1, m2, m3, m4, m5, m6, m7, m8, m9, m10, m11, m12, m13, m14, m15] [v0, v1, v2, v3, v4, v5, v6, v7, v8, v9, v10, v11, v12, v13, v14, v15] [6, 15, 14, 9, 11, 3, 0, 8, 12, 2, 13, 7, 1, 4, 10, 5]) := by
  rw [rrS_split]
  rw [toV4_lit]
  rw [g4S_scalar]
  dsimp only
  rw [shuf39, shuf4E, shuf93]
  rw [g4S_scalar]
  dsimp only
  rw [shuf93, shuf4E, shuf39]
  rw [rrP_row8]
  rw [ggSV0, ggSV1, ggSV2, ggSV3, ggSV4, ggSV5, ggSV6, ggSV7]
  rw [toV4_lit]

theorem rrP_row9 (m0 m1 m2 m3 m4 m5 m6 m7 m8 m9 m10 m11 m12 m13 m14 m15 : Nat)
    (v : List Nat) :
    rrP [m0, m1, m2, m3, m4, m5, m6, m7, m8, m9, m10, m11, m12, m13, m14, m15] v [10, 2, 8, 4, 7, 6, 1, 5, 15, 11, 9, 14, 3, 12, 13, 0] =
      (gg (gg (gg (gg (gg (gg (gg (gg v 0 4 8 12 m10 m2) 1 5 9 13 m8 m4) 2 6 10 14 m7 m6) 3 7 11 15 m1 m5) 0 5 10 15 m15 m11) 1 6 11 12 m9 m14) 2 7 8 13 m3 m12) 3 4 9 14 m13 m0) := rfl

theorem roundS9 (m0 m1 m2 m3 m4 m5 m6 m7 m8 m9 m10 m11 m12 m13 m14 m15
    v0 v1 v2 v3 v4 v5 v6 v7 v8 v9 v10 v11 v12 v13 v14 v15 : Nat) :
    rrS (⟨m10, m8, m7, m1⟩, ⟨m2, m4, m6, m5⟩,
     ⟨m15, m9, m3, m13⟩, ⟨m11, m14, m12, m0⟩)
        (toV4 [v0, v1, v2, v3, v4, v5, v6, v7, v8, v9, v10, v11, v12, v13, v14, v15]) =
      toV4 (rrP [m0, m1, m2, m3, m4, m5, m6, m7, m8, m9, m10, m11, m12, m13, m14, m15] [v0, v1, v2, v3, v4, v5, v6, v7, v8, v9, v10, v11, v12, v13, v14, v15] [10, 2, 8, 4, 7, 6, 1, 5, 15, 11, 9, 14, 3, 12, 13, 0]) := by
  rw [rrS_split]
  rw [toV4_lit]
  rw [g4S_scalar]
  dsimp only
  rw [shuf39, shuf4E, shuf93]
  rw [g4S_scalar]
  dsimp only
  rw [shuf93, shuf4E, shuf39]
  rw [rrP_row9]
  rw [ggSV0, ggSV1, ggSV2, ggSV3, ggSV4, ggSV5, ggSV6, ggSV7]
  rw [toV4_lit]

theorem g4A_eq_g4S (xx xy : V128) (w : V4) (h3 : boundedV w.2.2.2) :
    g4A xx xy w = g4S xx xy w := by
  obtain ⟨v0, v1, v2, v3⟩ := w
  simp only [g4A, g4S]
  rw [shuffle16_eq _ (bounded_xor _ _ (bounded_add _ _) h3)]
  rw [shuffle8_eq _ (bounded_xor _ _ (bounded_add _ _)
    (bounded_orshift _ _ _ (bounded_xor _ _ (bounded_add _ _) h3)))]

theorem g4S_xv3_bounded (xx xy : V128) (w : V4) (h3 : boundedV w.2.2.2) :
    boundedV (g4S xx xy w).2.2.2 := by
  obtain ⟨v0, v1, v2, v3⟩ := w
  exact bounded_orshift _ _ _ (bounded_xor _ _ (bounded_add _ _)
    (bounded_orshift _ _ _ (bounded_xor _ _ (bounded_add _ _) h3)))

theorem rrA_eq_rrS (mi w : V4) (h3 : boundedV w.2.2.2) : rrA mi w = rrS mi w := by
  obtain ⟨xi0, xi1, xi2, xi3⟩ := mi
  simp only [rrA, rrS]
  rw [g4A_eq_g4S _ _ _ h3]
  rw [g4A_eq_g4S _ _ _
    (bounded_shuffle32 _ (g4S_xv3_bounded _ _ _ h3) _)]

theorem rrA_xv3_bounded (mi w : V4) : boundedV (rrA mi w).2.2.2 := by
  obtain ⟨xi0, xi1, xi2, xi3⟩ := mi
  obtain ⟨v0, v1, v2, v3⟩ := w
  exact bounded_shuffle32 _ (bounded_shuffle8 _ _) _

theorem getD10_0 (a0 a1 a2 a3 a4 a5 a6 a7 a8 a9 : V4) :
    [a0, a1, a2, a3, a4, a5, a6, a7, a8, a9].getD 0 mzero = a0 := rfl

theorem getD10_1 (a0 a1 a2 a3 a4 a5 a6 a7 a8 a9 : V4) :
    [a0, a1, a2, a3, a4, a5, a6, a7, a8, a9].getD 1 mzero = a1 := rfl

theorem getD10_2 (a0 a1 a2 a3 a4 a5 a6 a7 a8 a9 : V4) :
    [a0, a1, a2, a3, a4, a5, a6, a7, a8, a9].getD 2 mzero = a2 := rfl

theorem getD10_3 (a0 a1 a2 a3 a4 a5 a6 a7 a8 a9 : V4) :
    [a0, a1, a2, a3, a4, a5, a6, a7, a8, a9].getD 3 mzero = a3 := rfl

theorem getD10_4 (a0 a1 a2 a3 a4 a5 a6 a7 a8 a9 : V4) :
    [a0, a1, a2, a3, a4, a5, a6, a7, a8, a9].getD 4 mzero = a4 := rfl

theorem getD10_5 (a0 a1 a2 a3 a4 a5 a6 a7 a8 a9 : V4) :
    [a0, a1, a2, a3, a4, a5, a6, a7, a8, a9].getD 5 mzero = a5 := rfl

theorem getD10_6 (a0 a1 a2 a3 a4 a5 a6 a7 a8 a9 : V4) :
    [a0, a1, a2, a3, a4, a5, a6, a7, a8, a9].getD 6 mzero = a6 := rfl

theorem getD10_7 (a0 a1 a2 a3 a4 a5 a6 a7 a8 a9 : V4) :
    [a0, a1, a2, a3, a4, a5, a6, a7, a8, a9].getD 7 mzero = a7 := rfl

theorem getD10_8 (a0 a1 a2 a3 a4 a5 a6 a7 a8 a9 : V4) :
    [a0, a1, a2, a3, a4, a5, a6, a7, a8, a9].getD 8 mzero = a8 := rfl

theorem getD10_9 (a0 a1 a2 a3 a4 a5 a6 a7 a8 a9 : V4) :
    [a0, a1, a2, a3, a4, a5, a6, a7, a8, a9].getD 9 mzero = a9 := rfl

theorem store_out (h : List Nat) (w0 w1 w2 w3 w4 w5 w6 w7 w8 w9 w10 w11 w12 w13 w14 w15 : Nat) :
    storeV4 h (toV4 [w0, w1, w2, w3, w4, w5, w6, w7, w8, w9, w10, w11, w12, w13, w14, w15]) = outList h [w0, w1, w2, w3, w4, w5, w6, w7, w8, w9, w10, w11, w12, w13, w14, w15] := by
  show [h.getD 0 0 ^^^ (w0 ^^^ w8), h.getD 1 0 ^^^ (w1 ^^^ w9), h.getD 2 0 ^^^ (w2 ^^^ w10), h.getD 3 0 ^^^ (w3 ^^^ w11),
       h.getD 4 0 ^^^ (w4 ^^^ w12), h.getD 5 0 ^^^ (w5 ^^^ w13), h.getD 6 0 ^^^ (w6 ^^^ w14), h.getD 7 0 ^^^ (w7 ^^^ w15)]
    = [h.getD 0 0 ^^^ w0 ^^^ w8, h.getD 1 0 ^^^ w1 ^^^ w9, h.getD 2 0 ^^^ w2 ^^^ w10, h.getD 3 0 ^^^ w3 ^^^ w11,
       h.getD 4 0 ^^^ w4 ^^^ w12, h.getD 5 0 ^^^ w5 ^^^ w13, h.getD 6 0 ^^^ w6 ^^^ w14, h.getD 7 0 ^^^ w7 ^^^ w15]
  simp only [Nat.xor_assoc]

theorem loadMsg_eq (block : List Nat) :
    loadMsg block = (⟨wordLE block 0, wordLE block 8, wordLE block 16, wordLE block 24⟩,
        ⟨wordLE block 4, wordLE block 12, wordLE block 20, wordLE block 28⟩,
        ⟨wordLE block 32, wordLE block 40, wordLE block 48, wordLE block 56⟩,
        ⟨wordLE block 36, wordLE block 44, wordLE block 52, wordLE block 60⟩) := rfl

theorem schedA1_eq (m0 m1 m2 m3 m4 m5 m6 m7 m8 m9 m10 m11 m12 m13 m14 m15 : Nat) :
    schedA1 (⟨m0, m2, m4, m6⟩, ⟨m1, m3, m5, m7⟩,
     ⟨m8, m10, m12, m14⟩, ⟨m9, m11, m13, m15⟩) =
      (⟨m14, m4, m9, m13⟩, ⟨m10, m8, m15, m6⟩,
     ⟨m1, m0, m11, m5⟩, ⟨m12, m2, m7, m3⟩) := rfl

theorem schedA2_eq (m0 m1 m2 m3 m4 m5 m6 m7 m8 m9 m10 m11 m12 m13 m14 m15 : Nat) :
    schedA2 (⟨m14, m4, m9, m13⟩, ⟨m10, m8, m15, m6⟩,
     ⟨m1, m0, m11, m5⟩, ⟨m12, m2, m7, m3⟩) =
      (⟨m11, m12, m5, m15⟩, ⟨m8, m0, m2, m13⟩,
     ⟨m10, m3, m7, m9⟩, ⟨m14, m6, m1, m4⟩) := rfl

theorem schedA3_eq (m0 m1 m2 m3 m4 m5 m6 m7 m8 m9 m10 m11 m12 m13 m14 m15 : Nat) :
    schedA3 (⟨m11, m12, m5, m15⟩, ⟨m8, m0, m2, m13⟩,
     ⟨m10, m3, m7, m9⟩, ⟨m14, m6, m1, m4⟩) =
      (⟨m7, m3, m13, m11⟩, ⟨m9, m1, m12, m14⟩,
     ⟨m2, m5, m4, m15⟩, ⟨m6, m10, m0, m8⟩) := rfl

theorem schedA4_eq (m0 m1 m2 m3 m4 m5 m6 m7 m8 m9 m10 m11 m12 m13 m14 m15 : Nat) :
    schedA4 (⟨m7, m3, m13, m11⟩, ⟨m9, m1, m12, m14⟩,
     ⟨m2, m5, m4, m15⟩, ⟨m6, m10, m0, m8⟩) =
      (⟨m9, m5, m2, m10⟩, ⟨m0, m7, m4, m15⟩,
     ⟨m14, m11, m6, m3⟩, ⟨m1, m12, m8, m13⟩) := rfl

theorem schedA5_eq (m0 m1 m2 m3 m4 m5 m6 m7 m8 m9 m10 m11 m12 m13 m14 m15 : Nat) :
    schedA5 (⟨m9, m5, m2, m10⟩, ⟨m0, m7, m4, m15⟩,
     ⟨m14, m11, m6, m3⟩, ⟨m1, m12, m8, m13⟩) =
      (⟨m2, m6, m0, m8⟩, ⟨m12, m10, m11, m3⟩,
     ⟨m4, m7, m15, m1⟩, ⟨m13, m5, m14, m9⟩) := rfl

theorem schedA6_eq (m0 m1 m2 m3 m4 m5 m6 m7 m8 m9 m10 m11 m12 m13 m14 m15 : Nat) :
    schedA6 (⟨m2, m6, m0, m8⟩, ⟨m12, m10, m11, m3⟩,
     ⟨m4, m7, m15, m1⟩, ⟨m13, m5, m14, m9⟩) =
      (⟨m12, m1, m14, m4⟩, ⟨m5, m15, m13, m10⟩,
     ⟨m0, m6, m9, m8⟩, ⟨m7, m3, m2, m11⟩) := rfl

theorem schedA7_eq (m0 m1 m2 m3 m4 m5 m6 m7 m8 m9 m10 m11 m12 m13 m14 m15 : Nat) :
    schedA7 (⟨m12, m1, m14, m4⟩, ⟨m5, m15, m13, m10⟩,
     ⟨m0, m6, m9, m8⟩, ⟨m7, m3, m2, m11⟩) =
      (⟨m13, m7, m12, m3⟩, ⟨m11, m14, m1, m9⟩,
     ⟨m5, m15, m8, m2⟩, ⟨m0, m4, m6, m10⟩) := rfl

theorem schedA8_eq (m0 m1 m2 m3 m4 m5 m6 m7 m8 m9 m10 m11 m12 m13 m14 m15 : Nat) :
    schedA8 (⟨m13, m7, m12, m3⟩, ⟨m11, m14, m1, m9⟩,
     ⟨m5, m15, m8, m2⟩, ⟨m0, m4, m6, m10⟩) =
      (⟨m6, m14, m11, m0⟩, ⟨m15, m9, m3, m8⟩,
     ⟨m12, m13, m1, m10⟩, ⟨m2, m7, m4, m5⟩) := rfl

theorem schedA9_eq (m0 m1 m2 m3 m4 m5 m6 m7 m8 m9 m10 m11 m12 m13 m14 m15 : Nat) :
    schedA9 (⟨m6, m14, m11, m0⟩, ⟨m15, m9, m3, m8⟩,
     ⟨m12, m13, m1, m10⟩, ⟨m2, m7, m4, m5⟩) =
      (⟨m10, m8, m7, m1⟩, ⟨m2, m4, m6, m5⟩,
     ⟨m15, m9, m3, m13⟩, ⟨m11, m14, m12, m0⟩) := rfl

theorem initV4_eq (h : List Nat) (ctr : Nat) (last : Bool) :
    initV4 h ctr last =
      toV4 [h.getD 0 0, h.getD 1 0, h.getD 2 0, h.getD 3 0,
       h.getD 4 0, h.getD 5 0, h.getD 6 0, h.getD 7 0,
       1779033703, 3144134277, 1013904242, 2773480762,
       1359893119 ^^^ ctr % 2 ^ 32, 2600822924 ^^^ (ctr >>> 32) % 2 ^ 32,
       528734635 ^^^ (if last then 4294967295 else 0), 1541459225] := by
  rw [show initV4 h ctr last =
      (⟨h.getD 0 0, h.getD 1 0, h.getD 2 0, h.getD 3 0⟩,
       ⟨h.getD 4 0, h.getD 5 0, h.getD 6 0, h.getD 7 0⟩,
       ⟨1779033703, 3144134277, 1013904242, 2773480762⟩,
       ⟨1359893119 ^^^ ctr % 2 ^ 32, 2600822924 ^^^ (ctr >>> 32) % 2 ^ 32,
        528734635 ^^^ (if last then 4294967295 else 0), 1541459225 ^^^ 0⟩) from rfl]
  rw [Nat.xor_zero]
  rw [← toV4_lit]

theorem initP_eq (h : List Nat) (ctr : Nat) (last : Bool) :
    (if last then ((([h.getD 0 0, h.getD 1 0, h.getD 2 0, h.getD 3 0,
          h.getD 4 0, h.getD 5 0, h.getD 6 0, h.getD 7 0] ++ IV).set 12
        (([h.getD 0 0, h.getD 1 0, h.getD 2 0, h.getD 3 0,
          h.getD 4 0, h.getD 5 0, h.getD 6 0, h.getD 7 0] ++ IV).getD 12 0 ^^^ ctr % 2 ^ 32)).set 13
        ((([h.getD 0 0, h.getD 1 0, h.getD 2 0, h.getD 3 0,
          h.getD 4 0, h.getD 5 0, h.getD 6 0, h.getD 7 0] ++ IV).set 12
        (([h.getD 0 0, h.getD 1 0, h.getD 2 0, h.getD 3 0,
          h.getD 4 0, h.getD 5 0, h.getD 6 0, h.getD 7 0] ++ IV).getD 12 0 ^^^ ctr % 2 ^ 32)).getD 13 0 ^^^ (ctr >>> 32) % 2 ^ 32)).set 14
        (((([h.getD 0 0, h.getD 1 0, h.getD 2 0, h.getD 3 0,
          h.getD 4 0, h.getD 5 0, h.getD 6 0, h.getD 7 0] ++ IV).set 12
        (([h.getD 0 0, h.getD 1 0, h.getD 2 0, h.getD 3 0,
          h.getD 4 0, h.getD 5 0, h.getD 6 0, h.getD 7 0] ++ IV).getD 12 0 ^^^ ctr % 2 ^ 32)).set 13
        ((([h.getD 0 0, h.getD 1 0, h.getD 2 0, h.getD 3 0,
          h.getD 4 0, h.getD 5 0, h.getD 6 0, h.getD 7 0] ++ IV).set 12
        (([h.getD 0 0, h.getD 1 0, h.getD 2 0, h.getD 3 0,
          h.getD 4 0, h.getD 5 0, h.getD 6 0, h.getD 7 0] ++ IV).getD 12 0 ^^^ ctr % 2 ^ 32)).getD 13 0 ^^^ (ctr >>> 32) % 2 ^ 32)).getD 14 0 ^^^ 4294967295)
      else ((([h.getD 0 0, h.getD 1 0, h.getD 2 0, h.getD 3 0,
          h.getD 4 0, h.getD 5 0, h.getD 6 0, h.getD 7 0] ++ IV).set 12
        (([h.getD 0 0, h.getD 1 0, h.getD 2 0, h.getD 3 0,
          h.getD 4 0, h.getD 5 0, h.getD 6 0, h.getD 7 0] ++ IV).getD 12 0 ^^^ ctr % 2 ^ 32)).set 13
        ((([h.getD 0 0, h.getD 1 0, h.getD 2 0, h.getD 3 0,
          h.getD 4 0, h.getD 5 0, h.getD 6 0, h.getD 7 0] ++ IV).set 12
        (([h.getD 0 0, h.getD 1 0, h.getD 2 0, h.getD 3 0,
          h.getD 4 0, h.getD 5 0, h.getD 6 0, h.getD 7 0] ++ IV).getD 12 0 ^^^ ctr % 2 ^ 32)).getD 13 0 ^^^ (ctr >>> 32) % 2 ^ 32)))
    = [h.getD 0 0, h.getD 1 0, h.getD 2 0, h.getD 3 0,
       h.getD 4 0, h.getD 5 0, h.getD 6 0, h.getD 7 0,
       1779033703, 3144134277, 1013904242, 2773480762,
       1359893119 ^^^ ctr % 2 ^ 32, 2600822924 ^^^ (ctr >>> 32) % 2 ^ 32,
       528734635 ^^^ (if last then 4294967295 else 0), 1541459225] := by
  cases last <;> rfl

theorem process_block_shape (h block : List Nat) (ctr : Nat) (last : Bool) :
    process_block h block ctr last =
      outList h
      (rrP (msgWords block)
      (rrP (msgWords block)
      (rrP (msgWords block)
      (rrP (msgWords block)
      (rrP (msgWords block)
      (rrP (msgWords block)
      (rrP (msgWords block)
      (rrP (msgWords block)
      (rrP (msgWords block)
      (rrP (msgWords block)
      
      [h.getD 0 0, h.getD 1 0, h.getD 2 0, h.getD 3 0,
       h.getD 4 0, h.getD 5 0, h.getD 6 0, h.getD 7 0,
       1779033703, 3144134277, 1013904242, 2773480762,
       1359893119 ^^^ ctr % 2 ^ 32, 2600822924 ^^^ (ctr >>> 32) % 2 ^ 32,
       528734635 ^^^ (if last then 4294967295 else 0), 1541459225] [0, 1, 2, 3, 4, 5, 6, 7, 8, 9, 10, 11, 12, 13, 14, 15]) [14, 10, 4, 8, 9, 15, 13, 6, 1, 12, 0, 2, 11, 7, 5, 3]) [11, 8, 12, 0, 5, 2, 15, 13, 10, 14, 3, 6, 7, 1, 9, 4]) [7, 9, 3, 1, 13, 12, 11, 14, 2, 6, 5, 10, 4, 0, 15, 8]) [9, 0, 5, 7, 2, 4, 10, 15, 14, 1, 11, 12, 6, 8, 3, 13]) [2, 12, 6, 10, 0, 11, 8, 3, 4, 13, 7, 5, 15, 14, 1, 9]) [12, 5, 1, 15, 14, 13, 4, 10, 0, 7, 6, 3, 9, 2, 8, 11]) [13, 11, 7, 14, 12, 1, 3, 9, 5, 0, 15, 4, 8, 6, 2, 10]) [6, 15, 14, 9, 11, 3, 0, 8, 12, 2, 13, 7, 1, 4, 10, 5]) [10, 2, 8, 4, 7, 6, 1, 5, 15, 11, 9, 14, 3, 12, 13, 0]) := by
  simp only [process_block]
  rw [initP_eq]
  simp only [SIGMA, List.foldl_cons, List.foldl_nil]
  rfl

theorem avx2_shape (h block : List Nat) (ctr : Nat) (last : Bool) :
    avx2_process_block h block ctr last =
      storeV4 h
      (rrA (⟨wordLE block 40, wordLE block 32, wordLE block 28, wordLE block 4⟩,
         ⟨wordLE block 8, wordLE block 16, wordLE block 24, wordLE block 20⟩,
         ⟨wordLE block 60, wordLE block 36, wordLE block 12, wordLE block 52⟩,
         ⟨wordLE block 44, wordLE block 56, wordLE block 48, wordLE block 0⟩)
      (rrA (⟨wordLE block 24, wordLE block 56, wordLE block 44, wordLE block 0⟩,
         ⟨wordLE block 60, wordLE block 36, wordLE block 12, wordLE block 32⟩,
         ⟨wordLE block 48, wordLE block 52, wordLE block 4, wordLE block 40⟩,
         ⟨wordLE block 8, wordLE block 28, wordLE block 16, wordLE block 20⟩)
      (rrA (⟨wordLE block 52, wordLE block 28, wordLE block 48, wordLE block 12⟩,
         ⟨wordLE block 44, wordLE block 56, wordLE block 4, wordLE block 36⟩,
         ⟨wordLE block 20, wordLE block 60, wordLE block 32, wordLE block 8⟩,
         ⟨wordLE block 0, wordLE block 16, wordLE block 24, wordLE block 40⟩)
      (rrA (⟨wordLE block 48, wordLE block 4, wordLE block 56, wordLE block 16⟩,
         ⟨wordLE block 20, wordLE block 60, wordLE block 52, wordLE block 40⟩,
         ⟨wordLE block 0, wordLE block 24, wordLE block 36, wordLE block 32⟩,
         ⟨wordLE block 28, wordLE block 12, wordLE block 8, wordLE block 44⟩)
      (rrA (⟨wordLE block 8, wordLE block 24, wordLE block 0, wordLE block 32⟩,
         ⟨wordLE block 48, wordLE block 40, wordLE block 44, wordLE block 12⟩,
         ⟨wordLE block 16, wordLE block 28, wordLE block 60, wordLE block 4⟩,
         ⟨wordLE block 52, wordLE block 20, wordLE block 56, wordLE block 36⟩)
      (rrA (⟨wordLE block 36, wordLE block 20, wordLE block 8, wordLE block 40⟩,
         ⟨wordLE block 0, wordLE block 28, wordLE block 16, wordLE block 60⟩,
         ⟨wordLE block 56, wordLE block 44, wordLE block 24, wordLE block 12⟩,
         ⟨wordLE block 4, wordLE block 48, wordLE block 32, wordLE block 52⟩)
      (rrA (⟨wordLE block 28, wordLE block 12, wordLE block 52, wordLE block 44⟩,
         ⟨wordLE block 36, wordLE block 4, wordLE block 48, wordLE block 56⟩,
         ⟨wordLE block 8, wordLE block 20, wordLE block 16, wordLE block 60⟩,
         ⟨wordLE block 24, wordLE block 40, wordLE block 0, wordLE block 32⟩)
      (rrA (⟨wordLE block 44, wordLE block 48, wordLE block 20, wordLE block 60⟩,
         ⟨wordLE block 32, wordLE block 0, wordLE block 8, wordLE block 52⟩,
         ⟨wordLE block 40, wordLE block 12, wordLE block 28, wordLE block 36⟩,
         ⟨wordLE block 56, wordLE block 24, wordLE block 4, wordLE block 16⟩)
      (rrA (⟨wordLE block 56, wordLE block 16, wordLE block 36, wordLE block 52⟩,
         ⟨wordLE block 40, wordLE block 32, wordLE block 60, wordLE block 24⟩,
         ⟨wordLE block 4, wordLE block 0, wordLE block 44, wordLE block 20⟩,
         ⟨wordLE block 48, wordLE block 8, wordLE block 28, wordLE block 12⟩)
      (rrA (⟨wordLE block 0, wordLE block 8, wordLE block 16, wordLE block 24⟩,
         ⟨wordLE block 4, wordLE block 12, wordLE block 20, wordLE block 28⟩,
         ⟨wordLE block 32, wordLE block 40, wordLE block 48, wordLE block 56⟩,
         ⟨wordLE block 36, wordLE block 44, wordLE block 52, wordLE block 60⟩)
      (toV4 [h.getD 0 0, h.getD 1 0, h.getD 2 0, h.getD 3 0,
       h.getD 4 0, h.getD 5 0, h.getD 6 0, h.getD 7 0,
       1779033703, 3144134277, 1013904242, 2773480762,
       1359893119 ^^^ ctr % 2 ^ 32, 2600822924 ^^^ (ctr >>> 32) % 2 ^ 32,
       528734635 ^^^ (if last then 4294967295 else 0), 1541459225]))))))))))) := by
  simp only [avx2_process_block, msgsA]
  rw [loadMsg_eq]
  rw [schedA1_eq]
  rw [schedA2_eq]
  rw [schedA3_eq]
  rw [schedA4_eq]
  rw [schedA5_eq]
  rw [schedA6_eq]
  rw [schedA7_eq]
  rw [schedA8_eq]
  rw [schedA9_eq]
  rw [getD10_0, getD10_1, getD10_2, getD10_3, getD10_4, getD10_5,
    getD10_6, getD10_7, getD10_8, getD10_9]
  rw [initV4_eq]

theorem sse2_shape (h block : List Nat) (ctr : Nat) (last : Bool) :
    sse2_process_block h block ctr last =
      storeV4 h
      (rrS ((msgsS block).getD 9 mzero)
      (rrS ((msgsS block).getD 8 mzero)
      (rrS ((msgsS block).getD 7 mzero)
      (rrS ((msgsS block).getD 6 mzero)
      (rrS ((msgsS block).getD 5 mzero)
      (rrS ((msgsS block).getD 4 mzero)
      (rrS ((msgsS block).getD 3 mzero)
      (rrS ((msgsS block).getD 2 mzero)
      (rrS ((msgsS block).getD 1 mzero)
      (rrS ((msgsS block).getD 0 mzero)
      (toV4 [h.getD 0 0, h.getD 1 0, h.getD 2 0, h.getD 3 0,
       h.getD 4 0, h.getD 5 0, h.getD 6 0, h.getD 7 0,
       1779033703, 3144134277, 1013904242, 2773480762,
       1359893119 ^^^ ctr % 2 ^ 32, 2600822924 ^^^ (ctr >>> 32) % 2 ^ 32,
       528734635 ^^^ (if last then 4294967295 else 0), 1541459225]))))))))))) := by
  simp only [sse2_process_block]
  rw [initV4_eq]

theorem rrP_entries (m s : List Nat) (v0 v1 v2 v3 v4 v5 v6 v7 v8 v9 v10 v11 v12 v13 v14 v15 : Nat) :
    ∃ c0 c1 c2 c3 c4 c5 c6 c7 c8 c9 c10 c11 c12 c13 c14 c15,
      rrP m [v0, v1, v2, v3, v4, v5, v6, v7, v8, v9, v10, v11, v12, v13, v14, v15] s = [c0, c1, c2, c3, c4, c5, c6, c7, c8, c9, c10, c11, c12, c13, c14, c15] :=
  ⟨_, _, _, _, _, _, _, _, _, _, _, _, _, _, _, _, rrP_expand16 m s v0 v1 v2 v3 v4 v5 v6 v7 v8 v9 v10 v11 v12 v13 v14 v15⟩

set_option maxHeartbeats 1000000 in
theorem avx2_process_block_eq (h block : List Nat) (ctr : Nat) (last : Bool) :
    avx2_process_block h block ctr last = process_block h block ctr last := by
  have hb0 : boundedV (toV4 [h.getD 0 0, h.getD 1 0, h.getD 2 0, h.getD 3 0,
       h.getD 4 0, h.getD 5 0, h.getD 6 0, h.getD 7 0,
       1779033703, 3144134277, 1013904242, 2773480762,
       1359893119 ^^^ ctr % 2 ^ 32, 2600822924 ^^^ (ctr >>> 32) % 2 ^ 32,
       528734635 ^^^ (if last then 4294967295 else 0), 1541459225]).2.2.2 := by
    refine ⟨?_, ?_, ?_, ?_⟩
    · show 1359893119 ^^^ ctr % 2 ^ 32 < 2 ^ 32
      exact Nat.xor_lt_two_pow (by norm_num) (Nat.mod_lt _ (by norm_num))
    · show 2600822924 ^^^ (ctr >>> 32) % 2 ^ 32 < 2 ^ 32
      exact Nat.xor_lt_two_pow (by norm_num) (Nat.mod_lt _ (by norm_num))
    · show 528734635 ^^^ (if last then 4294967295 else 0) < 2 ^ 32
      exact Nat.xor_lt_two_pow (by norm_num) (by cases last <;> norm_num)
    · show 1541459225 < 2 ^ 32
      norm_num
  rw [avx2_shape, process_block_shape]
  rw [show msgWords block = [wordLE block 0, wordLE block 4, wordLE block 8, wordLE block 12, wordLE block 16, wordLE block 20, wordLE block 24, wordLE block 28, wordLE block 32, wordLE block 36, wordLE block 40, wordLE block 44, wordLE block 48, wordLE block 52, wordLE block 56, wordLE block 60] from rfl]
  rw [rrA_eq_rrS _ _ (rrA_xv3_bounded _ _)]
  rw [rrA_eq_rrS _ _ (rrA_xv3_bounded _ _)]
  rw [rrA_eq_rrS _ _ (rrA_xv3_bounded _ _)]
  rw [rrA_eq_rrS _ _ (rrA_xv3_bounded _ _)]
  rw [rrA_eq_rrS _ _ (rrA_xv3_bounded _ _)]
  rw [rrA_eq_rrS _ _ (rrA_xv3_bounded _ _)]
  rw [rrA_eq_rrS _ _ (rrA_xv3_bounded _ _)]
  rw [rrA_eq_rrS _ _ (rrA_xv3_bounded _ _)]
  rw [rrA_eq_rrS _ _ (rrA_xv3_bounded _ _)]
  rw [rrA_eq_rrS _ _ hb0]
  obtain ⟨v0, v1, v2, v3, v4, v5, v6, v7, v8, v9, v10, v11, v12, v13, v14, v15, hI⟩ :
      ∃ c0 c1 c2 c3 c4 c5 c6 c7 c8 c9 c10 c11 c12 c13 c14 c15,
        ([h.getD 0 0,
         h.getD 1 0,
         h.getD 2 0,
         h.getD 3 0,
         h.getD 4 0,
         h.getD 5 0,
         h.getD 6 0,
         h.getD 7 0,
         1779033703,
         3144134277,
         1013904242,
         2773480762,
         1359893119 ^^^ ctr % 2 ^ 32,
         2600822924 ^^^ (ctr >>> 32) % 2 ^ 32,
         528734635 ^^^ (if last then 4294967295 else 0),
         1541459225] : List Nat) = [c0, c1, c2, c3, c4, c5, c6, c7, c8, c9, c10, c11, c12, c13, c14, c15] :=
    ⟨_, _, _, _, _, _, _, _, _, _, _, _, _, _, _, _, rfl⟩
  rw [hI]
  rw [roundS0]
  obtain ⟨w0x0, w0x1, w0x2, w0x3, w0x4, w0x5, w0x6, w0x7, w0x8, w0x9, w0x10, w0x11, w0x12, w0x13, w0x14, w0x15, hR0⟩ :=
    rrP_entries [wordLE block 0, wordLE block 4, wordLE block 8, wordLE block 12, wordLE block 16, wordLE block 20, wordLE block 24, wordLE block 28, wordLE block 32, wordLE block 36, wordLE block 40, wordLE block 44, wordLE block 48, wordLE block 52, wordLE block 56, wordLE block 60]
      [0, 1, 2, 3, 4, 5, 6, 7, 8, 9, 10, 11, 12, 13, 14, 15] v0 v1 v2 v3 v4 v5 v6 v7 v8 v9 v10 v11 v12 v13 v14 v15
  rw [hR0]
  rw [roundS1]
  obtain ⟨w1x0, w1x1, w1x2, w1x3, w1x4, w1x5, w1x6, w1x7, w1x8, w1x9, w1x10, w1x11, w1x12, w1x13, w1x14, w1x15, hR1⟩ :=
    rrP_entries [wordLE block 0, wordLE block 4, wordLE block 8, wordLE block 12, wordLE block 16, wordLE block 20, wordLE block 24, wordLE block 28, wordLE block 32, wordLE block 36, wordLE block 40, wordLE block 44, wordLE block 48, wordLE block 52, wordLE block 56, wordLE block 60]
      [14, 10, 4, 8, 9, 15, 13, 6, 1, 12, 0, 2, 11, 7, 5, 3] w0x0 w0x1 w0x2 w0x3 w0x4 w0x5 w0x6 w0x7 w0x8 w0x9 w0x10 w0x11 w0x12 w0x13 w0x14 w0x15
  rw [hR1]
  rw [roundS2]
  obtain ⟨w2x0, w2x1, w2x2, w2x3, w2x4, w2x5, w2x6, w2x7, w2x8, w2x9, w2x10, w2x11, w2x12, w2x13, w2x14, w2x15, hR2⟩ :=
    rrP_entries [wordLE block 0, wordLE block 4, wordLE block 8, wordLE block 12, wordLE block 16, wordLE block 20, wordLE block 24, wordLE block 28, wordLE block 32, wordLE block 36, wordLE block 40, wordLE block 44, wordLE block 48, wordLE block 52, wordLE block 56, wordLE block 60]
      [11, 8, 12, 0, 5, 2, 15, 13, 10, 14, 3, 6, 7, 1, 9, 4] w1x0 w1x1 w1x2 w1x3 w1x4 w1x5 w1x6 w1x7 w1x8 w1x9 w1x10 w1x11 w1x12 w1x13 w1x14 w1x15
  rw [hR2]
  rw [roundS3]
  obtain ⟨w3x0, w3x1, w3x2, w3x3, w3x4, w3x5, w3x6, w3x7, w3x8, w3x9, w3x10, w3x11, w3x12, w3x13, w3x14, w3x15, hR3⟩ :=
    rrP_entries [wordLE block 0, wordLE block 4, wordLE block 8, wordLE block 12, wordLE block 16, wordLE block 20, wordLE block 24, wordLE block 28, wordLE block 32, wordLE block 36, wordLE block 40, wordLE block 44, wordLE block 48, wordLE block 52, wordLE block 56, wordLE block 60]
      [7, 9, 3, 1, 13, 12, 11, 14, 2, 6, 5, 10, 4, 0, 15, 8] w2x0 w2x1 w2x2 w2x3 w2x4 w2x5 w2x6 w2x7 w2x8 w2x9 w2x10 w2x11 w2x12 w2x13 w2x14 w2x15
  rw [hR3]
  rw [roundS4]
  obtain ⟨w4x0, w4x1, w4x2, w4x3, w4x4, w4x5, w4x6, w4x7, w4x8, w4x9, w4x10, w4x11, w4x12, w4x13, w4x14, w4x15, hR4⟩ :=
    rrP_entries [wordLE block 0, wordLE block 4, wordLE block 8, wordLE block 12, wordLE block 16, wordLE block 20, wordLE block 24, wordLE block 28, wordLE block 32, wordLE block 36, wordLE block 40, wordLE block 44, wordLE block 48, wordLE block 52, wordLE block 56, wordLE block 60]
      [9, 0, 5, 7, 2, 4, 10, 15, 14, 1, 11, 12, 6, 8, 3, 13] w3x0 w3x1 w3x2 w3x3 w3x4 w3x5 w3x6 w3x7 w3x8 w3x9 w3x10 w3x11 w3x12 w3x13 w3x14 w3x15
  rw [hR4]
  rw [roundS5]
  obtain ⟨w5x0, w5x1, w5x2, w5x3, w5x4, w5x5, w5x6, w5x7, w5x8, w5x9, w5x10, w5x11, w5x12, w5x13, w5x14, w5x15, hR5⟩ :=
    rrP_entries [wordLE block 0, wordLE block 4, wordLE block 8, wordLE block 12, wordLE block 16, wordLE block 20, wordLE block 24, wordLE block 28, wordLE block 32, wordLE block 36, wordLE block 40, wordLE block 44, wordLE block 48, wordLE block 52, wordLE block 56, wordLE block 60]
      [2, 12, 6, 10, 0, 11, 8, 3, 4, 13, 7, 5, 15, 14, 1, 9] w4x0 w4x1 w4x2 w4x3 w4x4 w4x5 w4x6 w4x7 w4x8 w4x9 w4x10 w4x11 w4x12 w4x13 w4x14 w4x15
  rw [hR5]
  rw [roundS6]
  obtain ⟨w6x0, w6x1, w6x2, w6x3, w6x4, w6x5, w6x6, w6x7, w6x8, w6x9, w6x10, w6x11, w6x12, w6x13, w6x14, w6x15, hR6⟩ :=
    rrP_entries [wordLE block 0, wordLE block 4, wordLE block 8, wordLE block 12, wordLE block 16, wordLE block 20, wordLE block 24, wordLE block 28, wordLE block 32, wordLE block 36, wordLE block 40, wordLE block 44, wordLE block 48, wordLE block 52, wordLE block 56, wordLE block 60]
      [12, 5, 1, 15, 14, 13, 4, 10, 0, 7, 6, 3, 9, 2, 8, 11] w5x0 w5x1 w5x2 w5x3 w5x4 w5x5 w5x6 w5x7 w5x8 w5x9 w5x10 w5x11 w5x12 w5x13 w5x14 w5x15
  rw [hR6]
  rw [roundS7]
  obtain ⟨w7x0, w7x1, w7x2, w7x3, w7x4, w7x5, w7x6, w7x7, w7x8, w7x9, w7x10, w7x11, w7x12, w7x13, w7x14, w7x15, hR7⟩ :=
    rrP_entries [wordLE block 0, wordLE block 4, wordLE block 8, wordLE block 12, wordLE block 16, wordLE block 20, wordLE block 24, wordLE block 28, wordLE block 32, wordLE block 36, wordLE block 40, wordLE block 44, wordLE block 48, wordLE block 52, wordLE block 56, wordLE block 60]
      [13, 11, 7, 14, 12, 1, 3, 9, 5, 0, 15, 4, 8, 6, 2, 10] w6x0 w6x1 w6x2 w6x3 w6x4 w6x5 w6x6 w6x7 w6x8 w6x9 w6x10 w6x11 w6x12 w6x13 w6x14 w6x15
  rw [hR7]
  rw [roundS8]
  obtain ⟨w8x0, w8x1, w8x2, w8x3, w8x4, w8x5, w8x6, w8x7, w8x8, w8x9, w8x10, w8x11, w8x12, w8x13, w8x14, w8x15, hR8⟩ :=
    rrP_entries [wordLE block 0, wordLE block 4, wordLE block 8, wordLE block 12, wordLE block 16, wordLE block 20, wordLE block 24, wordLE block 28, wordLE block 32, wordLE block 36, wordLE block 40, wordLE block 44, wordLE block 48, wordLE block 52, wordLE block 56, wordLE block 60]
      [6, 15, 14, 9, 11, 3, 0, 8, 12, 2, 13, 7, 1, 4, 10, 5] w7x0 w7x1 w7x2 w7x3 w7x4 w7x5 w7x6 w7x7 w7x8 w7x9 w7x10 w7x11 w7x12 w7x13 w7x14 w7x15
  rw [hR8]
  rw [roundS9]
  obtain ⟨w9x0, w9x1, w9x2, w9x3, w9x4, w9x5, w9x6, w9x7, w9x8, w9x9, w9x10, w9x11, w9x12, w9x13, w9x14, w9x15, hR9⟩ :=
    rrP_entries [wordLE block 0, wordLE block 4, wordLE block 8, wordLE block 12, wordLE block 16, wordLE block 20, wordLE block 24, wordLE block 28, wordLE block 32, wordLE block 36, wordLE block 40, wordLE block 44, wordLE block 48, wordLE block 52, wordLE block 56, wordLE block 60]
      [10, 2, 8, 4, 7, 6, 1, 5, 15, 11, 9, 14, 3, 12, 13, 0] w8x0 w8x1 w8x2 w8x3 w8x4 w8x5 w8x6 w8x7 w8x8 w8x9 w8x10 w8x11 w8x12 w8x13 w8x14 w8x15
  rw [hR9]
  rw [store_out]

theorem and_ones (x : Nat) (h : x < 2 ^ 32) : 4294967295 &&& x = x := by
  rw [Nat.and_comm, show (4294967295 : Nat) = 2 ^ 32 - 1 from by norm_num,
    Nat.and_pow_two_sub_one_eq_mod, Nat.mod_eq_of_lt h]

theorem getD_lt256 (b : List Nat) (hb : ∀ x ∈ b, x < 256) (j : Nat) :
    b.getD j 0 < 256 := by
  induction b generalizing j with
  | nil => simp [List.getD]
  | cons a t ih =>
    cases j with
    | zero => exact hb a (by simp)
    | succ n => exact ih (fun x hx => hb x (by simp [hx])) n

theorem wordLE_lt (b : List Nat) (hb : ∀ x ∈ b, x < 256) (j : Nat) :
    wordLE b j < 2 ^ 32 := by
  have g0 := getD_lt256 b hb j
  have g1 := getD_lt256 b hb (j+1)
  have g2 := getD_lt256 b hb (j+2)
  have g3 := getD_lt256 b hb (j+3)
  simp only [wordLE, wordOfBytes]
  omega

theorem schedS1_eq (m0 m1 m2 m3 m4 m5 m6 m7 m8 m9 m10 m11 m12 m13 m14 m15 : Nat)
    (h0 : m0 < 2 ^ 32)
    (h1 : m1 < 2 ^ 32)
    (h2 : m2 < 2 ^ 32)
    (h3 : m3 < 2 ^ 32)
    (h4 : m4 < 2 ^ 32)
    (h5 : m5 < 2 ^ 32)
    (h6 : m6 < 2 ^ 32)
    (h7 : m7 < 2 ^ 32)
    (h8 : m8 < 2 ^ 32)
    (h9 : m9 < 2 ^ 32)
    (h10 : m10 < 2 ^ 32)
    (h11 : m11 < 2 ^ 32)
    (h12 : m12 < 2 ^ 32)
    (h13 : m13 < 2 ^ 32)
    (h14 : m14 < 2 ^ 32)
    (h15 : m15 < 2 ^ 32) :
    schedS1 (⟨m0, m2, m4, m6⟩, ⟨m1, m3, m5, m7⟩,
     ⟨m8, m10, m12, m14⟩, ⟨m9, m11, m13, m15⟩) =
      (⟨m14, m4, m9, m13⟩, ⟨m10, m8, m15, m6⟩,
     ⟨m1, m0, m11, m5⟩, ⟨m12, m2, m7, m3⟩) := by
  simp [schedS1, mm_shuffle_epi32, V128.lane, mm_and_si128, mm_andnot_si128,
    mm_or_si128, xz1, xz2, xz3, xz4, xz5, xz6, xz7]
  repeat' apply And.intro
  all_goals exact and_ones _ (by assumption)

theorem schedS2_eq (m0 m1 m2 m3 m4 m5 m6 m7 m8 m9 m10 m11 m12 m13 m14 m15 : Nat)
    (h0 : m0 < 2 ^ 32)
    (h1 : m1 < 2 ^ 32)
    (h2 : m2 < 2 ^ 32)
    (h3 : m3 < 2 ^ 32)
    (h4 : m4 < 2 ^ 32)
    (h5 : m5 < 2 ^ 32)
    (h6 : m6 < 2 ^ 32)
    (h7 : m7 < 2 ^ 32)
    (h8 : m8 < 2 ^ 32)
    (h9 : m9 < 2 ^ 32)
    (h10 : m10 < 2 ^ 32)
    (h11 : m11 < 2 ^ 32)
    (h12 : m12 < 2 ^ 32)
    (h13 : m13 < 2 ^ 32)
    (h14 : m14 < 2 ^ 32)
    (h15 : m15 < 2 ^ 32) :
    schedS2 (⟨m14, m4, m9, m13⟩, ⟨m10, m8, m15, m6⟩,
     ⟨m1, m0, m11, m5⟩, ⟨m12, m2, m7, m3⟩) =
      (⟨m11, m12, m5, m15⟩, ⟨m8, m0, m2, m13⟩,
     ⟨m10, m3, m7, m9⟩, ⟨m14, m6, m1, m4⟩) := by
  simp [schedS2, mm_shuffle_epi32, V128.lane, mm_and_si128, mm_andnot_si128,
    mm_or_si128, xz1, xz2, xz3, xz4, xz5, xz6, xz7]
  repeat' apply And.intro
  all_goals exact and_ones _ (by assumption)

theorem schedS3_eq (m0 m1 m2 m3 m4 m5 m6 m7 m8 m9 m10 m11 m12 m13 m14 m15 : Nat)
    (h0 : m0 < 2 ^ 32)
    (h1 : m1 < 2 ^ 32)
    (h2 : m2 < 2 ^ 32)
    (h3 : m3 < 2 ^ 32)
    (h4 : m4 < 2 ^ 32)
    (h5 : m5 < 2 ^ 32)
    (h6 : m6 < 2 ^ 32)
    (h7 : m7 < 2 ^ 32)
    (h8 : m8 < 2 ^ 32)
    (h9 : m9 < 2 ^ 32)
    (h10 : m10 < 2 ^ 32)
    (h11 : m11 < 2 ^ 32)
    (h12 : m12 < 2 ^ 32)
    (h13 : m13 < 2 ^ 32)
    (h14 : m14 < 2 ^ 32)
    (h15 : m15 < 2 ^ 32) :
    schedS3 (⟨m11, m12, m5, m15⟩, ⟨m8, m0, m2, m13⟩,
     ⟨m10, m3, m7, m9⟩, ⟨m14, m6, m1, m4⟩) =
      (⟨m7, m3, m13, m11⟩, ⟨m9, m1, m12, m14⟩,
     ⟨m2, m5, m4, m15⟩, ⟨m6, m10, m0, m8⟩) := by
  simp [schedS3, mm_shuffle_epi32, V128.lane, mm_and_si128, mm_andnot_si128,
    mm_or_si128, xz1, xz2, xz3, xz4, xz5, xz6, xz7]
  repeat' apply And.intro
  all_goals exact and_ones _ (by assumption)

theorem schedS4_eq (m0 m1 m2 m3 m4 m5 m6 m7 m8 m9 m10 m11 m12 m13 m14 m15 : Nat)
    (h0 : m0 < 2 ^ 32)
    (h1 : m1 < 2 ^ 32)
    (h2 : m2 < 2 ^ 32)
    (h3 : m3 < 2 ^ 32)
    (h4 : m4 < 2 ^ 32)
    (h5 : m5 < 2 ^ 32)
    (h6 : m6 < 2 ^ 32)
    (h7 : m7 < 2 ^ 32)
    (h8 : m8 < 2 ^ 32)
    (h9 : m9 < 2 ^ 32)
    (h10 : m10 < 2 ^ 32)
    (h11 : m11 < 2 ^ 32)
    (h12 : m12 < 2 ^ 32)
    (h13 : m13 < 2 ^ 32)
    (h14 : m14 < 2 ^ 32)
    (h15 : m15 < 2 ^ 32) :
    schedS4 (⟨m7, m3, m13, m11⟩, ⟨m9, m1, m12, m14⟩,
     ⟨m2, m5, m4, m15⟩, ⟨m6, m10, m0, m8⟩) =
      (⟨m9, m5, m2, m10⟩, ⟨m0, m7, m4, m15⟩,
     ⟨m14, m11, m6, m3⟩, ⟨m1, m12, m8, m13⟩) := by
  simp [schedS4, mm_shuffle_epi32, V128.lane, mm_and_si128, mm_andnot_si128,
    mm_or_si128, xz1, xz2, xz3, xz4, xz5, xz6, xz7]
  repeat' apply And.intro
  all_goals exact and_ones _ (by assumption)

theorem schedS5_eq (m0 m1 m2 m3 m4 m5 m6 m7 m8 m9 m10 m11 m12 m13 m14 m15 : Nat)
    (h0 : m0 < 2 ^ 32)
    (h1 : m1 < 2 ^ 32)
    (h2 : m2 < 2 ^ 32)
    (h3 : m3 < 2 ^ 32)
    (h4 : m4 < 2 ^ 32)
    (h5 : m5 < 2 ^ 32)
    (h6 : m6 < 2 ^ 32)
    (h7 : m7 < 2 ^ 32)
    (h8 : m8 < 2 ^ 32)
    (h9 : m9 < 2 ^ 32)
    (h10 : m10 < 2 ^ 32)
    (h11 : m11 < 2 ^ 32)
    (h12 : m12 < 2 ^ 32)
    (h13 : m13 < 2 ^ 32)
    (h14 : m14 < 2 ^ 32)
    (h15 : m15 < 2 ^ 32) :
    schedS5 (⟨m9, m5, m2, m10⟩, ⟨m0, m7, m4, m15⟩,
     ⟨m14, m11, m6, m3⟩, ⟨m1, m12, m8, m13⟩) =
      (⟨m2, m6, m0, m8⟩, ⟨m12, m10, m11, m3⟩,
     ⟨m4, m7, m15, m1⟩, ⟨m13, m5, m14, m9⟩) := by
  simp [schedS5, mm_shuffle_epi32, V128.lane, mm_and_si128, mm_andnot_si128,
    mm_or_si128, xz1, xz2, xz3, xz4, xz5, xz6, xz7]
  repeat' apply And.intro
  all_goals exact and_ones _ (by assumption)

theorem schedS6_eq (m0 m1 m2 m3 m4 m5 m6 m7 m8 m9 m10 m11 m12 m13 m14 m15 : Nat)
    (h0 : m0 < 2 ^ 32)
    (h1 : m1 < 2 ^ 32)
    (h2 : m2 < 2 ^ 32)
    (h3 : m3 < 2 ^ 32)
    (h4 : m4 < 2 ^ 32)
    (h5 : m5 < 2 ^ 32)
    (h6 : m6 < 2 ^ 32)
    (h7 : m7 < 2 ^ 32)
    (h8 : m8 < 2 ^ 32)
    (h9 : m9 < 2 ^ 32)
    (h10 : m10 < 2 ^ 32)
    (h11 : m11 < 2 ^ 32)
    (h12 : m12 < 2 ^ 32)
    (h13 : m13 < 2 ^ 32)
    (h14 : m14 < 2 ^ 32)
    (h15 : m15 < 2 ^ 32) :
    schedS6 (⟨m2, m6, m0, m8⟩, ⟨m12, m10, m11, m3⟩,
     ⟨m4, m7, m15, m1⟩, ⟨m13, m5, m14, m9⟩) =
      (⟨m12, m1, m14, m4⟩, ⟨m5, m15, m13, m10⟩,
     ⟨m0, m6, m9, m8⟩, ⟨m7, m3, m2, m11⟩) := by
  simp [schedS6, mm_shuffle_epi32, V128.lane, mm_and_si128, mm_andnot_si128,
    mm_or_si128, xz1, xz2, xz3, xz4, xz5, xz6, xz7]
  repeat' apply And.intro
  all_goals exact and_ones _ (by assumption)

theorem schedS7_eq (m0 m1 m2 m3 m4 m5 m6 m7 m8 m9 m10 m11 m12 m13 m14 m15 : Nat)
    (h0 : m0 < 2 ^ 32)
    (h1 : m1 < 2 ^ 32)
    (h2 : m2 < 2 ^ 32)
    (h3 : m3 < 2 ^ 32)
    (h4 : m4 < 2 ^ 32)
    (h5 : m5 < 2 ^ 32)
    (h6 : m6 < 2 ^ 32)
    (h7 : m7 < 2 ^ 32)
    (h8 : m8 < 2 ^ 32)
    (h9 : m9 < 2 ^ 32)
    (h10 : m10 < 2 ^ 32)
    (h11 : m11 < 2 ^ 32)
    (h12 : m12 < 2 ^ 32)
    (h13 : m13 < 2 ^ 32)
    (h14 : m14 < 2 ^ 32)
    (h15 : m15 < 2 ^ 32) :
    schedS7 (⟨m12, m1, m14, m4⟩, ⟨m5, m15, m13, m10⟩,
     ⟨m0, m6, m9, m8⟩, ⟨m7, m3, m2, m11⟩) =
      (⟨m13, m7, m12, m3⟩, ⟨m11, m14, m1, m9⟩,
     ⟨m5, m15, m8, m2⟩, ⟨m0, m4, m6, m10⟩) := by
  simp [schedS7, mm_shuffle_epi32, V128.lane, mm_and_si128, mm_andnot_si128,
    mm_or_si128, xz1, xz2, xz3, xz4, xz5, xz6, xz7]
  repeat' apply And.intro
  all_goals exact and_ones _ (by assumption)

theorem schedS8_eq (m0 m1 m2 m3 m4 m5 m6 m7 m8 m9 m10 m11 m12 m13 m14 m15 : Nat)
    (h0 : m0 < 2 ^ 32)
    (h1 : m1 < 2 ^ 32)
    (h2 : m2 < 2 ^ 32)
    (h3 : m3 < 2 ^ 32)
    (h4 : m4 < 2 ^ 32)
    (h5 : m5 < 2 ^ 32)
    (h6 : m6 < 2 ^ 32)
    (h7 : m7 < 2 ^ 32)
    (h8 : m8 < 2 ^ 32)
    (h9 : m9 < 2 ^ 32)
    (h10 : m10 < 2 ^ 32)
    (h11 : m11 < 2 ^ 32)
    (h12 : m12 < 2 ^ 32)
    (h13 : m13 < 2 ^ 32)
    (h14 : m14 < 2 ^ 32)
    (h15 : m15 < 2 ^ 32) :
    schedS8 (⟨m13, m7, m12, m3⟩, ⟨m11, m14, m1, m9⟩,
     ⟨m5, m15, m8, m2⟩, ⟨m0, m4, m6, m10⟩) =
      (⟨m6, m14, m11, m0⟩, ⟨m15, m9, m3, m8⟩,
     ⟨m12, m13, m1, m10⟩, ⟨m2, m7, m4, m5⟩) := by
  simp [schedS8, mm_shuffle_epi32, V128.lane, mm_and_si128, mm_andnot_si128,
    mm_or_si128, xz1, xz2, xz3, xz4, xz5, xz6, xz7]
  repeat' apply And.intro
  all_goals exact and_ones _ (by assumption)

theorem schedS9_eq (m0 m1 m2 m3 m4 m5 m6 m7 m8 m9 m10 m11 m12 m13 m14 m15 : Nat)
    (h0 : m0 < 2 ^ 32)
    (h1 : m1 < 2 ^ 32)
    (h2 : m2 < 2 ^ 32)
    (h3 : m3 < 2 ^ 32)
    (h4 : m4 < 2 ^ 32)
    (h5 : m5 < 2 ^ 32)
    (h6 : m6 < 2 ^ 32)
    (h7 : m7 < 2 ^ 32)
    (h8 : m8 < 2 ^ 32)
    (h9 : m9 < 2 ^ 32)
    (h10 : m10 < 2 ^ 32)
    (h11 : m11 < 2 ^ 32)
    (h12 : m12 < 2 ^ 32)
    (h13 : m13 < 2 ^ 32)
    (h14 : m14 < 2 ^ 32)
    (h15 : m15 < 2 ^ 32) :
    schedS9 (⟨m6, m14, m11, m0⟩, ⟨m15, m9, m3, m8⟩,
     ⟨m12, m13, m1, m10⟩, ⟨m2, m7, m4, m5⟩) =
      (⟨m10, m8, m7, m1⟩, ⟨m2, m4, m6, m5⟩,
     ⟨m15, m9, m3, m13⟩, ⟨m11, m14, m12, m0⟩) := by
  simp [schedS9, mm_shuffle_epi32, V128.lane, mm_and_si128, mm_andnot_si128,
    mm_or_si128, xz1, xz2, xz3, xz4, xz5, xz6, xz7]
  repeat' apply And.intro
  all_goals exact and_ones _ (by assumption)

theorem msgsS_eq (block : List Nat) (hb : ∀ x ∈ block, x < 256) :
    msgsS block =
    [(⟨wordLE block 0, wordLE block 8, wordLE block 16, wordLE block 24⟩,
     ⟨wordLE block 4, wordLE block 12, wordLE block 20, wordLE block 28⟩,
     ⟨wordLE block 32, wordLE block 40, wordLE block 48, wordLE block 56⟩,
     ⟨wordLE block 36, wordLE block 44, wordLE block 52, wordLE block 60⟩),
     (⟨wordLE block 56, wordLE block 16, wordLE block 36, wordLE block 52⟩,
     ⟨wordLE block 40, wordLE block 32, wordLE block 60, wordLE block 24⟩,
     ⟨wordLE block 4, wordLE block 0, wordLE block 44, wordLE block 20⟩,
     ⟨wordLE block 48, wordLE block 8, wordLE block 28, wordLE block 12⟩),
     (⟨wordLE block 44, wordLE block 48, wordLE block 20, wordLE block 60⟩,
     ⟨wordLE block 32, wordLE block 0, wordLE block 8, wordLE block 52⟩,
     ⟨wordLE block 40, wordLE block 12, wordLE block 28, wordLE block 36⟩,
     ⟨wordLE block 56, wordLE block 24, wordLE block 4, wordLE block 16⟩),
     (⟨wordLE block 28, wordLE block 12, wordLE block 52, wordLE block 44⟩,
     ⟨wordLE block 36, wordLE block 4, wordLE block 48, wordLE block 56⟩,
     ⟨wordLE block 8, wordLE block 20, wordLE block 16, wordLE block 60⟩,
     ⟨wordLE block 24, wordLE block 40, wordLE block 0, wordLE block 32⟩),
     (⟨wordLE block 36, wordLE block 20, wordLE block 8, wordLE block 40⟩,
     ⟨wordLE block 0, wordLE block 28, wordLE block 16, wordLE block 60⟩,
     ⟨wordLE block 56, wordLE block 44, wordLE block 24, wordLE block 12⟩,
     ⟨wordLE block 4, wordLE block 48, wordLE block 32, wordLE block 52⟩),
     (⟨wordLE block 8, wordLE block 24, wordLE block 0, wordLE block 32⟩,
     ⟨wordLE block 48, wordLE block 40, wordLE block 44, wordLE block 12⟩,
     ⟨wordLE block 16, wordLE block 28, wordLE block 60, wordLE block 4⟩,
     ⟨wordLE block 52, wordLE block 20, wordLE block 56, wordLE block 36⟩),
     (⟨wordLE block 48, wordLE block 4, wordLE block 56, wordLE block 16⟩,
     ⟨wordLE block 20, wordLE block 60, wordLE block 52, wordLE block 40⟩,
     ⟨wordLE block 0, wordLE block 24, wordLE block 36, wordLE block 32⟩,
     ⟨wordLE block 28, wordLE block 12, wordLE block 8, wordLE block 44⟩),
     (⟨wordLE block 52, wordLE block 28, wordLE block 48, wordLE block 12⟩,
     ⟨wordLE block 44, wordLE block 56, wordLE block 4, wordLE block 36⟩,
     ⟨wordLE block 20, wordLE block 60, wordLE block 32, wordLE block 8⟩,
     ⟨wordLE block 0, wordLE block 16, wordLE block 24, wordLE block 40⟩),
     (⟨wordLE block 24, wordLE block 56, wordLE block 44, wordLE block 0⟩,
     ⟨wordLE block 60, wordLE block 36, wordLE block 12, wordLE block 32⟩,
     ⟨wordLE block 48, wordLE block 52, wordLE block 4, wordLE block 40⟩,
     ⟨wordLE block 8, wordLE block 28, wordLE block 16, wordLE block 20⟩),
     (⟨wordLE block 40, wordLE block 32, wordLE block 28, wordLE block 4⟩,
     ⟨wordLE block 8, wordLE block 16, wordLE block 24, wordLE block 20⟩,
     ⟨wordLE block 60, wordLE block 36, wordLE block 12, wordLE block 52⟩,
     ⟨wordLE block 44, wordLE block 56, wordLE block 48, wordLE block 0⟩)] := by
  simp only [msgsS]
  rw [loadMsg_eq]
  rw [schedS1_eq]
  rw [schedS2_eq]
  rw [schedS3_eq]
  rw [schedS4_eq]
  rw [schedS5_eq]
  rw [schedS6_eq]
  rw [schedS7_eq]
  rw [schedS8_eq]
  rw [schedS9_eq]
  all_goals exact wordLE_lt block hb _

set_option maxHeartbeats 1000000 in
theorem sse2_process_block_eq (h block : List Nat) (ctr : Nat) (last : Bool)
    (hbb : ∀ x ∈ block, x < 256) :
    sse2_process_block h block ctr last = process_block h block ctr last := by
  rw [sse2_shape, msgsS_eq block hbb]
  rw [getD10_0, getD10_1, getD10_2, getD10_3, getD10_4, getD10_5,
    getD10_6, getD10_7, getD10_8, getD10_9]
  rw [process_block_shape]
  rw [show msgWords block = [wordLE block 0, wordLE block 4, wordLE block 8, wordLE block 12, wordLE block 16, wordLE block 20, wordLE block 24, wordLE block 28, wordLE block 32, wordLE block 36, wordLE block 40, wordLE block 44, wordLE block 48, wordLE block 52, wordLE block 56, wordLE block 60] from rfl]
  obtain ⟨v0, v1, v2, v3, v4, v5, v6, v7, v8, v9, v10, v11, v12, v13, v14, v15, hI⟩ :
      ∃ c0 c1 c2 c3 c4 c5 c6 c7 c8 c9 c10 c11 c12 c13 c14 c15,
        ([h.getD 0 0,
         h.getD 1 0,
         h.getD 2 0,
         h.getD 3 0,
         h.getD 4 0,
         h.getD 5 0,
         h.getD 6 0,
         h.getD 7 0,
         1779033703,
         3144134277,
         1013904242,
         2773480762,
         1359893119 ^^^ ctr % 2 ^ 32,
         2600822924 ^^^ (ctr >>> 32) % 2 ^ 32,
         528734635 ^^^ (if last then 4294967295 else 0),
         1541459225] : List Nat) = [c0, c1, c2, c3, c4, c5, c6, c7, c8, c9, c10, c11, c12, c13, c14, c15] :=
    ⟨_, _, _, _, _, _, _, _, _, _, _, _, _, _, _, _, rfl⟩
  rw [hI]
  rw [roundS0]
  obtain ⟨u0x0, u0x1, u0x2, u0x3, u0x4, u0x5, u0x6, u0x7, u0x8, u0x9, u0x10, u0x11, u0x12, u0x13, u0x14, u0x15, hQ0⟩ :=
    rrP_entries [wordLE block 0, wordLE block 4, wordLE block 8, wordLE block 12, wordLE block 16, wordLE block 20, wordLE block 24, wordLE block 28, wordLE block 32, wordLE block 36, wordLE block 40, wordLE block 44, wordLE block 48, wordLE block 52, wordLE block 56, wordLE block 60]
      [0, 1, 2, 3, 4, 5, 6, 7, 8, 9, 10, 11, 12, 13, 14, 15] v0 v1 v2 v3 v4 v5 v6 v7 v8 v9 v10 v11 v12 v13 v14 v15
  rw [hQ0]
  rw [roundS1]
  obtain ⟨u1x0, u1x1, u1x2, u1x3, u1x4, u1x5, u1x6, u1x7, u1x8, u1x9, u1x10, u1x11, u1x12, u1x13, u1x14, u1x15, hQ1⟩ :=
    rrP_entries [wordLE block 0, wordLE block 4, wordLE block 8, wordLE block 12, wordLE block 16, wordLE block 20, wordLE block 24, wordLE block 28, wordLE block 32, wordLE block 36, wordLE block 40, wordLE block 44, wordLE block 48, wordLE block 52, wordLE block 56, wordLE block 60]
      [14, 10, 4, 8, 9, 15, 13, 6, 1, 12, 0, 2, 11, 7, 5, 3] u0x0 u0x1 u0x2 u0x3 u0x4 u0x5 u0x6 u0x7 u0x8 u0x9 u0x10 u0x11 u0x12 u0x13 u0x14 u0x15
  rw [hQ1]
  rw [roundS2]
  obtain ⟨u2x0, u2x1, u2x2, u2x3, u2x4, u2x5, u2x6, u2x7, u2x8, u2x9, u2x10, u2x11, u2x12, u2x13, u2x14, u2x15, hQ2⟩ :=
    rrP_entries [wordLE block 0, wordLE block 4, wordLE block 8, wordLE block 12, wordLE block 16, wordLE block 20, wordLE block 24, wordLE block 28, wordLE block 32, wordLE block 36, wordLE block 40, wordLE block 44, wordLE block 48, wordLE block 52, wordLE block 56, wordLE block 60]
      [11, 8, 12, 0, 5, 2, 15, 13, 10, 14, 3, 6, 7, 1, 9, 4] u1x0 u1x1 u1x2 u1x3 u1x4 u1x5 u1x6 u1x7 u1x8 u1x9 u1x10 u1x11 u1x12 u1x13 u1x14 u1x15
  rw [hQ2]
  rw [roundS3]
  obtain ⟨u3x0, u3x1, u3x2, u3x3, u3x4, u3x5, u3x6, u3x7, u3x8, u3x9, u3x10, u3x11, u3x12, u3x13, u3x14, u3x15, hQ3⟩ :=
    rrP_entries [wordLE block 0, wordLE block 4, wordLE block 8, wordLE block 12, wordLE block 16, wordLE block 20, wordLE block 24, wordLE block 28, wordLE block 32, wordLE block 36, wordLE block 40, wordLE block 44, wordLE block 48, wordLE block 52, wordLE block 56, wordLE block 60]
      [7, 9, 3, 1, 13, 12, 11, 14, 2, 6, 5, 10, 4, 0, 15, 8] u2x0 u2x1 u2x2 u2x3 u2x4 u2x5 u2x6 u2x7 u2x8 u2x9 u2x10 u2x11 u2x12 u2x13 u2x14 u2x15
  rw [hQ3]
  rw [roundS4]
  obtain ⟨u4x0, u4x1, u4x2, u4x3, u4x4, u4x5, u4x6, u4x7, u4x8, u4x9, u4x10, u4x11, u4x12, u4x13, u4x14, u4x15, hQ4⟩ :=
    rrP_entries [wordLE block 0, wordLE block 4, wordLE block 8, wordLE block 12, wordLE block 16, wordLE block 20, wordLE block 24, wordLE block 28, wordLE block 32, wordLE block 36, wordLE block 40, wordLE block 44, wordLE block 48, wordLE block 52, wordLE block 56, wordLE block 60]
      [9, 0, 5, 7, 2, 4, 10, 15, 14, 1, 11, 12, 6, 8, 3, 13] u3x0 u3x1 u3x2 u3x3 u3x4 u3x5 u3x6 u3x7 u3x8 u3x9 u3x10 u3x11 u3x12 u3x13 u3x14 u3x15
  rw [hQ4]
  rw [roundS5]
  obtain ⟨u5x0, u5x1, u5x2, u5x3, u5x4, u5x5, u5x6, u5x7, u5x8, u5x9, u5x10, u5x11, u5x12, u5x13, u5x14, u5x15, hQ5⟩ :=
    rrP_entries [wordLE block 0, wordLE block 4, wordLE block 8, wordLE block 12, wordLE block 16, wordLE block 20, wordLE block 24, wordLE block 28, wordLE block 32, wordLE block 36, wordLE block 40, wordLE block 44, wordLE block 48, wordLE block 52, wordLE block 56, wordLE block 60]
      [2, 12, 6, 10, 0, 11, 8, 3, 4, 13, 7, 5, 15, 14, 1, 9] u4x0 u4x1 u4x2 u4x3 u4x4 u4x5 u4x6 u4x7 u4x8 u4x9 u4x10 u4x11 u4x12 u4x13 u4x14 u4x15
  rw [hQ5]
  rw [roundS6]
  obtain ⟨u6x0, u6x1, u6x2, u6x3, u6x4, u6x5, u6x6, u6x7, u6x8, u6x9, u6x10, u6x11, u6x12, u6x13, u6x14, u6x15, hQ6⟩ :=
    rrP_entries [wordLE block 0, wordLE block 4, wordLE block 8, wordLE block 12, wordLE block 16, wordLE block 20, wordLE block 24, wordLE block 28, wordLE block 32, wordLE block 36, wordLE block 40, wordLE block 44, wordLE block 48, wordLE block 52, wordLE block 56, wordLE block 60]
      [12, 5, 1, 15, 14, 13, 4, 10, 0, 7, 6, 3, 9, 2, 8, 11] u5x0 u5x1 u5x2 u5x3 u5x4 u5x5 u5x6 u5x7 u5x8 u5x9 u5x10 u5x11 u5x12 u5x13 u5x14 u5x15
  rw [hQ6]
  rw [roundS7]
  obtain ⟨u7x0, u7x1, u7x2, u7x3, u7x4, u7x5, u7x6, u7x7, u7x8, u7x9, u7x10, u7x11, u7x12, u7x13, u7x14, u7x15, hQ7⟩ :=
    rrP_entries [wordLE block 0, wordLE block 4, wordLE block 8, wordLE block 12, wordLE block 16, wordLE block 20, wordLE block 24, wordLE block 28, wordLE block 32, wordLE block 36, wordLE block 40, wordLE block 44, wordLE block 48, wordLE block 52, wordLE block 56, wordLE block 60]
      [13, 11, 7, 14, 12, 1, 3, 9, 5, 0, 15, 4, 8, 6, 2, 10] u6x0 u6x1 u6x2 u6x3 u6x4 u6x5 u6x6 u6x7 u6x8 u6x9 u6x10 u6x11 u6x12 u6x13 u6x14 u6x15
  rw [hQ7]
  rw [roundS8]
  obtain ⟨u8x0, u8x1, u8x2, u8x3, u8x4, u8x5, u8x6, u8x7, u8x8, u8x9, u8x10, u8x11, u8x12, u8x13, u8x14, u8x15, hQ8⟩ :=
    rrP_entries [wordLE block 0, wordLE block 4, wordLE block 8, wordLE block 12, wordLE block 16, wordLE block 20, wordLE block 24, wordLE block 28, wordLE block 32, wordLE block 36, wordLE block 40, wordLE block 44, wordLE block 48, wordLE block 52, wordLE block 56, wordLE block 60]
      [6, 15, 14, 9, 11, 3, 0, 8, 12, 2, 13, 7, 1, 4, 10, 5] u7x0 u7x1 u7x2 u7x3 u7x4 u7x5 u7x6 u7x7 u7x8 u7x9 u7x10 u7x11 u7x12 u7x13 u7x14 u7x15
  rw [hQ8]
  rw [roundS9]
  obtain ⟨u9x0, u9x1, u9x2, u9x3, u9x4, u9x5, u9x6, u9x7, u9x8, u9x9, u9x10, u9x11, u9x12, u9x13, u9x14, u9x15, hQ9⟩ :=
    rrP_entries [wordLE block 0, wordLE block 4, wordLE block 8, wordLE block 12, wordLE block 16, wordLE block 20, wordLE block 24, wordLE block 28, wordLE block 32, wordLE block 36, wordLE block 40, wordLE block 44, wordLE block 48, wordLE block 52, wordLE block 56, wordLE block 60]
      [10, 2, 8, 4, 7, 6, 1, 5, 15, 11, 9, 14, 3, 12, 13, 0] u8x0 u8x1 u8x2 u8x3 u8x4 u8x5 u8x6 u8x7 u8x8 u8x9 u8x10 u8x11 u8x12 u8x13 u8x14 u8x15
  rw [hQ9]
  rw [store_out]

/-- C2: for every machine-level input tuple — a state of 8 32-bit
words, a 64-byte block, a 64-bit counter and a finalization flag — the
portable, AVX2 and SSE2 `process_block` backends produce an identical
updated state. -/
theorem c2_backend_equivalence (h block : List Nat) (ctr : Nat) (last : Bool)
    (hh : h.length = 8) (hhw : ∀ x ∈ h, x < 2 ^ 32)
    (hblen : block.length = 64) (hbb : ∀ x ∈ block, x < 256)
    (hctr : ctr < 2 ^ 64) :
    avx2_process_block h block ctr last = process_block h block ctr last ∧
    sse2_process_block h block ctr last = process_block h block ctr last :=
  ⟨avx2_process_block_eq h block ctr last, sse2_process_block_eq h block ctr last hbb⟩

set_option maxRecDepth 100000 in
theorem c2_witness :
    ([1, 2, 3, 4, 5, 6, 7, 8] : List Nat).length = 8 ∧
    (∀ x ∈ ([1, 2, 3, 4, 5, 6, 7, 8] : List Nat), x < 2 ^ 32) ∧
    (List.range 64).length = 64 ∧
    (∀ x ∈ List.range 64, x < 256) ∧
    (64 : Nat) < 2 ^ 64 ∧
    (avx2_process_block [1, 2, 3, 4, 5, 6, 7, 8] (List.range 64) 64 true
        = process_block [1, 2, 3, 4, 5, 6, 7, 8] (List.range 64) 64 true ∧
     sse2_process_block [1, 2, 3, 4, 5, 6, 7, 8] (List.range 64) 64 true
        = process_block [1, 2, 3, 4, 5, 6, 7, 8] (List.range 64) 64 true) :=
  ⟨by decide, by decide, by decide, by decide, by decide,
   c2_backend_equivalence _ _ _ _ (by decide) (by decide) (by decide)
     (by decide) (by decide)⟩

end B2s
